import Mathlib

/-! # MCLinker: the ARM relocation scanner and the relocation factory

A shallow embedding of `lib/Target/ARM/ARMLDBackend.cpp`: the predicates
`isSymbolNeedsPLT`, `isSymbolNeedsDynRel`, `isSymbolPreemtible`, the guard
`checkValidReloc`, the section constructors `createARMGOT`,
`createARMPLTandRelPLT`, `createARMRelDyn`, and the scanner
`scanLocalReloc` / `scanGlobalReloc` / `scanRelocation`.

C++ objects reached through pointers become fields of an explicit state
(`ScanState`); `llvm::report_fatal_error` becomes the outcome
`Outcome.fatal`, which keeps the state the process had when it aborted.

The pre-read of `RelocationFactory::produce` (`lib/LD/RelocationFactory.cpp`) is
embedded over byte sequences, with the byte order of the host as a parameter.
-/

namespace mcld

/-! ## Data model -/

/-- Modelled from the spec: `Output::Type` (mcld/MC/MCLDOutput.h is not among the
sources); the spec lists the output types Exec, DynObj and Relocatable. -/
inductive OutputType
  | Object
  | DynObj
  | Exec
  deriving DecidableEq, Repr

/-- Modelled from the spec: `ResolveInfo::Type`. -/
inductive SymType
  | NoType
  | Object
  | Function
  | Section
  | File
  | CommonBlock
  | ThreadLocal
  deriving DecidableEq, Repr

/-- Modelled from the spec: `ResolveInfo::Binding`. -/
inductive Binding
  | Local
  | Global
  | Weak
  deriving DecidableEq, Repr

/-- Modelled from the spec: `ResolveInfo::Visibility`. -/
inductive Visibility
  | Default
  | Internal
  | Hidden
  | Protected
  deriving DecidableEq, Repr

/-- Modelled from the spec: `ResolveInfo::Desc`. -/
inductive Desc
  | Undefined
  | Define
  | Common
  | Indirect
  deriving DecidableEq, Repr

/-- Modelled from the spec: the symbol record `ResolveInfo` (its header is not among
the sources).  `source` is true for a symbol that comes from a shared object,
`absolute` for an absolute symbol, `reserved` is the reservation mask
(`RelReserved = 0x1`, `GOT = 0x2`, `GOTRel = 0x4`, `PLT = 0x8`). -/
structure ResolveInfo where
  name : String
  type : SymType
  binding : Binding
  other : Visibility
  desc : Desc
  source : Bool
  absolute : Bool
  reserved : Nat
  deriving DecidableEq, Repr

namespace ResolveInfo

/-- Modelled from the spec: `ResolveInfo::isDyn`, the symbol is from a shared object. -/
def isDyn (r : ResolveInfo) : Bool := r.source

/-- Modelled from the spec: `ResolveInfo::isUndef`, the desc is Undefined. -/
def isUndef (r : ResolveInfo) : Bool := decide (r.desc = Desc.Undefined)

/-- Modelled from the spec: `ResolveInfo::isDefine`, the desc is Define. -/
def isDefine (r : ResolveInfo) : Bool := decide (r.desc = Desc.Define)

/-- Modelled from the spec: `ResolveInfo::isAbsolute`. -/
def isAbsolute (r : ResolveInfo) : Bool := r.absolute

/-- Modelled from the spec: `ResolveInfo::isLocal`, the binding is Local. -/
def isLocal (r : ResolveInfo) : Bool := decide (r.binding = Binding.Local)

/-- Modelled from the spec: `ResolveInfo::isGlobal`, the binding is Global. -/
def isGlobal (r : ResolveInfo) : Bool := decide (r.binding = Binding.Global)

/-- Modelled from the spec: `ResolveInfo::setReserved`, the mask is overwritten. -/
def setReserved (r : ResolveInfo) (v : Nat) : ResolveInfo := { r with reserved := v }

end ResolveInfo

/-- Modelled from the spec: the part of `MCLDInfo` the scanner reads, the Bsymbolic
option (`pLDInfo.options().Bsymbolic()`). -/
structure MCLDInfo where
  Bsymbolic : Bool
  deriving DecidableEq, Repr

/-! ### Relocation types

The `ELF::R_ARM_*` constants the scanner names, from LLVM's `llvm/Support/ELF.h`,
with the values the ELF ABI for the ARM architecture gives them. -/

abbrev R_ARM_PC24 : Nat := 0x01
abbrev R_ARM_ABS32 : Nat := 0x02
abbrev R_ARM_REL32 : Nat := 0x03
abbrev R_ARM_LDR_PC_G0 : Nat := 0x04
abbrev R_ARM_ABS16 : Nat := 0x05
abbrev R_ARM_ABS12 : Nat := 0x06
abbrev R_ARM_THM_ABS5 : Nat := 0x07
abbrev R_ARM_ABS8 : Nat := 0x08
abbrev R_ARM_SBREL32 : Nat := 0x09
abbrev R_ARM_THM_CALL : Nat := 0x0a
abbrev R_ARM_THM_PC8 : Nat := 0x0b
abbrev R_ARM_TLS_DTPMOD32 : Nat := 0x11
abbrev R_ARM_TLS_DTPOFF32 : Nat := 0x12
abbrev R_ARM_TLS_TPOFF32 : Nat := 0x13
abbrev R_ARM_COPY : Nat := 0x14
abbrev R_ARM_GLOB_DAT : Nat := 0x15
abbrev R_ARM_JUMP_SLOT : Nat := 0x16
abbrev R_ARM_RELATIVE : Nat := 0x17
abbrev R_ARM_GOTOFF32 : Nat := 0x18
abbrev R_ARM_BASE_PREL : Nat := 0x19
abbrev R_ARM_GOT_BREL : Nat := 0x1a
abbrev R_ARM_PLT32 : Nat := 0x1b
abbrev R_ARM_CALL : Nat := 0x1c
abbrev R_ARM_JUMP24 : Nat := 0x1d
abbrev R_ARM_THM_JUMP24 : Nat := 0x1e
abbrev R_ARM_BASE_ABS : Nat := 0x1f
abbrev R_ARM_SBREL31 : Nat := 0x27
abbrev R_ARM_PREL31 : Nat := 0x2a
abbrev R_ARM_MOVW_ABS_NC : Nat := 0x2b
abbrev R_ARM_MOVT_ABS : Nat := 0x2c
abbrev R_ARM_MOVW_PREL_NC : Nat := 0x2d
abbrev R_ARM_MOVT_PREL : Nat := 0x2e
abbrev R_ARM_THM_MOVW_ABS_NC : Nat := 0x2f
abbrev R_ARM_THM_MOVT_ABS : Nat := 0x30
abbrev R_ARM_THM_MOVW_PREL_NC : Nat := 0x31
abbrev R_ARM_THM_MOVT_PREL : Nat := 0x32
abbrev R_ARM_THM_JUMP19 : Nat := 0x33
abbrev R_ARM_THM_JUMP6 : Nat := 0x34
abbrev R_ARM_THM_ALU_PREL_11_0 : Nat := 0x35
abbrev R_ARM_THM_PC12 : Nat := 0x36
abbrev R_ARM_ABS32_NOI : Nat := 0x37
abbrev R_ARM_REL32_NOI : Nat := 0x38
abbrev R_ARM_ALU_PC_G0_NC : Nat := 0x39
abbrev R_ARM_ALU_PC_G0 : Nat := 0x3a
abbrev R_ARM_ALU_PC_G1_NC : Nat := 0x3b
abbrev R_ARM_ALU_PC_G1 : Nat := 0x3c
abbrev R_ARM_ALU_PC_G2 : Nat := 0x3d
abbrev R_ARM_LDR_PC_G1 : Nat := 0x3e
abbrev R_ARM_LDR_PC_G2 : Nat := 0x3f
abbrev R_ARM_LDRS_PC_G0 : Nat := 0x40
abbrev R_ARM_LDRS_PC_G1 : Nat := 0x41
abbrev R_ARM_LDRS_PC_G2 : Nat := 0x42
abbrev R_ARM_LDC_PC_G0 : Nat := 0x43
abbrev R_ARM_LDC_PC_G1 : Nat := 0x44
abbrev R_ARM_LDC_PC_G2 : Nat := 0x45
abbrev R_ARM_ALU_SB_G0_NC : Nat := 0x46
abbrev R_ARM_ALU_SB_G0 : Nat := 0x47
abbrev R_ARM_ALU_SB_G1_NC : Nat := 0x48
abbrev R_ARM_ALU_SB_G1 : Nat := 0x49
abbrev R_ARM_ALU_SB_G2 : Nat := 0x4a
abbrev R_ARM_LDR_SB_G0 : Nat := 0x4b
abbrev R_ARM_LDR_SB_G1 : Nat := 0x4c
abbrev R_ARM_LDR_SB_G2 : Nat := 0x4d
abbrev R_ARM_LDRS_SB_G0 : Nat := 0x4e
abbrev R_ARM_LDRS_SB_G1 : Nat := 0x4f
abbrev R_ARM_LDRS_SB_G2 : Nat := 0x50
abbrev R_ARM_LDC_SB_G0 : Nat := 0x51
abbrev R_ARM_LDC_SB_G1 : Nat := 0x52
abbrev R_ARM_LDC_SB_G2 : Nat := 0x53
abbrev R_ARM_MOVW_BREL_NC : Nat := 0x54
abbrev R_ARM_MOVT_BREL : Nat := 0x55
abbrev R_ARM_MOVW_BREL : Nat := 0x56
abbrev R_ARM_THM_MOVW_BREL_NC : Nat := 0x57
abbrev R_ARM_THM_MOVT_BREL : Nat := 0x58
abbrev R_ARM_THM_MOVW_BREL : Nat := 0x59
abbrev R_ARM_GOT_ABS : Nat := 0x5f
abbrev R_ARM_GOT_PREL : Nat := 0x60
abbrev R_ARM_GOTOFF12 : Nat := 0x62
abbrev R_ARM_THM_JUMP11 : Nat := 0x66
abbrev R_ARM_THM_JUMP8 : Nat := 0x67

/-! ### Backend objects -/

/-- Modelled from the spec: `ARMGOT` (its class is not among the sources), reduced to
its reservation counters: `reserved` counts the entries reserved by
`ARMGOT::reserveEntry`, `pltReserved` the slots reserved together with a PLT
entry ("reserving a PLT entry must also reserve the associated GOT slot"). -/
structure ARMGOT where
  reserved : Nat
  pltReserved : Nat
  deriving DecidableEq, Repr

/-- Modelled from the spec: `ARMPLT`, reduced to the number of PLT1 entries reserved by
`ARMPLT::reserveEntry`. -/
structure ARMPLT where
  reserved : Nat
  deriving DecidableEq, Repr

/-- Modelled from the spec: `ARMDynRelSection` (`.rel.dyn` and `.rel.plt`), reduced to
the number of entries reserved by `ARMDynRelSection::reserveEntry`. -/
structure ARMDynRelSection where
  reserved : Nat
  deriving DecidableEq, Repr

/-- The arguments of one `MCLinker::defineSymbol` call. -/
structure SymbolDef where
  name : String
  isDyn : Bool
  type : SymType
  desc : Desc
  binding : Binding
  size : Nat
  value : Nat
  fragment : Nat
  offset : Nat
  visibility : Visibility
  deriving DecidableEq, Repr

/-- Modelled from the spec: `MCLinker`, reduced to the record of the symbols the backend
defined through `defineSymbol<Force>`, latest first.  The symbol record a relocation
points to is kept in the state next to it (`ScanState.rsym`); what a definition of
its name does to it is `ScanState.defineSymbol`. -/
structure MCLinker where
  defined : List SymbolDef
  deriving DecidableEq, Repr

/-- The data members of `ARMGNULDBackend` the scanner uses; `none` is the null
pointer. -/
structure ARMGNULDBackend where
  m_pGOT : Option ARMGOT
  m_pPLT : Option ARMPLT
  m_pRelDyn : Option ARMDynRelSection
  m_pRelPLT : Option ARMDynRelSection
  deriving DecidableEq, Repr

/-- The constructor `ARMGNULDBackend::ARMGNULDBackend()`: every pointer is null. -/
def ARMGNULDBackend.fresh : ARMGNULDBackend :=
  { m_pGOT := none, m_pPLT := none, m_pRelDyn := none, m_pRelPLT := none }

/-- The objects a scan reads and writes: the backend (`this`), the linker
(`pLinker`) and the target symbol of the relocation (`*pReloc.symInfo()`). -/
structure ScanState where
  backend : ARMGNULDBackend
  linker : MCLinker
  rsym : ResolveInfo
  deriving DecidableEq, Repr

/-- The ways a scan aborts: the `llvm::report_fatal_error` calls of the three section
constructors, of `checkValidReloc` and of the two scanners, and the dereference of a
null section pointer (which no scan from a consistent backend reaches). -/
inductive Fatal
  | gotNotSupported
  | pltNotSupported
  | dynRelNotSupported
  | unsupportedReloc
  | unexpectedReloc
  | nullDeref
  deriving DecidableEq, Repr

/-- A call either returns with the new state or aborts the process; the abort
keeps the state reached so far. -/
inductive Outcome
  | ok (s : ScanState)
  | fatal (e : Fatal) (s : ScanState)
  deriving DecidableEq, Repr

namespace Outcome

/-- The state the call ended in, by return or by abort. -/
def state : Outcome → ScanState
  | ok s => s
  | fatal _ s => s

def returns : Outcome → Bool
  | ok _ => true
  | fatal _ _ => false

/-- Sequencing of two statements: the second runs only if the first returned. -/
def andThen (o : Outcome) (f : ScanState → Outcome) : Outcome :=
  match o with
  | ok s => f s
  | fatal e s => fatal e s

end Outcome

/-! ### Counters read off a state -/

def gotEntries (b : ARMGNULDBackend) : Nat := (b.m_pGOT.map ARMGOT.reserved).getD 0

def gotPltEntries (b : ARMGNULDBackend) : Nat := (b.m_pGOT.map ARMGOT.pltReserved).getD 0

def pltEntries (b : ARMGNULDBackend) : Nat := (b.m_pPLT.map ARMPLT.reserved).getD 0

def relDynEntries (b : ARMGNULDBackend) : Nat :=
  (b.m_pRelDyn.map ARMDynRelSection.reserved).getD 0

def relPltEntries (b : ARMGNULDBackend) : Nat :=
  (b.m_pRelPLT.map ARMDynRelSection.reserved).getD 0

/-! ## The predicates of the scanner -/

/-- The function `ARMGNULDBackend::isSymbolPreemtible`. -/
def isSymbolPreemtible (pSym : ResolveInfo) (pType : OutputType) (pLDInfo : MCLDInfo) : Bool :=
  if pSym.other ≠ Visibility.Default then false
  else if pType ≠ OutputType.DynObj then false
  else if pLDInfo.Bsymbolic then false
  else true

/-- The function `ARMGNULDBackend::isSymbolNeedsPLT`. -/
def isSymbolNeedsPLT (pSym : ResolveInfo) (pType : OutputType) (pLDInfo : MCLDInfo) : Bool :=
  decide (OutputType.DynObj = pType)
    && decide (SymType.Function = pSym.type)
    && (pSym.isDyn || pSym.isUndef || isSymbolPreemtible pSym pType pLDInfo)

/-- The function `ARMGNULDBackend::isSymbolNeedsDynRel`. -/
def isSymbolNeedsDynRel (pSym : ResolveInfo) (pType : OutputType) (isAbsReloc : Bool) : Bool :=
  if pSym.isUndef && decide (pType = OutputType.Exec) then false
  else if pSym.isAbsolute then false
  else if decide (pType = OutputType.DynObj) && isAbsReloc then true
  else if pSym.isDyn || pSym.isUndef then true
  else false

/-- The formula the specification gives for `needsDynReloc(s, isAbs)`. -/
def needsDynRelocSpec (s : ResolveInfo) (output : OutputType) (isAbs : Bool) : Prop :=
  ¬ (s.isUndef = true ∧ output = OutputType.Exec) ∧ ¬ s.isAbsolute = true ∧
    ((output = OutputType.DynObj ∧ isAbs = true) ∨ s.isDyn = true ∨ s.isUndef = true)

/-! ## Section construction -/

/-- The arguments of the `defineSymbol<MCLinker::Force>` call of `createARMGOT`:
the symbol is put on the first entry of the GOT (`*(m_pGOT->begin())`, offset 0). -/
def gotSymbolDef : SymbolDef :=
  { name := "_GLOBAL_OFFSET_TABLE_", isDyn := false, type := SymType.Object,
    desc := Desc.Define, binding := Binding.Local, size := 0, value := 0,
    fragment := 0, offset := 0, visibility := Visibility.Hidden }

def MCLinker.defineSymbol (l : MCLinker) (d : SymbolDef) : MCLinker :=
  { defined := d :: l.defined }

/-- Modelled from the spec: what a forced definition does to the symbol record interned
under the name defined ("`declare(name) -> ResolveInfo&`: intern by name"; the
definition replaces what the record held): the record takes the source, type, desc,
binding and visibility of the definition.  The reservation mask is not an argument
of the definition and stays. -/
def ResolveInfo.forceDefine (r : ResolveInfo) (d : SymbolDef) : ResolveInfo :=
  { r with source := d.isDyn, type := d.type, desc := d.desc, binding := d.binding,
           other := d.visibility }

/-- Modelled from the spec: `MCLinker::defineSymbol<MCLinker::Force>` as a scan sees
it: the definition is recorded, and when the symbol of the relocation carries the name
defined ("symbols are identified by name") its record is the one the definition
overrides. -/
def ScanState.defineSymbol (s : ScanState) (d : SymbolDef) : ScanState :=
  { s with linker := s.linker.defineSymbol d,
           rsym := if s.rsym.name = d.name then s.rsym.forceDefine d else s.rsym }

/-- A newly constructed `ARMGOT`: nothing reserved by the scanner yet. -/
def ARMGOT.new : ARMGOT := { reserved := 0, pltReserved := 0 }

def ScanState.setGOT (s : ScanState) (g : ARMGOT) : ScanState :=
  { s with backend := { s.backend with m_pGOT := some g } }

def ScanState.setPLT (s : ScanState) (p : ARMPLT) : ScanState :=
  { s with backend := { s.backend with m_pPLT := some p } }

def ScanState.setRelDyn (s : ScanState) (r : ARMDynRelSection) : ScanState :=
  { s with backend := { s.backend with m_pRelDyn := some r } }

def ScanState.setRelPLT (s : ScanState) (r : ARMDynRelSection) : ScanState :=
  { s with backend := { s.backend with m_pRelPLT := some r } }

/-- The function `ARMGNULDBackend::createARMGOT`. -/
def createARMGOT (pType : OutputType) (s : ScanState) : Outcome :=
  (match pType with
    | OutputType.DynObj => Outcome.ok (s.setGOT ARMGOT.new)
    | OutputType.Exec => Outcome.ok (s.setGOT ARMGOT.new)
    | OutputType.Object => Outcome.fatal Fatal.gotNotSupported s).andThen fun s1 =>
  Outcome.ok (s1.defineSymbol gotSymbolDef)

/-- The function `ARMGNULDBackend::createARMPLTandRelPLT`. -/
def createARMPLTandRelPLT (pType : OutputType) (s : ScanState) : Outcome :=
  (if s.backend.m_pGOT.isNone then createARMGOT pType s else Outcome.ok s).andThen fun s1 =>
  match pType with
  | OutputType.DynObj => Outcome.ok ((s1.setPLT { reserved := 0 }).setRelPLT { reserved := 0 })
  | OutputType.Exec => Outcome.ok ((s1.setPLT { reserved := 0 }).setRelPLT { reserved := 0 })
  | OutputType.Object => Outcome.fatal Fatal.pltNotSupported s1

/-- The function `ARMGNULDBackend::createARMRelDyn`. -/
def createARMRelDyn (pType : OutputType) (s : ScanState) : Outcome :=
  match pType with
  | OutputType.DynObj => Outcome.ok (s.setRelDyn { reserved := 0 })
  | OutputType.Exec => Outcome.ok (s.setRelDyn { reserved := 0 })
  | OutputType.Object => Outcome.fatal Fatal.dynRelNotSupported s

/-! ## Reservation -/

/-- The call `m_pGOT->reserveEntry()`. -/
def reserveGOTEntry (s : ScanState) : Outcome :=
  match s.backend.m_pGOT with
  | some g => Outcome.ok (s.setGOT { g with reserved := g.reserved + 1 })
  | none => Outcome.fatal Fatal.nullDeref s

/-- The call `m_pPLT->reserveEntry()`; the PLT holds a reference to the GOT and
reserves the GOT slot of the new entry in it. -/
def reservePLTEntry (s : ScanState) : Outcome :=
  match s.backend.m_pPLT, s.backend.m_pGOT with
  | some p, some g =>
    Outcome.ok ((s.setPLT { reserved := p.reserved + 1 }).setGOT
      { g with pltReserved := g.pltReserved + 1 })
  | _, _ => Outcome.fatal Fatal.nullDeref s

/-- The call `m_pRelDyn->reserveEntry(*m_pRelocFactory)`. -/
def reserveRelDynEntry (s : ScanState) : Outcome :=
  match s.backend.m_pRelDyn with
  | some r => Outcome.ok (s.setRelDyn { reserved := r.reserved + 1 })
  | none => Outcome.fatal Fatal.nullDeref s

/-- The call `m_pRelPLT->reserveEntry(*m_pRelocFactory)`. -/
def reserveRelPLTEntry (s : ScanState) : Outcome :=
  match s.backend.m_pRelPLT with
  | some r => Outcome.ok (s.setRelPLT { reserved := r.reserved + 1 })
  | none => Outcome.fatal Fatal.nullDeref s

/-- The statement `rsym->setReserved(rsym->reserved() | bit)`. -/
def orReserved (bit : Nat) (s : ScanState) : Outcome :=
  Outcome.ok { s with rsym := s.rsym.setReserved (s.rsym.reserved ||| bit) }

/-! ## The scanner -/

/-- The relocation types `checkValidReloc` lets through for a shared object. -/
def dynValidTypes : List Nat :=
  [R_ARM_RELATIVE, R_ARM_COPY, R_ARM_GLOB_DAT, R_ARM_JUMP_SLOT, R_ARM_ABS32,
   R_ARM_ABS32_NOI, R_ARM_PC24, R_ARM_TLS_DTPMOD32, R_ARM_TLS_DTPOFF32, R_ARM_TLS_TPOFF32]

/-- The function `ARMGNULDBackend::checkValidReloc`. -/
def checkValidReloc (pRelocType : Nat) (pOutputType : OutputType) (s : ScanState) : Outcome :=
  if pOutputType ≠ OutputType.DynObj then Outcome.ok s
  else if pRelocType ∈ dynValidTypes then Outcome.ok s
  else Outcome.fatal Fatal.unsupportedReloc s

/-- The case labels of the first group of `scanLocalReloc`. -/
def localAbs32Types : List Nat := [R_ARM_ABS32, R_ARM_ABS32_NOI]

/-- The case labels of the second group of `scanLocalReloc`. -/
def localAbsCheckedTypes : List Nat :=
  [R_ARM_ABS16, R_ARM_ABS12, R_ARM_THM_ABS5, R_ARM_ABS8, R_ARM_BASE_ABS,
   R_ARM_MOVW_ABS_NC, R_ARM_MOVT_ABS, R_ARM_THM_MOVW_ABS_NC, R_ARM_THM_MOVT_ABS]

/-- The case labels of the GOT-offset group of both scanners. -/
def gotOffTypes : List Nat := [R_ARM_GOTOFF32, R_ARM_GOTOFF12]

/-- The case labels of the GOT group of `scanLocalReloc`. -/
def localGotTypes : List Nat := [R_ARM_GOT_BREL, R_ARM_GOT_PREL]

/-- The case labels of the first group of `scanGlobalReloc`. -/
def globalAbsTypes : List Nat :=
  [R_ARM_ABS32, R_ARM_ABS16, R_ARM_ABS12, R_ARM_THM_ABS5, R_ARM_ABS8, R_ARM_BASE_ABS,
   R_ARM_MOVW_ABS_NC, R_ARM_MOVT_ABS, R_ARM_THM_MOVW_ABS_NC, R_ARM_THM_MOVT_ABS,
   R_ARM_ABS32_NOI]

/-- The case labels of the relative-addressing group of `scanGlobalReloc`. -/
def globalRelTypes : List Nat :=
  [R_ARM_REL32, R_ARM_LDR_PC_G0, R_ARM_SBREL32, R_ARM_THM_PC8, R_ARM_BASE_PREL,
   R_ARM_MOVW_PREL_NC, R_ARM_MOVT_PREL, R_ARM_THM_MOVW_PREL_NC, R_ARM_THM_MOVT_PREL,
   R_ARM_THM_ALU_PREL_11_0, R_ARM_THM_PC12, R_ARM_REL32_NOI, R_ARM_ALU_PC_G0_NC,
   R_ARM_ALU_PC_G0, R_ARM_ALU_PC_G1_NC, R_ARM_ALU_PC_G1, R_ARM_ALU_PC_G2,
   R_ARM_LDR_PC_G1, R_ARM_LDR_PC_G2, R_ARM_LDRS_PC_G0, R_ARM_LDRS_PC_G1,
   R_ARM_LDRS_PC_G2, R_ARM_LDC_PC_G0, R_ARM_LDC_PC_G1, R_ARM_LDC_PC_G2,
   R_ARM_ALU_SB_G0_NC, R_ARM_ALU_SB_G0, R_ARM_ALU_SB_G1_NC, R_ARM_ALU_SB_G1,
   R_ARM_ALU_SB_G2, R_ARM_LDR_SB_G0, R_ARM_LDR_SB_G1, R_ARM_LDR_SB_G2,
   R_ARM_LDRS_SB_G0, R_ARM_LDRS_SB_G1, R_ARM_LDRS_SB_G2, R_ARM_LDC_SB_G0,
   R_ARM_LDC_SB_G1, R_ARM_LDC_SB_G2, R_ARM_MOVW_BREL_NC, R_ARM_MOVT_BREL,
   R_ARM_MOVW_BREL, R_ARM_THM_MOVW_BREL_NC, R_ARM_THM_MOVT_BREL, R_ARM_THM_MOVW_BREL]

/-- The case labels of the branch group of `scanGlobalReloc`. -/
def globalBranchTypes : List Nat :=
  [R_ARM_THM_CALL, R_ARM_PLT32, R_ARM_CALL, R_ARM_JUMP24, R_ARM_THM_JUMP24,
   R_ARM_SBREL31, R_ARM_PREL31, R_ARM_THM_JUMP19, R_ARM_THM_JUMP6, R_ARM_THM_JUMP11,
   R_ARM_THM_JUMP8]

/-- The case labels of the GOT group of `scanGlobalReloc`. -/
def globalGotTypes : List Nat := [R_ARM_GOT_BREL, R_ARM_GOT_ABS, R_ARM_GOT_PREL]

/-- The case labels of the dynamic-linker-only group of both scanners. -/
def dynOnlyTypes : List Nat :=
  [R_ARM_COPY, R_ARM_GLOB_DAT, R_ARM_JUMP_SLOT, R_ARM_RELATIVE]

/-- The statement `if(!m_pGOT) createARMGOT(pLinker, pType);`. -/
def ensureGOT (pType : OutputType) (s : ScanState) : Outcome :=
  if s.backend.m_pGOT.isNone then createARMGOT pType s else Outcome.ok s

/-- The statement `if(!m_pRelDyn) createARMRelDyn(pLinker, pType);`. -/
def ensureRelDyn (pType : OutputType) (s : ScanState) : Outcome :=
  if s.backend.m_pRelDyn.isNone then createARMRelDyn pType s else Outcome.ok s

/-- The statement `if(!m_pPLT) createARMPLTandRelPLT(pLinker, pType);`. -/
def ensurePLT (pType : OutputType) (s : ScanState) : Outcome :=
  if s.backend.m_pPLT.isNone then createARMPLTandRelPLT pType s else Outcome.ok s

/-- The statements `if(!m_pRelDyn) createARMRelDyn(...); m_pRelDyn->reserveEntry(...);
rsym->setReserved(rsym->reserved() | 0x1u);` shared by the dynamic-relocation
branches. -/
def reserveDynRel (pType : OutputType) (s : ScanState) : Outcome :=
  ((ensureRelDyn pType s).andThen reserveRelDynEntry).andThen (orReserved 0x1)

/-- The statements `if(!m_pPLT) createARMPLTandRelPLT(...); m_pPLT->reserveEntry();
m_pRelPLT->reserveEntry(...); rsym->setReserved(rsym->reserved() | 0x8u);` shared
by the PLT branches. -/
def reservePLT (pType : OutputType) (s : ScanState) : Outcome :=
  (((ensurePLT pType s).andThen reservePLTEntry).andThen reserveRelPLTEntry).andThen
    (orReserved 0x8)

/-- The statements of the GOT groups of both scanners after the test of the GOT
bits: create the GOT when absent, reserve an entry, then either reserve a
`.rel.dyn` entry and set the GOTRel bit (when `dynRel` holds of the state reached)
or set the GOT bit. -/
def reserveGOT (dynRel : ScanState → Bool) (pType : OutputType) (s : ScanState) : Outcome :=
  ((ensureGOT pType s).andThen reserveGOTEntry).andThen fun s1 =>
  if dynRel s1 then
    ((ensureRelDyn pType s1).andThen reserveRelDynEntry).andThen (orReserved 0x4)
  else orReserved 0x2 s1

/-- The function `ARMGNULDBackend::scanLocalReloc` (it does not read `pLDInfo`). -/
def scanLocalReloc (pRelocType : Nat) (pType : OutputType) (s : ScanState) : Outcome :=
  if pRelocType ∈ localAbs32Types then
    if OutputType.DynObj = pType then reserveDynRel pType s
    else Outcome.ok s
  else if pRelocType ∈ localAbsCheckedTypes then
    if OutputType.DynObj = pType then
      (checkValidReloc pRelocType pType s).andThen (reserveDynRel pType)
    else Outcome.ok s
  else if pRelocType ∈ gotOffTypes then ensureGOT pType s
  else if pRelocType ∈ localGotTypes then
    if s.rsym.reserved &&& 0x6 ≠ 0 then Outcome.ok s
    else reserveGOT (fun _ => decide (OutputType.DynObj = pType)) pType s
  else if pRelocType ∈ dynOnlyTypes then Outcome.fatal Fatal.unexpectedReloc s
  else Outcome.ok s

/-- The function `ARMGNULDBackend::scanGlobalReloc`. -/
def scanGlobalReloc (pRelocType : Nat) (pLDInfo : MCLDInfo) (pType : OutputType)
    (s : ScanState) : Outcome :=
  if pRelocType ∈ globalAbsTypes then
    (if isSymbolNeedsPLT s.rsym pType pLDInfo then
      if s.rsym.reserved &&& 0x8 = 0 then reservePLT pType s else Outcome.ok s
     else Outcome.ok s).andThen fun s1 =>
    if isSymbolNeedsDynRel s1.rsym pType true then
      (checkValidReloc pRelocType pType s1).andThen (reserveDynRel pType)
    else Outcome.ok s1
  else if pRelocType ∈ gotOffTypes then ensureGOT pType s
  else if pRelocType ∈ globalRelTypes then
    if isSymbolNeedsDynRel s.rsym pType false then
      (checkValidReloc pRelocType pType s).andThen (reserveDynRel pType)
    else Outcome.ok s
  else if pRelocType ∈ globalBranchTypes then
    if s.rsym.reserved &&& 0x8 ≠ 0 then Outcome.ok s
    else if s.rsym.isDefine && !s.rsym.isDyn && !isSymbolPreemtible s.rsym pType pLDInfo then
      Outcome.ok s
    else reservePLT pType s
  else if pRelocType ∈ globalGotTypes then
    if s.rsym.reserved &&& 0x6 ≠ 0 then Outcome.ok s
    else
      reserveGOT (fun s1 => decide (OutputType.DynObj = pType) || s1.rsym.isUndef ||
        s1.rsym.isDyn) pType s
  else if pRelocType ∈ dynOnlyTypes then Outcome.fatal Fatal.unexpectedReloc s
  else Outcome.ok s

/-- The function `ARMGNULDBackend::scanRelocation`. -/
def scanRelocation (pRelocType : Nat) (pLDInfo : MCLDInfo) (pType : OutputType)
    (s : ScanState) : Outcome :=
  (if s.backend.m_pGOT.isNone ∧ s.rsym.name = "_GLOBAL_OFFSET_TABLE_" then
      createARMGOT pType s
    else Outcome.ok s).andThen fun s1 =>
  if s1.rsym.isLocal then scanLocalReloc pRelocType pType s1
  else if s1.rsym.isGlobal then scanGlobalReloc pRelocType pLDInfo pType s1
  else Outcome.ok s1

/-- The construction invariant of the backend: `m_pPLT` and `m_pRelPLT` are set
together by `createARMPLTandRelPLT`, after the GOT the PLT refers to. -/
def ARMGNULDBackend.Consistent (b : ARMGNULDBackend) : Prop :=
  b.m_pPLT.isSome = b.m_pRelPLT.isSome ∧ (b.m_pPLT.isSome = true → b.m_pGOT.isSome = true)

instance (b : ARMGNULDBackend) : Decidable b.Consistent := by
  unfold ARMGNULDBackend.Consistent; infer_instance

/-! ## Net effects and concrete inputs -/

/-- The state `reserveDynRel` returns with: one more `.rel.dyn` entry (in a section
created on the spot when it was absent) and the RelReserved bit set. -/
def ScanState.bumpRelDyn (s : ScanState) : ScanState :=
  { backend := { s.backend with m_pRelDyn := some { reserved := relDynEntries s.backend + 1 } },
    linker := s.linker,
    rsym := s.rsym.setReserved (s.rsym.reserved ||| 0x1) }

/-- The state `ensureGOT` returns with: the GOT it found, or a new one together with
the definition of `_GLOBAL_OFFSET_TABLE_`. -/
def ScanState.withGOT (s : ScanState) : ScanState :=
  match s.backend.m_pGOT with
  | some _ => s
  | none => (s.setGOT ARMGOT.new).defineSymbol gotSymbolDef

/-- The definition of `_GLOBAL_OFFSET_TABLE_` cannot reach the symbol of the relocation
any more: the symbol has another name, or the GOT exists already. -/
def ScanState.GotSettled (s : ScanState) : Prop :=
  s.rsym.name ≠ "_GLOBAL_OFFSET_TABLE_" ∨ s.backend.m_pGOT.isSome = true

instance (s : ScanState) : Decidable s.GotSettled := by
  unfold ScanState.GotSettled; infer_instance

/-- The state after the first statement of `scanRelocation`, when it returns: a
reference to `_GLOBAL_OFFSET_TABLE_` makes sure there is a GOT. -/
def ScanState.afterGOTRef (s : ScanState) : ScanState :=
  if s.rsym.name = "_GLOBAL_OFFSET_TABLE_" then s.withGOT else s

/-- The state `reservePLT` returns with from a consistent backend: one more PLT
entry, with its GOT slot and its `.rel.plt` entry, in sections created on the spot
when they were absent, and the PLT bit set. -/
def ScanState.bumpPLT (s : ScanState) : ScanState :=
  { backend :=
      { m_pGOT := some { reserved := gotEntries s.backend,
                         pltReserved := gotPltEntries s.backend + 1 },
        m_pPLT := some { reserved := pltEntries s.backend + 1 },
        m_pRelDyn := s.backend.m_pRelDyn,
        m_pRelPLT := some { reserved := relPltEntries s.backend + 1 } },
    linker := s.withGOT.linker,
    rsym := s.rsym.setReserved (s.rsym.reserved ||| 0x8) }

/-- The state after the PLT part of the absolute group of `scanGlobalReloc`, from a
consistent backend: a PLT entry is reserved for a symbol that needs one and has its
PLT bit clear. -/
def ScanState.afterPLTPart (info : MCLDInfo) (ty : OutputType) (s : ScanState) : ScanState :=
  if isSymbolNeedsPLT s.rsym ty info = true ∧ s.rsym.reserved &&& 0x8 = 0 then s.bumpPLT
  else s

/-- What a scan leaves alone: the name of the symbol, the existence of the GOT, once
created, and, when the definition of `_GLOBAL_OFFSET_TABLE_` cannot reach the symbol,
every attribute of the symbol but its reservation mask. -/
def Frame (s s1 : ScanState) : Prop :=
  (s.GotSettled → s1.rsym = s.rsym.setReserved s1.rsym.reserved) ∧
  s1.rsym.name = s.rsym.name ∧
  (s.backend.m_pGOT.isSome = true → s1.backend.m_pGOT.isSome = true)

/-- A statement is framed when the state it ends in, by return or by abort, is in
the frame of the state it started from. -/
def Framed (f : ScanState → Outcome) : Prop := ∀ s, Frame s (f s).state

/-- The reservations of `s2` are those of `s1`, but for `extra` further `.rel.dyn`
entries: same reservation mask (indeed the same symbol record, when the definition
of `_GLOBAL_OFFSET_TABLE_` cannot reach the symbol of `s1`) and the same numbers of
reserved GOT entries, GOT slots of PLT entries, PLT entries and `.rel.plt`
entries. -/
def SameReservation (s1 s2 : ScanState) (extra : Nat) : Prop :=
  s2.rsym.reserved = s1.rsym.reserved ∧
  (s1.GotSettled → s2.rsym = s1.rsym) ∧
  gotEntries s2.backend = gotEntries s1.backend ∧
  gotPltEntries s2.backend = gotPltEntries s1.backend ∧
  pltEntries s2.backend = pltEntries s1.backend ∧
  relPltEntries s2.backend = relPltEntries s1.backend ∧
  relDynEntries s2.backend = relDynEntries s1.backend + extra

/-- The scans that reserve a `.rel.dyn` entry for every relocation site, whatever
the reservation mask of the symbol: an absolute relocation of the first local group
in a shared object, and an absolute or relative relocation against a global symbol
that needs a dynamic relocation. -/
def reservesDynRelPerSite (t : Nat) (ty : OutputType) (r : ResolveInfo) : Bool :=
  if r.isLocal then decide (t ∈ localAbs32Types) && decide (ty = OutputType.DynObj)
  else if r.isGlobal then
    (decide (t ∈ globalAbsTypes) && isSymbolNeedsDynRel r ty true) ||
    (decide (t ∈ globalRelTypes) && isSymbolNeedsDynRel r ty false)
  else false

/-- A statement keeps the construction invariant when the state it ends in, by
return or by abort, is consistent whenever the state it started from is. -/
def KeepsConsistent (f : ScanState → Outcome) : Prop :=
  ∀ s, s.backend.Consistent → (f s).state.backend.Consistent

/-- The state before the first relocation is scanned against the symbol `r`. -/
def ScanState.initial (r : ResolveInfo) : ScanState :=
  { backend := ARMGNULDBackend.fresh, linker := { defined := [] }, rsym := r }

/-- An undefined weak function `foo`. -/
def weakFoo : ResolveInfo :=
  { name := "foo", type := SymType.Function, binding := Binding.Weak,
    other := Visibility.Default, desc := Desc.Undefined, source := false,
    absolute := false, reserved := 0 }

/-- A local section symbol. -/
def localSect : ResolveInfo :=
  { name := ".data", type := SymType.Section, binding := Binding.Local,
    other := Visibility.Default, desc := Desc.Define, source := false,
    absolute := false, reserved := 0 }

/-- A global object `x` defined in the link. -/
def globalX : ResolveInfo :=
  { name := "x", type := SymType.Object, binding := Binding.Global,
    other := Visibility.Default, desc := Desc.Define, source := false,
    absolute := false, reserved := 0 }

/-- A global function `sin` defined in a shared object. -/
def dynSin : ResolveInfo :=
  { name := "sin", type := SymType.Function, binding := Binding.Global,
    other := Visibility.Default, desc := Desc.Define, source := true,
    absolute := false, reserved := 0 }

/-- Two scans of the same relocation in a row. -/
def scanTwice (pRelocType : Nat) (pLDInfo : MCLDInfo) (pType : OutputType)
    (s : ScanState) : Outcome :=
  (scanRelocation pRelocType pLDInfo pType s).andThen
    (scanRelocation pRelocType pLDInfo pType)

/-- The state `reserveGOT` returns with: one more GOT entry, in a GOT created on the
spot when it was absent, and then either one more `.rel.dyn` entry and the GOTRel bit
(`rel` true) or the GOT bit (`rel` false). -/
def ScanState.bumpGOT (rel : Bool) (s : ScanState) : ScanState :=
  { backend :=
      { m_pGOT := some { reserved := gotEntries s.backend + 1,
                         pltReserved := gotPltEntries s.backend },
        m_pPLT := s.backend.m_pPLT,
        m_pRelDyn :=
          if rel then some { reserved := relDynEntries s.backend + 1 }
          else s.backend.m_pRelDyn,
        m_pRelPLT := s.backend.m_pRelPLT },
    linker := s.withGOT.linker,
    rsym := s.rsym.setReserved (s.rsym.reserved ||| (if rel then 0x4 else 0x2)) }

/-- An undefined global function `bar`. -/
def undefBar : ResolveInfo :=
  { name := "bar", type := SymType.Function, binding := Binding.Global,
    other := Visibility.Default, desc := Desc.Undefined, source := false,
    absolute := false, reserved := 0 }

/-- A weak object `x`, undefined. -/
def weakX : ResolveInfo :=
  { name := "x", type := SymType.Object, binding := Binding.Weak,
    other := Visibility.Default, desc := Desc.Undefined, source := false,
    absolute := false, reserved := 0 }

/-- The scans of a sequence of relocations against one symbol, in order; the
sequence stops at the first scan that aborts. -/
def scanAll (pRelocTypes : List Nat) (pLDInfo : MCLDInfo) (pType : OutputType)
    (s : ScanState) : Outcome :=
  pRelocTypes.foldl (fun o t => o.andThen (scanRelocation t pLDInfo pType)) (Outcome.ok s)

/-- A statement respects a relation `R` between states when the state it ends in, by
return or by abort, is `R`-related to the state it started from. -/
def Respects (R : ScanState → ScanState → Prop) (f : ScanState → Outcome) : Prop :=
  ∀ s, R s (f s).state

/-- The invariant of the PLT and its relocation section: the construction invariant,
and as many PLT entries reserved as `.rel.plt` entries. -/
def ARMGNULDBackend.Balanced (b : ARMGNULDBackend) : Prop :=
  b.Consistent ∧ pltEntries b = relPltEntries b

/-- The backend states reachable from the freshly constructed backend by a sequence of
`scanRelocation` calls that return normally; every call may be for another
relocation, symbol, option set and output type. -/
inductive Reachable : ARMGNULDBackend → Prop
  | fresh : Reachable ARMGNULDBackend.fresh
  | scan {b : ARMGNULDBackend} (l : MCLinker) (r : ResolveInfo) (t : Nat) (info : MCLDInfo)
      (ty : OutputType) (s1 : ScanState) :
      Reachable b →
      scanRelocation t info ty { backend := b, linker := l, rsym := r } = Outcome.ok s1 →
      Reachable s1.backend

/-- The type-specific part of `scanRelocation`: the dispatch on the binding of the
symbol, after the statement for `_GLOBAL_OFFSET_TABLE_`. -/
def scanDispatch (pRelocType : Nat) (pLDInfo : MCLDInfo) (pType : OutputType)
    (s : ScanState) : Outcome :=
  if s.rsym.isLocal then scanLocalReloc pRelocType pType s
  else if s.rsym.isGlobal then scanGlobalReloc pRelocType pLDInfo pType s
  else Outcome.ok s

/-- An undefined weak symbol named `_GLOBAL_OFFSET_TABLE_`. -/
def weakGOTRef : ResolveInfo :=
  { name := "_GLOBAL_OFFSET_TABLE_", type := SymType.Object, binding := Binding.Weak,
    other := Visibility.Default, desc := Desc.Undefined, source := false,
    absolute := false, reserved := 0 }

/-- An undefined global function named `_GLOBAL_OFFSET_TABLE_`. -/
def undefGOTFunc : ResolveInfo :=
  { name := "_GLOBAL_OFFSET_TABLE_", type := SymType.Function, binding := Binding.Global,
    other := Visibility.Default, desc := Desc.Undefined, source := false,
    absolute := false, reserved := 0 }

/-- A global function named `_GLOBAL_OFFSET_TABLE_` defined in a shared object. -/
def dynGOTFunc : ResolveInfo :=
  { name := "_GLOBAL_OFFSET_TABLE_", type := SymType.Function, binding := Binding.Global,
    other := Visibility.Default, desc := Desc.Define, source := true,
    absolute := false, reserved := 0 }

/-! ## The relocation factory

A shallow embedding of `lib/LD/RelocationFactory.cpp`.  A machine word is a natural
number; the bytes an object has in the memory of the host follow from the byte order
of the host, which `llvm::sys::isLittleEndianHost()` reports and the definitions
below take as the parameter `hostLE`. -/

/-- A byte of memory. -/
abbrev Byte := Fin 256

/-- The number a byte sequence denotes when read with the least significant byte
first. -/
def ofBytesLE : List Byte → Nat
  | [] => 0
  | b :: bs => b.val + 256 * ofBytesLE bs

/-- The `n` low-order bytes of `v`, least significant byte first. -/
def toBytesLE : Nat → Nat → List Byte
  | 0, _ => []
  | n + 1, v => ⟨v % 256, Nat.mod_lt v (by decide)⟩ :: toBytesLE n (v / 256)

/-- The number a byte sequence denotes in a byte order (`le` for little-endian). -/
def wordOfBytes (le : Bool) (bs : List Byte) : Nat :=
  if le then ofBytesLE bs else ofBytesLE bs.reverse

/-- The `n` bytes an unsigned integer of `n` bytes with the value `v` has in memory,
in a byte order. -/
def bytesOfWord (le : Bool) (n : Nat) (v : Nat) : List Byte :=
  if le then toBytesLE n v else (toBytesLE n v).reverse

/-- The compiler intrinsic `bswap32`: the four bytes of a 32-bit word reversed. -/
def bswap32 (v : Nat) : Nat := ofBytesLE (toBytesLE 4 v).reverse

/-- The compiler intrinsic `bswap64`: the eight bytes of a 64-bit word reversed. -/
def bswap64 (v : Nat) : Nat := ofBytesLE (toBytesLE 8 v).reverse

/-- The library function `memcpy(&obj, src, n)` on the bytes of an object: the first
bytes of `obj` are overwritten with the bytes copied from `src`.  (A copy of more
bytes than the object has runs past its end; the list then is longer than the
object.) -/
def memcpyInto (obj src : List Byte) : List Byte :=
  src ++ obj.drop src.length

/-- Modelled from the spec: `FragmentRef` (its class is not among the sources), a
fragment, an offset in it, and the bytes of the fragment from that offset on. -/
structure FragmentRef where
  fragment : Nat
  offset : Nat
  content : List Byte
  deriving DecidableEq, Repr

/-- Modelled from the spec: `FragmentRef::memcpy(pDest, pNBytes)`, which copies
`pNBytes` bytes from the reference on, or the bytes there are when the fragment ends
before; the result is the bytes copied. -/
def FragmentRef.memcpy (r : FragmentRef) (pNBytes : Nat) : List Byte :=
  r.content.take pNBytes

/-- Modelled from the spec: the target options of `LinkerConfig` the factory reads:
`targets().isLittleEndian()` and `targets().bitclass()`. -/
structure LinkerConfig where
  isLittleEndian : Bool
  bitclass : Nat
  deriving DecidableEq, Repr

/-- Modelled from the spec: `Relocation`, the tuple of type code, target fragment
reference, addend and pre-read target datum the constructor is given. -/
structure Relocation where
  m_Type : Nat
  m_TargetAddress : FragmentRef
  m_Addend : Nat
  m_TargetData : Nat
  deriving DecidableEq, Repr

/-- The diagnostics `RelocationFactory::produce` reports with `fatal`. -/
inductive Diag
  | reloc_factory_has_not_config
  | unsupported_bitclass
  deriving DecidableEq, Repr

/-- What a call of `produce` does besides computing its result, in order: a fatal
diagnostic, a read of `n` bytes of the fragment, an allocation from the factory. -/
inductive Effect
  | fatal (d : Diag)
  | read (n : Nat)
  | allocate
  deriving DecidableEq, Repr

/-- The data member of `RelocationFactory` that `produce` reads; `none` is the null
pointer.  `capacity` is the argument of the constructor. -/
structure RelocationFactory where
  capacity : Nat
  m_pConfig : Option LinkerConfig
  deriving DecidableEq, Repr

/-- The constructor `RelocationFactory::RelocationFactory(pNum)`. -/
def RelocationFactory.new (pNum : Nat) : RelocationFactory :=
  { capacity := pNum, m_pConfig := none }

/-- The function `RelocationFactory::setConfig`. -/
def RelocationFactory.setConfig (f : RelocationFactory) (pConfig : LinkerConfig) :
    RelocationFactory :=
  { f with m_pConfig := some pConfig }

/-- The outcome of `produce`: what it did, and the relocation returned (`none` for
`NULL`). -/
structure Produced where
  effects : List Effect
  result : Option Relocation
  deriving DecidableEq, Repr

/-- An object of `n` bytes before anything is stored in it; `DWord target_data = 0`
is such an object of eight bytes.  (The bytes of the uninitialised `tmp_data` are
taken as zero too; `produce` overwrites all four when the fragment has them.) -/
def zeroBytes (n : Nat) : List Byte := List.replicate n 0

/-- The function `RelocationFactory::produce`, on a host of the given byte order.  The
datum of the relocation is the value of the object `target_data`, the word its eight
bytes denote on the host, whatever the number of bytes the copy wrote. -/
def RelocationFactory.produce (hostLE : Bool) (f : RelocationFactory) (pType : Nat)
    (pFragRef : FragmentRef) (pAddend : Nat) : Produced :=
  match f.m_pConfig with
  | none => { effects := [Effect.fatal Diag.reloc_factory_has_not_config], result := none }
  | some cfg =>
    if hostLE ≠ cfg.isLittleEndian then
      if cfg.bitclass = 32 then
        { effects := [Effect.read 4, Effect.allocate],
          result := some
            { m_Type := pType, m_TargetAddress := pFragRef, m_Addend := pAddend,
              m_TargetData :=
                bswap32 (wordOfBytes hostLE (memcpyInto (zeroBytes 4) (pFragRef.memcpy 4))) } }
      else if cfg.bitclass = 64 then
        { effects := [Effect.read 8, Effect.allocate],
          result := some
            { m_Type := pType, m_TargetAddress := pFragRef, m_Addend := pAddend,
              m_TargetData :=
                bswap64 (wordOfBytes hostLE (memcpyInto (zeroBytes 8) (pFragRef.memcpy 8))) } }
      else { effects := [Effect.fatal Diag.unsupported_bitclass], result := none }
    else
      { effects := [Effect.read (cfg.bitclass / 8), Effect.allocate],
        result := some
          { m_Type := pType, m_TargetAddress := pFragRef, m_Addend := pAddend,
            m_TargetData :=
              wordOfBytes hostLE
                ((memcpyInto (zeroBytes 8) (pFragRef.memcpy (cfg.bitclass / 8))).take 8) } }

/-- The unsigned integer the first `b / 8` bytes of a fragment denote in the byte
order of the target: what the specification says `target_data` caches. -/
def targetWord (cfg : LinkerConfig) (content : List Byte) : Nat :=
  wordOfBytes cfg.isLittleEndian (content.take (cfg.bitclass / 8))

/-- Modelled from the spec: the write-back of the relocation applier (its code is not
among the sources).  The applier holds the datum in a host-endian scratch word of the
width of the bit class (32 or 64 bits), which it "byte-swaps if needed and stores":
when host and target differ in byte order the word is byte-swapped and its bytes are
stored; otherwise the bytes of the word are stored as they are.  A word of 32 bits
holds the 32 low-order bits of the datum.  The result is the bytes stored at the
target. -/
def writeBack (hostLE : Bool) (cfg : LinkerConfig) (target_data : Nat) : List Byte :=
  if hostLE ≠ cfg.isLittleEndian then
    if cfg.bitclass = 32 then bytesOfWord hostLE 4 (bswap32 target_data)
    else if cfg.bitclass = 64 then bytesOfWord hostLE 8 (bswap64 target_data)
    else []
  else bytesOfWord hostLE (cfg.bitclass / 8) target_data

/-- The datum of the relocation `produce` returns, 0 when it returns none. -/
def Produced.targetData (p : Produced) : Nat :=
  (p.result.map Relocation.m_TargetData).getD 0

/-- A configuration for a big-endian target of 32 bits. -/
def bigEndian32 : LinkerConfig := { isLittleEndian := false, bitclass := 32 }

/-- A reference to a fragment with the four bytes 00 00 00 01. -/
def fragOne : FragmentRef := { fragment := 0, offset := 0, content := [0, 0, 0, 1] }

/-- A statement respects a relation `R` between a state and an outcome when its
outcome from any state is `R`-related to that state; unlike `Respects`, the relation
may tell a return from an abort. -/
def RespectsOutcome (R : ScanState → Outcome → Prop) (f : ScanState → Outcome) : Prop :=
  ∀ s, R s (f s)

/-- A statement that leaves the GOT alone: the number of reserved GOT entries and the
GOT and GOTRel bits of the symbol are as before. -/
def GotNeutral (s e : ScanState) : Prop :=
  gotEntries e.backend = gotEntries s.backend ∧
  e.rsym.reserved &&& 0x6 = s.rsym.reserved &&& 0x6

/-- What a scan may do to the GOT: nothing, or, from a symbol with the GOT and GOTRel
bits clear, reserve one entry and set exactly one of the two bits.  A scan that
aborts may have reserved the entry and not yet set the bit. -/
def GotOnce (s : ScanState) : Outcome → Prop
  | Outcome.ok e =>
    GotNeutral s e ∨
      (s.rsym.reserved &&& 0x6 = 0 ∧ gotEntries e.backend = gotEntries s.backend + 1 ∧
        (e.rsym.reserved &&& 0x6 = 0x2 ∨ e.rsym.reserved &&& 0x6 = 0x4))
  | Outcome.fatal _ e =>
    GotNeutral s e ∨
      (s.rsym.reserved &&& 0x6 = 0 ∧ gotEntries e.backend = gotEntries s.backend + 1 ∧
        (e.rsym.reserved &&& 0x6 = 0 ∨ e.rsym.reserved &&& 0x6 = 0x2 ∨
          e.rsym.reserved &&& 0x6 = 0x4))

/-- One scan of a relocation against a given symbol: the relocation type, the options
and the output type, and the backend and the linker as they are when the scan
starts (relocations against other symbols may have been scanned in between). -/
structure ScanStep where
  relocType : Nat
  info : MCLDInfo
  output : OutputType
  backend : ARMGNULDBackend
  linker : MCLinker
  deriving DecidableEq, Repr

/-- The scans of a sequence of relocations against one symbol, starting from the
symbol record `r`; the sequence stops at the first scan that aborts.  The result is
the symbol record at the end and the number of GOT entries these scans reserved. -/
def scanSymbol : List ScanStep → ResolveInfo → ResolveInfo × Nat
  | [], r => (r, 0)
  | st :: rest, r =>
    let o := scanRelocation st.relocType st.info st.output
      { backend := st.backend, linker := st.linker, rsym := r }
    let n := gotEntries o.state.backend - gotEntries st.backend
    if o.returns then ((scanSymbol rest o.state.rsym).1, n + (scanSymbol rest o.state.rsym).2)
    else (o.state.rsym, n)

/-- Two GOT relocations in a row: `R_ARM_GOT_BREL` scanned for an executable from the
fresh backend, then `R_ARM_GOT_PREL` scanned for a shared object with the GOT of one
entry that the first scan leaves. -/
def gotBrelThenPrel : List ScanStep :=
  [{ relocType := R_ARM_GOT_BREL, info := { Bsymbolic := false },
     output := OutputType.Exec, backend := ARMGNULDBackend.fresh,
     linker := { defined := [] } },
   { relocType := R_ARM_GOT_PREL, info := { Bsymbolic := false },
     output := OutputType.DynObj,
     backend := { ARMGNULDBackend.fresh with
       m_pGOT := some { reserved := 1, pltReserved := 0 } },
     linker := { defined := [gotSymbolDef] } }]

/-! ## Sections and the file format of a shared object

A shallow embedding of `lib/LD/ELFDynObjFileFormat.cpp` and of
`ARMGNULDBackend::getTargetSectionOrder`. -/

namespace LDFileFormat

/-- Modelled from the spec: `LDFileFormat::Kind`, the semantic kind of a section. -/
inductive Kind
  | Null
  | Regular
  | BSS
  | NamePool
  | Relocation
  | Target
  | Debug
  | GCCExceptTable
  | Version
  | Note
  | MetaData
  | Group
  | StackNote
  | SymbolTable
  | StringTable
  | GOT
  | PLT
  | Data
  | ReadOnly
  deriving DecidableEq, Repr

end LDFileFormat

/-! The `ELF::SHT_*` section types and `ELF::SHF_*` section flags that
`initObjectType` names, from LLVM's `llvm/Support/ELF.h`, with the values of the ELF
specification. -/

abbrev SHT_PROGBITS : Nat := 1
abbrev SHT_STRTAB : Nat := 3
abbrev SHT_RELA : Nat := 4
abbrev SHT_HASH : Nat := 5
abbrev SHT_DYNAMIC : Nat := 6
abbrev SHT_REL : Nat := 9
abbrev SHT_DYNSYM : Nat := 11
abbrev SHT_INIT_ARRAY : Nat := 14
abbrev SHT_FINI_ARRAY : Nat := 15
abbrev SHT_PREINIT_ARRAY : Nat := 16
abbrev SHF_WRITE : Nat := 0x1
abbrev SHF_ALLOC : Nat := 0x2
abbrev SHF_EXECINSTR : Nat := 0x4

/-- Modelled from the spec: the header of a section (`LDSection`, whose class is not
among the sources): name, semantic kind, format-specific type code and flags. -/
structure LDSection where
  name : String
  kind : LDFileFormat.Kind
  type : Nat
  flag : Nat
  deriving DecidableEq, Repr

/-- Modelled from the spec: the section factory of the linker
(`pLinker.getSectFactory()`), reduced to the section headers it has produced, oldest
first.  A pointer to a section header is its position in this list. -/
structure SectionFactory where
  sections : List LDSection
  deriving DecidableEq, Repr

/-- Modelled from the spec: `SectionFactory::produce(name, kind, type, flag)`: a new
section header is allocated; the result is the factory and the pointer to the new
header. -/
def SectionFactory.produce (alloc : SectionFactory) (pName : String)
    (pKind : LDFileFormat.Kind) (pType pFlag : Nat) : SectionFactory × Nat :=
  ({ sections := alloc.sections ++ [{ name := pName, kind := pKind, type := pType,
                                      flag := pFlag }] },
   alloc.sections.length)

/-- The section header a pointer refers to; `none` for the null pointer and for a
pointer to nothing the factory has produced. -/
def SectionFactory.deref (alloc : SectionFactory) (p : Option Nat) : Option LDSection :=
  p.bind fun i => alloc.sections.get? i

/-- The data members of `ELFDynObjFileFormat` (inherited from `ELFFileFormat`) that
`initObjectType` assigns; `none` is the null pointer. -/
structure ELFDynObjFileFormat where
  f_pDynSymTab : Option Nat
  f_pDynStrTab : Option Nat
  f_pInterp : Option Nat
  f_pHashTab : Option Nat
  f_pDynamic : Option Nat
  f_pRelaDyn : Option Nat
  f_pRelaPlt : Option Nat
  f_pGOT : Option Nat
  f_pPLT : Option Nat
  f_pGOTPLT : Option Nat
  f_pPreInitArray : Option Nat
  f_pInitArray : Option Nat
  f_pFiniArray : Option Nat
  f_pCtors : Option Nat
  f_pDtors : Option Nat
  deriving DecidableEq, Repr

/-- The section pointers the format holds, field by field. -/
def ELFDynObjFileFormat.fields (fmt : ELFDynObjFileFormat) : List (Option Nat) :=
  [fmt.f_pDynSymTab, fmt.f_pDynStrTab, fmt.f_pInterp, fmt.f_pHashTab, fmt.f_pDynamic,
   fmt.f_pRelaDyn, fmt.f_pRelaPlt, fmt.f_pGOT, fmt.f_pPLT, fmt.f_pGOTPLT,
   fmt.f_pPreInitArray, fmt.f_pInitArray, fmt.f_pFiniArray, fmt.f_pCtors, fmt.f_pDtors]

/-- The function `ELFDynObjFileFormat::initObjectType`, on the format (`this`) and the
section factory of the linker; the assignments are in the order of the source. -/
def ELFDynObjFileFormat.initObjectType (fmt : ELFDynObjFileFormat) (alloc : SectionFactory) :
    ELFDynObjFileFormat × SectionFactory :=
  let p := alloc.produce ".dynsym" LDFileFormat.Kind.SymbolTable SHT_DYNSYM SHF_ALLOC
  let fmt := { fmt with f_pDynSymTab := some p.2 }
  let p := p.1.produce ".dynstr" LDFileFormat.Kind.StringTable SHT_STRTAB SHF_ALLOC
  let fmt := { fmt with f_pDynStrTab := some p.2 }
  let p := p.1.produce ".interp" LDFileFormat.Kind.MetaData SHT_PROGBITS SHF_ALLOC
  let fmt := { fmt with f_pInterp := some p.2 }
  let p := p.1.produce ".hash" LDFileFormat.Kind.MetaData SHT_HASH SHF_ALLOC
  let fmt := { fmt with f_pHashTab := some p.2 }
  let p := p.1.produce ".dynamic" LDFileFormat.Kind.MetaData SHT_DYNAMIC
    (SHF_ALLOC ||| SHF_WRITE)
  let fmt := { fmt with f_pDynamic := some p.2 }
  let p := p.1.produce ".rela.dyn" LDFileFormat.Kind.ReadOnly SHT_RELA SHF_ALLOC
  let fmt := { fmt with f_pRelaDyn := some p.2 }
  let p := p.1.produce ".rela.plt" LDFileFormat.Kind.ReadOnly SHT_RELA SHF_ALLOC
  let fmt := { fmt with f_pRelaPlt := some p.2 }
  let p := p.1.produce ".rel.dyn" LDFileFormat.Kind.ReadOnly SHT_REL SHF_ALLOC
  let fmt := { fmt with f_pRelaDyn := some p.2 }
  let p := p.1.produce ".rel.plt" LDFileFormat.Kind.ReadOnly SHT_REL SHF_ALLOC
  let fmt := { fmt with f_pRelaPlt := some p.2 }
  let p := p.1.produce ".got" LDFileFormat.Kind.GOT SHT_PROGBITS (SHF_ALLOC ||| SHF_WRITE)
  let fmt := { fmt with f_pGOT := some p.2 }
  let p := p.1.produce ".plt" LDFileFormat.Kind.PLT SHT_PROGBITS
    (SHF_ALLOC ||| SHF_EXECINSTR)
  let fmt := { fmt with f_pPLT := some p.2 }
  let p := p.1.produce ".got.plt" LDFileFormat.Kind.GOT SHT_PROGBITS
    (SHF_ALLOC ||| SHF_WRITE)
  let fmt := { fmt with f_pGOTPLT := some p.2 }
  let p := p.1.produce ".preinit_array" LDFileFormat.Kind.Data SHT_PREINIT_ARRAY
    (SHF_ALLOC ||| SHF_WRITE)
  let fmt := { fmt with f_pPreInitArray := some p.2 }
  let p := p.1.produce ".init_array" LDFileFormat.Kind.Data SHT_INIT_ARRAY
    (SHF_ALLOC ||| SHF_WRITE)
  let fmt := { fmt with f_pInitArray := some p.2 }
  let p := p.1.produce ".fini_array" LDFileFormat.Kind.Data SHT_FINI_ARRAY
    (SHF_ALLOC ||| SHF_WRITE)
  let fmt := { fmt with f_pFiniArray := some p.2 }
  let p := p.1.produce ".ctors" LDFileFormat.Kind.Data SHT_PROGBITS (SHF_ALLOC ||| SHF_WRITE)
  let fmt := { fmt with f_pCtors := some p.2 }
  let p := p.1.produce ".dtors" LDFileFormat.Kind.Data SHT_PROGBITS (SHF_ALLOC ||| SHF_WRITE)
  let fmt := { fmt with f_pDtors := some p.2 }
  (fmt, p.1)

/-- A format before `initObjectType`: every section pointer is null. -/
def ELFDynObjFileFormat.empty : ELFDynObjFileFormat :=
  { f_pDynSymTab := none, f_pDynStrTab := none, f_pInterp := none, f_pHashTab := none,
    f_pDynamic := none, f_pRelaDyn := none, f_pRelaPlt := none, f_pGOT := none,
    f_pPLT := none, f_pGOTPLT := none, f_pPreInitArray := none, f_pInitArray := none,
    f_pFiniArray := none, f_pCtors := none, f_pDtors := none }

/-- Modelled from the spec: the section-order hints the backend hands to the layout
(`SHO_*`, declared in a header that is not among the sources): "Hints used: NULL,
INIT, TEXT, PLT, DATA, RELRO, BSS, REL, DEBUG, UNDEFINED". -/
inductive SectionOrder
  | SHO_NULL
  | SHO_INIT
  | SHO_TEXT
  | SHO_PLT
  | SHO_DATA
  | SHO_RELRO
  | SHO_BSS
  | SHO_REL
  | SHO_DEBUG
  | SHO_UNDEFINED
  deriving DecidableEq, Repr

/-- The function `ARMGNULDBackend::getTargetSectionOrder`. -/
def getTargetSectionOrder (pSectHdr : LDSection) : SectionOrder :=
  if pSectHdr.name = ".got" ∨ pSectHdr.name = ".got.plt" then SectionOrder.SHO_DATA
  else if pSectHdr.name = ".plt" then SectionOrder.SHO_PLT
  else SectionOrder.SHO_UNDEFINED

/-! ## Assignments of a linker script

A shallow embedding of `lib/Script/Assignment.cpp`.  The objects an `Assignment`
holds by reference (`m_Symbol`, `m_RpnExpr`) are fields of the value. -/

/-- Modelled from the spec: the symbol operand of an assignment (`SymOperand`, whose
class is not among the sources): the name of the symbol and the value it holds. -/
structure SymOperand where
  name : String
  m_Value : Nat
  deriving DecidableEq, Repr

/-- Modelled from the spec: `SymOperand::setValue`, the value is overwritten. -/
def SymOperand.setValue (o : SymOperand) (pValue : Nat) : SymOperand :=
  { o with m_Value := pValue }

/-- Modelled from the spec: `SymOperand::value`. -/
def SymOperand.value (o : SymOperand) : Nat := o.m_Value

/-- Modelled from the spec: an expression of a linker script in reverse Polish
notation (`RpnExpr`, whose class is not among the sources), as its tokens. -/
structure RpnExpr where
  tokens : List String
  deriving DecidableEq, Repr

namespace Assignment

/-- The enumeration `Assignment::Level`. -/
inductive Level
  | OUTSIDES_SECTIONS
  | OUTPUT_SECTION
  | INPUT_SECTION
  deriving DecidableEq, Repr

/-- The enumeration `Assignment::Type` (`Type` is a reserved word here). -/
inductive AssignmentType
  | DEFAULT
  | HIDDEN
  | PROVIDE
  | PROVIDE_HIDDEN
  deriving DecidableEq, Repr

end Assignment

/-- The data members of `Assignment` that its observers expose: the level, the type,
the symbol operand and the expression.  (`m_Module` is read by the evaluator alone,
which `assign` below takes as a parameter; `m_Script` is used by `activate` only.) -/
structure Assignment where
  m_Level : Assignment.Level
  m_Type : Assignment.AssignmentType
  m_Symbol : SymOperand
  m_RpnExpr : RpnExpr
  deriving DecidableEq, Repr

/-- What a call `a = b` leaves: the object `*this`, the argument, and whether the
reference returned is the one to `*this`. -/
structure Assignment.Assigned where
  self : Assignment
  pAssignment : Assignment
  returnsSelf : Bool
  deriving DecidableEq, Repr

/-- The operator `Assignment::operator=`, whose body is `return *this;`. -/
def Assignment.operatorAssign (self pAssignment : Assignment) : Assignment.Assigned :=
  { self := self, pAssignment := pAssignment, returnsSelf := true }

/-- The function `Assignment::assign`.  The evaluator (`RpnEvaluator::eval`, not among
the sources) is the parameter `eval`: from the expression and the initial content of
`result` it gives the success flag and the content of `result` afterwards.  The
result is the value returned and the assignment afterwards. -/
def Assignment.assign (eval : RpnExpr → Nat → Bool × Nat) (self : Assignment) :
    Bool × Assignment :=
  let result := 0
  let r := eval self.m_RpnExpr result
  let success := r.1
  let result := r.2
  if success then (success, { self with m_Symbol := self.m_Symbol.setValue result })
  else (success, self)

/-! ## Emitting the sections of the backend

A shallow embedding of `ARMGNULDBackend::emitSectionData`.  The address of a section
header is a number; what the function stores in the output region is recorded as the
list of its copies. -/

/-- The class `PLTEntry` of `mcld/Target/PLT.h`, reduced to its data members: the size
of the entry and its content. -/
structure PLTEntry where
  m_EntrySize : Nat
  m_pContent : List Byte
  deriving DecidableEq, Repr

/-- Modelled from the spec: the entries of `ARMPLT` as `emitSectionData` iterates
them, the PLT0 entry first and then the PLT1 entries. -/
structure ARMPLTEntries where
  plt0 : PLTEntry
  plt1 : List PLTEntry
  deriving DecidableEq, Repr

/-- Modelled from the spec: the entries of `ARMGOT` as `emitSectionData` iterates them:
the size `getEntrySize()` gives and the content of each entry. -/
structure ARMGOTEntries where
  entrySize : Nat
  entries : List Nat
  deriving DecidableEq, Repr

/-- What `emitSectionData` reads of the file format `getDynObjFileFormat()` gives: the
addresses of the section headers `FileFormat->getPLT()` and `FileFormat->getGOT()`. -/
structure EmitFormat where
  pltSection : Nat
  gotSection : Nat
  deriving DecidableEq, Repr

/-- What `emitSectionData` reads of the backend: the pointer `m_pAttributes`, the PLT,
the GOT and the file format of a shared object (`none` is the null pointer). -/
structure EmitBackend where
  m_pAttributes : Option Nat
  m_pPLT : Option ARMPLTEntries
  m_pGOT : Option ARMGOTEntries
  m_pDynObjFileFormat : Option EmitFormat
  deriving DecidableEq, Repr

/-- The argument `pSection` of `emitSectionData`: the address of the header, its name,
and whether it has section data. -/
structure EmitSection where
  address : Nat
  name : String
  hasSectionData : Bool
  deriving DecidableEq, Repr

/-- One copy into the output region: `length` bytes stored from the byte `offset` of
the region on. -/
structure RegionWrite where
  offset : Nat
  length : Nat
  deriving DecidableEq, Repr

/-- The ways a call of `emitSectionData` ends: it returns a value, having made the
copies listed; it aborts with "unsupported section name"; or an `assert` fails. -/
inductive Emitted
  | returned (value : Nat) (writes : List RegionWrite)
  | unsupportedSection (name : String)
  | assertFailed
  deriving DecidableEq, Repr

/-- The number of bytes a list of copies stores. -/
def bytesCopied (ws : List RegionWrite) : Nat := (ws.map RegionWrite.length).sum

/-- The loop of `emitSectionData` over the PLT1 entries: each entry is copied to the
offset `RegionSize`, which then grows by the size of the entry. -/
def emitPLT1 : List PLTEntry → Nat → List RegionWrite → Nat × List RegionWrite
  | [], RegionSize, ws => (RegionSize, ws)
  | plt1 :: rest, RegionSize, ws =>
    emitPLT1 rest (RegionSize + plt1.m_EntrySize)
      (ws ++ [{ offset := RegionSize, length := plt1.m_EntrySize }])

/-- The loop of `emitSectionData` over the GOT entries: each entry is stored as a
`uint32_t` (four bytes) at the moving `uint32_t* buffer`, the `index`-th word of the
region, and `RegionSize` grows by `EntrySize`. -/
def emitGOT : List Nat → Nat → Nat → Nat → List RegionWrite → Nat × List RegionWrite
  | [], _, _, RegionSize, ws => (RegionSize, ws)
  | _ :: rest, EntrySize, index, RegionSize, ws =>
    emitGOT rest EntrySize (index + 1) (RegionSize + EntrySize)
      (ws ++ [{ offset := 4 * index, length := 4 }])

/-- The function `ARMGNULDBackend::emitSectionData`; `regionSize` is `pRegion.size()`.
(The sizes are those of objects in memory, so `RegionSize` does not wrap around.) -/
def emitSectionData (b : EmitBackend) (pSection : EmitSection) (regionSize : Nat) : Emitted :=
  if regionSize = 0 then Emitted.assertFailed
  else
    match b.m_pDynObjFileFormat with
    | none => Emitted.assertFailed
    | some FileFormat =>
      if some pSection.address = b.m_pAttributes then
        if pSection.hasSectionData then
          Emitted.returned 0 [{ offset := 0, length := regionSize }]
        else Emitted.assertFailed
      else if pSection.address = FileFormat.pltSection then
        match b.m_pPLT with
        | none => Emitted.assertFailed
        | some plt =>
          let r := emitPLT1 plt.plt1 (0 + plt.plt0.m_EntrySize)
            [{ offset := 0, length := plt.plt0.m_EntrySize }]
          Emitted.returned r.1 r.2
      else if pSection.address = FileFormat.gotSection then
        match b.m_pGOT with
        | none => Emitted.assertFailed
        | some got =>
          let r := emitGOT got.entries got.entrySize 0 0 []
          Emitted.returned r.1 r.2
      else Emitted.unsupportedSection pSection.name

/-- A backend after layout: `.ARM.attributes` at address 1, `.plt` at 2, `.got` at 3; a
PLT of a PLT0 entry of 20 bytes and two PLT1 entries of 12 bytes; a GOT of three
entries of four bytes. -/
def emitExample : EmitBackend :=
  { m_pAttributes := some 1,
    m_pPLT := some { plt0 := { m_EntrySize := 20, m_pContent := [] },
                     plt1 := [{ m_EntrySize := 12, m_pContent := [] },
                              { m_EntrySize := 12, m_pContent := [] }] },
    m_pGOT := some { entrySize := 4, entries := [0, 0, 0] },
    m_pDynObjFileFormat := some { pltSection := 2, gotSection := 3 } }

/-- A configuration for a little-endian target with the bit class 16. -/
def littleEndian16 : LinkerConfig := { isLittleEndian := true, bitclass := 16 }

/-! # Theorems -/

/-! ## The predicates -/

/-- C1: `isSymbolNeedsPLT` is true exactly when the output type is DynObj, the symbol
has type Function, and the symbol is from a shared object, or undefined, or
preemptible. -/
theorem isSymbolNeedsPLT_iff (pSym : ResolveInfo) (pType : OutputType) (pLDInfo : MCLDInfo) :
    isSymbolNeedsPLT pSym pType pLDInfo = true ↔
      pType = OutputType.DynObj ∧ pSym.type = SymType.Function ∧
        (pSym.isDyn = true ∨ pSym.isUndef = true ∨
          isSymbolPreemtible pSym pType pLDInfo = true) := by
  simp only [isSymbolNeedsPLT, Bool.and_eq_true, Bool.or_eq_true, decide_eq_true_eq]
  constructor
  · rintro ⟨⟨h1, h2⟩, h3⟩
    exact ⟨h1.symm, h2.symm, by tauto⟩
  · rintro ⟨h1, h2, h3⟩
    exact ⟨⟨h1.symm, h2.symm⟩, by tauto⟩

/-- C2: the early-return cascade of `isSymbolNeedsDynRel` computes the single boolean
formula of the specification: not (undefined and output = Exec), not absolute, and
(output = DynObj and isAbs, or from a shared object, or undefined). -/
theorem isSymbolNeedsDynRel_iff_spec (pSym : ResolveInfo) (pType : OutputType)
    (isAbsReloc : Bool) :
    isSymbolNeedsDynRel pSym pType isAbsReloc = true ↔
      needsDynRelocSpec pSym pType isAbsReloc := by
  unfold isSymbolNeedsDynRel needsDynRelocSpec
  cases h1 : pSym.isUndef <;> cases h2 : pSym.isAbsolute <;> cases h3 : pSym.isDyn <;>
    cases isAbsReloc <;> cases pType <;> simp

/-- C3: `isSymbolPreemtible` is true exactly when the symbol has Default visibility, the
output type is DynObj and Bsymbolic is off. -/
theorem isSymbolPreemtible_iff (pSym : ResolveInfo) (pType : OutputType) (pLDInfo : MCLDInfo) :
    isSymbolPreemtible pSym pType pLDInfo = true ↔
      pSym.other = Visibility.Default ∧ pType = OutputType.DynObj ∧
        pLDInfo.Bsymbolic = false := by
  unfold isSymbolPreemtible
  by_cases h1 : pSym.other = Visibility.Default <;>
    by_cases h2 : pType = OutputType.DynObj <;>
    cases h3 : pLDInfo.Bsymbolic <;> simp [h1, h2]

/-! ## Bit masks -/

theorem or_and_ne_zero (m b c : Nat) (h : b &&& c ≠ 0) : (m ||| b) &&& c ≠ 0 := by
  intro h0
  apply h
  apply Nat.eq_of_testBit_eq
  intro i
  have := congrArg (fun n => Nat.testBit n i) h0
  simp only [Nat.testBit_and, Nat.testBit_or, Nat.zero_testBit] at this ⊢
  cases hb : b.testBit i <;> cases hc : c.testBit i <;> simp_all

theorem or_and_ne_zero_left (m b c : Nat) (h : m &&& c ≠ 0) : (m ||| b) &&& c ≠ 0 := by
  rw [Nat.lor_comm]
  exact or_and_ne_zero b m c h

theorem or_and_self_eq (m b : Nat) : (m ||| b) &&& b = b := by
  apply Nat.eq_of_testBit_eq
  intro i
  simp only [Nat.testBit_and, Nat.testBit_or]
  cases m.testBit i <;> cases b.testBit i <;> rfl

theorem or_or_self (m b : Nat) : (m ||| b) ||| b = m ||| b := by
  rw [Nat.or_assoc, Nat.or_self]

/-! ## Sequencing -/

theorem andThen_eq_ok {o : Outcome} {f : ScanState → Outcome} {s1 : ScanState} :
    o.andThen f = Outcome.ok s1 ↔ ∃ sa, o = Outcome.ok sa ∧ f sa = Outcome.ok s1 := by
  cases o <;> simp [Outcome.andThen]

theorem andThen_ok (s : ScanState) (f : ScanState → Outcome) :
    (Outcome.ok s).andThen f = f s := rfl

theorem isSymbolNeedsPLT_setReserved (r : ResolveInfo) (v : Nat) (ty : OutputType)
    (info : MCLDInfo) :
    isSymbolNeedsPLT (r.setReserved v) ty info = isSymbolNeedsPLT r ty info := rfl

theorem isSymbolNeedsDynRel_setReserved (r : ResolveInfo) (v : Nat) (ty : OutputType)
    (a : Bool) :
    isSymbolNeedsDynRel (r.setReserved v) ty a = isSymbolNeedsDynRel r ty a := rfl

theorem isSymbolPreemtible_setReserved (r : ResolveInfo) (v : Nat) (ty : OutputType)
    (info : MCLDInfo) :
    isSymbolPreemtible (r.setReserved v) ty info = isSymbolPreemtible r ty info := rfl

/-! ## The case labels of a switch are disjoint -/

theorem gotOff_not_globalRel : ∀ t ∈ gotOffTypes, t ∉ globalRelTypes := by decide

theorem globalRel_not_globalAbs : ∀ t ∈ globalRelTypes, t ∉ globalAbsTypes := by decide

theorem localAbs32_sub_dynValid : ∀ t ∈ localAbs32Types, t ∈ dynValidTypes := by decide

theorem localAbsChecked_not_dynValid : ∀ t ∈ localAbsCheckedTypes, t ∉ dynValidTypes := by
  decide

theorem localAbsChecked_not_localAbs32 : ∀ t ∈ localAbsCheckedTypes, t ∉ localAbs32Types := by
  decide

theorem globalAbs_split : ∀ t ∈ globalAbsTypes, t ∈ localAbs32Types ∨ t ∈ localAbsCheckedTypes := by
  decide

/-! ## The shared statements -/

theorem checkValidReloc_state (t : Nat) (ty : OutputType) (s : ScanState) :
    (checkValidReloc t ty s).state = s := by
  unfold checkValidReloc
  split_ifs <;> rfl

theorem checkValidReloc_ok {t : Nat} {ty : OutputType} {s s1 : ScanState}
    (h : checkValidReloc t ty s = Outcome.ok s1) :
    s1 = s ∧ ∀ s2, checkValidReloc t ty s2 = Outcome.ok s2 := by
  unfold checkValidReloc at h ⊢
  split_ifs at h ⊢ <;> simp_all

@[simp] theorem defineSymbol_backend (s : ScanState) (d : SymbolDef) :
    (s.defineSymbol d).backend = s.backend := rfl

@[simp] theorem defineSymbol_linker (s : ScanState) (d : SymbolDef) :
    (s.defineSymbol d).linker = s.linker.defineSymbol d := rfl

@[simp] theorem defineSymbol_reserved (s : ScanState) (d : SymbolDef) :
    (s.defineSymbol d).rsym.reserved = s.rsym.reserved := by
  simp only [ScanState.defineSymbol]
  split_ifs <;> rfl

@[simp] theorem defineSymbol_name (s : ScanState) (d : SymbolDef) :
    (s.defineSymbol d).rsym.name = s.rsym.name := by
  simp only [ScanState.defineSymbol]
  split_ifs <;> rfl

theorem ensureGOT_ok {ty : OutputType} {s s1 : ScanState}
    (h : ensureGOT ty s = Outcome.ok s1) : s1 = s.withGOT := by
  obtain ⟨⟨g, p, rd, rp⟩, l, r⟩ := s
  cases g <;> cases ty <;>
    simp_all [ensureGOT, createARMGOT, Outcome.andThen, ScanState.withGOT, ScanState.setGOT,
      ScanState.defineSymbol]

theorem ensureGOT_eq (ty : OutputType) (s : ScanState) (hty : ty ≠ OutputType.Object) :
    ensureGOT ty s = Outcome.ok s.withGOT := by
  obtain ⟨⟨g, p, rd, rp⟩, l, r⟩ := s
  cases g <;> cases ty <;>
    simp_all [ensureGOT, createARMGOT, Outcome.andThen, ScanState.withGOT, ScanState.setGOT,
      ScanState.defineSymbol]

theorem ensureGOT_of_isSome (ty : OutputType) (s : ScanState)
    (h : s.backend.m_pGOT.isSome = true) : ensureGOT ty s = Outcome.ok s := by
  unfold ensureGOT
  cases hg : s.backend.m_pGOT <;> simp_all

theorem withGOT_isSome (s : ScanState) : s.withGOT.backend.m_pGOT.isSome = true := by
  unfold ScanState.withGOT
  cases hg : s.backend.m_pGOT <;> simp [hg, ScanState.setGOT, ScanState.defineSymbol]

theorem withGOT_rsym (s : ScanState) (hs : s.GotSettled) : s.withGOT.rsym = s.rsym := by
  unfold ScanState.withGOT
  cases hg : s.backend.m_pGOT with
  | some g => rfl
  | none =>
    have hn : s.rsym.name ≠ "_GLOBAL_OFFSET_TABLE_" := by
      rcases hs with h | h
      · exact h
      · rw [hg] at h
        exact absurd h (by decide)
    simp [ScanState.defineSymbol, ScanState.setGOT, gotSymbolDef, hn]

theorem withGOT_reserved (s : ScanState) : s.withGOT.rsym.reserved = s.rsym.reserved := by
  unfold ScanState.withGOT
  cases hg : s.backend.m_pGOT with
  | some g => rfl
  | none =>
    simp only [ScanState.defineSymbol, ScanState.setGOT]
    split_ifs <;> rfl

theorem withGOT_name (s : ScanState) : s.withGOT.rsym.name = s.rsym.name := by
  unfold ScanState.withGOT
  cases hg : s.backend.m_pGOT with
  | some g => rfl
  | none =>
    simp only [ScanState.defineSymbol, ScanState.setGOT]
    split_ifs <;> rfl

theorem withGOT_settled (s : ScanState) : s.withGOT.GotSettled :=
  Or.inr (withGOT_isSome s)

theorem gotSettled_of_isSome {s : ScanState} (h : s.backend.m_pGOT.isSome = true) :
    s.GotSettled := Or.inr h

theorem gotSettled_of_name {s : ScanState} (h : s.rsym.name ≠ "_GLOBAL_OFFSET_TABLE_") :
    s.GotSettled := Or.inl h

theorem gotSettled_isNone {s : ScanState} (hs : s.GotSettled)
    (hg : s.backend.m_pGOT.isNone = true) : s.rsym.name ≠ "_GLOBAL_OFFSET_TABLE_" := by
  rcases hs with h | h
  · exact h
  · cases hq : s.backend.m_pGOT <;> simp_all

theorem reserveDynRel_ok {ty : OutputType} {s s1 : ScanState}
    (h : reserveDynRel ty s = Outcome.ok s1) : s1 = s.bumpRelDyn := by
  obtain ⟨⟨g, p, rd, rp⟩, l, r⟩ := s
  cases rd <;> cases ty <;>
    simp_all [reserveDynRel, ensureRelDyn, createARMRelDyn, reserveRelDynEntry, orReserved,
      Outcome.andThen, ScanState.bumpRelDyn, ScanState.setRelDyn, relDynEntries]

theorem reserveDynRel_eq (ty : OutputType) (s : ScanState) (hty : ty ≠ OutputType.Object) :
    reserveDynRel ty s = Outcome.ok s.bumpRelDyn := by
  obtain ⟨⟨g, p, rd, rp⟩, l, r⟩ := s
  cases rd <;> cases ty <;>
    simp_all [reserveDynRel, ensureRelDyn, createARMRelDyn, reserveRelDynEntry, orReserved,
      Outcome.andThen, ScanState.bumpRelDyn, ScanState.setRelDyn, relDynEntries]

theorem reserveDynRel_bumpRelDyn (ty : OutputType) (s : ScanState) :
    reserveDynRel ty s.bumpRelDyn = Outcome.ok s.bumpRelDyn.bumpRelDyn := by
  simp [reserveDynRel, ensureRelDyn, reserveRelDynEntry, orReserved,
      Outcome.andThen, ScanState.bumpRelDyn, ScanState.setRelDyn, relDynEntries]

theorem reservePLT_ok {ty : OutputType} {s s1 : ScanState}
    (h : reservePLT ty s = Outcome.ok s1) (hs : s.GotSettled) :
    s1.rsym = s.rsym.setReserved (s.rsym.reserved ||| 0x8) ∧
      s1.backend.m_pGOT.isSome = true ∧ s1.backend.m_pPLT.isSome = true ∧
      s1.backend.m_pRelPLT.isSome = true ∧ s1.backend.m_pRelDyn = s.backend.m_pRelDyn := by
  obtain ⟨⟨g, p, rd, rp⟩, l, r⟩ := s
  cases g with
  | none =>
    have hn : r.name ≠ "_GLOBAL_OFFSET_TABLE_" := gotSettled_isNone hs rfl
    cases p <;> cases rp <;> cases ty <;>
      simp [reservePLT, ensurePLT, createARMPLTandRelPLT, createARMGOT, reservePLTEntry,
        reserveRelPLTEntry, orReserved, Outcome.andThen, ScanState.setGOT, ScanState.setPLT,
        ScanState.setRelPLT, ScanState.defineSymbol, gotSymbolDef, hn] at h <;>
      subst h <;> simp
  | some g =>
    cases p <;> cases rp <;> cases ty <;>
      simp [reservePLT, ensurePLT, createARMPLTandRelPLT, createARMGOT, reservePLTEntry,
        reserveRelPLTEntry, orReserved, Outcome.andThen, ScanState.setGOT, ScanState.setPLT,
        ScanState.setRelPLT] at h <;>
      subst h <;> simp

theorem reserveGOT_ok {d : ScanState → Bool} {ty : OutputType} {s s1 : ScanState}
    (h : reserveGOT d ty s = Outcome.ok s1) (hs : s.GotSettled) :
    (s1.rsym = s.rsym.setReserved (s.rsym.reserved ||| 0x4) ∨
      s1.rsym = s.rsym.setReserved (s.rsym.reserved ||| 0x2)) ∧
      s1.backend.m_pGOT.isSome = true := by
  obtain ⟨⟨g, p, rd, rp⟩, l, r⟩ := s
  unfold reserveGOT at h
  cases g with
  | none =>
    have hn : r.name ≠ "_GLOBAL_OFFSET_TABLE_" := gotSettled_isNone hs rfl
    cases rd <;> cases ty <;>
      simp [ensureGOT, createARMGOT, reserveGOTEntry, ensureRelDyn, createARMRelDyn,
        reserveRelDynEntry, orReserved, Outcome.andThen, ScanState.setGOT,
        ScanState.setRelDyn, ScanState.defineSymbol, gotSymbolDef, hn] at h <;>
      split_ifs at h <;> simp at h <;> subst h <;> simp [ResolveInfo.setReserved]
  | some g =>
    cases rd <;> cases ty <;>
      simp [ensureGOT, createARMGOT, reserveGOTEntry, ensureRelDyn, createARMRelDyn,
        reserveRelDynEntry, orReserved, Outcome.andThen, ScanState.setGOT,
        ScanState.setRelDyn] at h <;>
      split_ifs at h <;> simp at h <;> subst h <;> simp [ResolveInfo.setReserved]

/-! ## The frame of a scan -/

theorem frame_refl (s : ScanState) : Frame s s := ⟨fun _ => rfl, rfl, fun h => h⟩

theorem frame_settled {a b : ScanState} (h : Frame a b) (ha : a.GotSettled) :
    b.GotSettled := by
  rcases ha with hn | hg
  · exact Or.inl (by rw [h.2.1]; exact hn)
  · exact Or.inr (h.2.2 hg)

theorem frame_trans {a b c : ScanState} (h1 : Frame a b) (h2 : Frame b c) : Frame a c := by
  refine ⟨fun ha => ?_, h2.2.1.trans h1.2.1, fun h => h2.2.2 (h1.2.2 h)⟩
  rw [h2.1 (frame_settled h1 ha), h1.1 ha]
  rfl

theorem framed_andThen {f g : ScanState → Outcome} (hf : Framed f) (hg : Framed g) :
    Framed (fun s => (f s).andThen g) := by
  intro s
  have h1 := hf s
  show Frame s ((f s).andThen g).state
  cases h : f s with
  | ok sa =>
    rw [h] at h1
    exact frame_trans h1 (hg sa)
  | fatal e sa =>
    rw [h] at h1
    exact h1

theorem framed_ite {f g : ScanState → Outcome} (c : ScanState → Prop) [DecidablePred c]
    (hf : Framed f) (hg : Framed g) : Framed (fun s => if c s then f s else g s) := by
  intro s
  by_cases h : c s
  · simpa [h] using hf s
  · simpa [h] using hg s

theorem framed_ok : Framed Outcome.ok := fun s => frame_refl s

theorem framed_fatal (e : Fatal) : Framed (Outcome.fatal e) := fun s => frame_refl s

theorem createARMGOT_state (ty : OutputType) (s : ScanState) :
    (createARMGOT ty s).state = s ∨
      (createARMGOT ty s).state = (s.setGOT ARMGOT.new).defineSymbol gotSymbolDef := by
  cases ty <;> simp [createARMGOT, Outcome.andThen, Outcome.state]

theorem createARMGOT_frame (ty : OutputType) (s : ScanState)
    (hg : s.backend.m_pGOT.isNone = true) : Frame s (createARMGOT ty s).state := by
  rcases createARMGOT_state ty s with h | h
  · rw [h]
    exact frame_refl s
  · rw [h]
    refine ⟨fun hs => ?_, ?_, fun _ => rfl⟩
    · have hn := gotSettled_isNone hs hg
      simp [ScanState.defineSymbol, ScanState.setGOT, gotSymbolDef, hn,
        ResolveInfo.setReserved]
    · simp only [ScanState.defineSymbol, ScanState.setGOT]
      split_ifs <;> rfl

theorem ensureGOT_framed (ty : OutputType) : Framed (ensureGOT ty) := by
  intro s
  unfold ensureGOT
  by_cases hg : s.backend.m_pGOT.isNone = true
  · rw [if_pos hg]
    exact createARMGOT_frame ty s hg
  · rw [if_neg hg]
    exact frame_refl s

theorem createARMRelDyn_framed (ty : OutputType) : Framed (createARMRelDyn ty) := by
  intro s
  cases ty <;> simp [createARMRelDyn, Outcome.state, Frame, ScanState.setRelDyn,
    ResolveInfo.setReserved]

theorem ensureRelDyn_framed (ty : OutputType) : Framed (ensureRelDyn ty) :=
  framed_ite (fun s => s.backend.m_pRelDyn.isNone = true) (createARMRelDyn_framed ty) framed_ok

theorem createARMPLTandRelPLT_framed (ty : OutputType) : Framed (createARMPLTandRelPLT ty) := by
  have h2 : Framed (fun s1 => match ty with
      | OutputType.DynObj =>
        Outcome.ok ((s1.setPLT { reserved := 0 }).setRelPLT { reserved := 0 })
      | OutputType.Exec =>
        Outcome.ok ((s1.setPLT { reserved := 0 }).setRelPLT { reserved := 0 })
      | OutputType.Object => Outcome.fatal Fatal.pltNotSupported s1) := by
    intro s
    cases ty <;> simp [Outcome.state, Frame, ScanState.setPLT, ScanState.setRelPLT,
      ResolveInfo.setReserved]
  exact framed_andThen (ensureGOT_framed ty) h2

theorem ensurePLT_framed (ty : OutputType) : Framed (ensurePLT ty) :=
  framed_ite (fun s => s.backend.m_pPLT.isNone = true) (createARMPLTandRelPLT_framed ty)
    framed_ok

theorem reserveGOTEntry_framed : Framed reserveGOTEntry := by
  intro s
  unfold reserveGOTEntry
  cases h : s.backend.m_pGOT <;>
    simp [Outcome.state, Frame, ScanState.setGOT, ResolveInfo.setReserved]

theorem reservePLTEntry_framed : Framed reservePLTEntry := by
  intro s
  unfold reservePLTEntry
  cases h : s.backend.m_pGOT <;> cases h2 : s.backend.m_pPLT <;>
    simp [Outcome.state, Frame, ScanState.setGOT, ScanState.setPLT, ResolveInfo.setReserved, h]

theorem reserveRelDynEntry_framed : Framed reserveRelDynEntry := by
  intro s
  unfold reserveRelDynEntry
  cases h : s.backend.m_pRelDyn <;>
    simp [Outcome.state, Frame, ScanState.setRelDyn, ResolveInfo.setReserved]

theorem reserveRelPLTEntry_framed : Framed reserveRelPLTEntry := by
  intro s
  unfold reserveRelPLTEntry
  cases h : s.backend.m_pRelPLT <;>
    simp [Outcome.state, Frame, ScanState.setRelPLT, ResolveInfo.setReserved]

theorem orReserved_framed (bit : Nat) : Framed (orReserved bit) := by
  intro s
  simp [orReserved, Outcome.state, Frame, ResolveInfo.setReserved]

theorem checkValidReloc_framed (t : Nat) (ty : OutputType) : Framed (checkValidReloc t ty) := by
  intro s
  rw [checkValidReloc_state]
  exact frame_refl s

theorem reserveDynRel_framed (ty : OutputType) : Framed (reserveDynRel ty) :=
  framed_andThen (framed_andThen (ensureRelDyn_framed ty) reserveRelDynEntry_framed)
    (orReserved_framed 0x1)

theorem reservePLT_framed (ty : OutputType) : Framed (reservePLT ty) :=
  framed_andThen (framed_andThen (framed_andThen (ensurePLT_framed ty) reservePLTEntry_framed)
    reserveRelPLTEntry_framed) (orReserved_framed 0x8)

theorem reserveGOT_framed (d : ScanState → Bool) (ty : OutputType) :
    Framed (reserveGOT d ty) :=
  framed_andThen (framed_andThen (ensureGOT_framed ty) reserveGOTEntry_framed)
    (framed_ite (fun s1 => d s1 = true)
      (framed_andThen (framed_andThen (ensureRelDyn_framed ty) reserveRelDynEntry_framed)
        (orReserved_framed 0x4))
      (orReserved_framed 0x2))

theorem scanLocalReloc_framed (t : Nat) (ty : OutputType) : Framed (scanLocalReloc t ty) := by
  intro s
  unfold scanLocalReloc
  split_ifs
  · exact reserveDynRel_framed ty s
  · exact frame_refl s
  · exact framed_andThen (checkValidReloc_framed t ty) (reserveDynRel_framed ty) s
  · exact frame_refl s
  · exact ensureGOT_framed ty s
  · exact frame_refl s
  · exact reserveGOT_framed _ ty s
  · exact frame_refl s
  · exact frame_refl s

theorem scanGlobalReloc_framed (t : Nat) (info : MCLDInfo) (ty : OutputType) :
    Framed (scanGlobalReloc t info ty) := by
  have hdyn : Framed (fun s1 => if isSymbolNeedsDynRel s1.rsym ty true = true then
      (checkValidReloc t ty s1).andThen (reserveDynRel ty) else Outcome.ok s1) :=
    framed_ite (fun s1 => isSymbolNeedsDynRel s1.rsym ty true = true)
      (framed_andThen (checkValidReloc_framed t ty) (reserveDynRel_framed ty)) framed_ok
  have hdynF : Framed (fun s1 => if isSymbolNeedsDynRel s1.rsym ty false = true then
      (checkValidReloc t ty s1).andThen (reserveDynRel ty) else Outcome.ok s1) :=
    framed_ite (fun s1 => isSymbolNeedsDynRel s1.rsym ty false = true)
      (framed_andThen (checkValidReloc_framed t ty) (reserveDynRel_framed ty)) framed_ok
  have hplt : Framed (fun s => if isSymbolNeedsPLT s.rsym ty info = true then
      (if s.rsym.reserved &&& 0x8 = 0 then reservePLT ty s else Outcome.ok s)
      else Outcome.ok s) :=
    framed_ite (fun s => isSymbolNeedsPLT s.rsym ty info = true)
      (framed_ite (fun s => s.rsym.reserved &&& 0x8 = 0) (reservePLT_framed ty) framed_ok)
      framed_ok
  have hbr : Framed (fun s => if s.rsym.reserved &&& 0x8 ≠ 0 then Outcome.ok s
      else if (s.rsym.isDefine && !s.rsym.isDyn && !isSymbolPreemtible s.rsym ty info) = true
        then Outcome.ok s
      else reservePLT ty s) :=
    framed_ite (fun s => s.rsym.reserved &&& 0x8 ≠ 0) framed_ok
      (framed_ite (fun s => (s.rsym.isDefine && !s.rsym.isDyn &&
        !isSymbolPreemtible s.rsym ty info) = true) framed_ok (reservePLT_framed ty))
  have hgot : Framed (fun s => if s.rsym.reserved &&& 0x6 ≠ 0 then Outcome.ok s
      else reserveGOT (fun s1 => decide (OutputType.DynObj = ty) || s1.rsym.isUndef ||
        s1.rsym.isDyn) ty s) :=
    framed_ite (fun s => s.rsym.reserved &&& 0x6 ≠ 0) framed_ok (reserveGOT_framed _ ty)
  intro s
  unfold scanGlobalReloc
  by_cases h1 : t ∈ globalAbsTypes
  · rw [if_pos h1]
    exact framed_andThen hplt hdyn s
  rw [if_neg h1]
  by_cases h2 : t ∈ gotOffTypes
  · rw [if_pos h2]
    exact ensureGOT_framed ty s
  rw [if_neg h2]
  by_cases h3 : t ∈ globalRelTypes
  · rw [if_pos h3]
    exact hdynF s
  rw [if_neg h3]
  by_cases h4 : t ∈ globalBranchTypes
  · rw [if_pos h4]
    exact hbr s
  rw [if_neg h4]
  by_cases h5 : t ∈ globalGotTypes
  · rw [if_pos h5]
    exact hgot s
  rw [if_neg h5]
  split_ifs <;> exact frame_refl s

theorem scanRelocation_framed (t : Nat) (info : MCLDInfo) (ty : OutputType) :
    Framed (scanRelocation t info ty) := by
  have h1 : Framed (fun s => if s.backend.m_pGOT.isNone = true ∧
      s.rsym.name = "_GLOBAL_OFFSET_TABLE_" then createARMGOT ty s else Outcome.ok s) :=
    fun s => by
      show Frame s (if s.backend.m_pGOT.isNone = true ∧
        s.rsym.name = "_GLOBAL_OFFSET_TABLE_" then createARMGOT ty s else Outcome.ok s).state
      by_cases hc : s.backend.m_pGOT.isNone = true ∧ s.rsym.name = "_GLOBAL_OFFSET_TABLE_"
      · rw [if_pos hc]
        exact createARMGOT_frame ty s hc.1
      · rw [if_neg hc]
        exact frame_refl s
  have h2 : Framed (fun s1 => if s1.rsym.isLocal = true then scanLocalReloc t ty s1
      else if s1.rsym.isGlobal = true then scanGlobalReloc t info ty s1 else Outcome.ok s1) :=
    framed_ite (fun s1 => s1.rsym.isLocal = true) (scanLocalReloc_framed t ty)
      (framed_ite (fun s1 => s1.rsym.isGlobal = true) (scanGlobalReloc_framed t info ty)
        framed_ok)
  exact framed_andThen h1 h2

/-! ## Scanning a relocation twice -/

theorem sameReservation_refl (s : ScanState) : SameReservation s s 0 := by
  simp [SameReservation]

theorem sameReservation_bump (s : ScanState) :
    SameReservation s.bumpRelDyn s.bumpRelDyn.bumpRelDyn 1 := by
  simp [SameReservation, ScanState.bumpRelDyn, gotEntries, gotPltEntries, pltEntries,
    relPltEntries, relDynEntries, ResolveInfo.setReserved, or_or_self]

theorem scanLocalReloc_twice (t : Nat) (ty : OutputType) (s s1 : ScanState)
    (hs : s.GotSettled) (h : scanLocalReloc t ty s = Outcome.ok s1) :
    ∃ s2, scanLocalReloc t ty s1 = Outcome.ok s2 ∧
      SameReservation s1 s2
        (if t ∈ localAbs32Types ∧ ty = OutputType.DynObj then 1 else 0) := by
  unfold scanLocalReloc at h ⊢
  by_cases h1 : t ∈ localAbs32Types
  · rw [if_pos h1] at h ⊢
    by_cases hty : OutputType.DynObj = ty
    · rw [if_pos hty] at h ⊢
      rw [reserveDynRel_ok h, reserveDynRel_bumpRelDyn, if_pos ⟨h1, hty.symm⟩]
      exact ⟨_, rfl, sameReservation_bump s⟩
    · rw [if_neg hty] at h ⊢
      have hne : ¬ (t ∈ localAbs32Types ∧ ty = OutputType.DynObj) := fun hc => hty hc.2.symm
      rw [if_neg hne]
      exact ⟨s1, rfl, sameReservation_refl s1⟩
  have hne : ¬ (t ∈ localAbs32Types ∧ ty = OutputType.DynObj) := fun hc => h1 hc.1
  rw [if_neg h1] at h ⊢
  rw [if_neg hne]
  by_cases h2 : t ∈ localAbsCheckedTypes
  · rw [if_pos h2] at h ⊢
    by_cases hty : OutputType.DynObj = ty
    · rw [if_pos hty] at h
      exfalso
      obtain ⟨sa, hc, -⟩ := andThen_eq_ok.mp h
      subst hty
      simp [checkValidReloc, localAbsChecked_not_dynValid t h2] at hc
    · rw [if_neg hty] at h ⊢
      exact ⟨s1, rfl, sameReservation_refl s1⟩
  rw [if_neg h2] at h ⊢
  by_cases h3 : t ∈ gotOffTypes
  · rw [if_pos h3] at h ⊢
    have hs1 := ensureGOT_ok h
    refine ⟨s1, ?_, sameReservation_refl s1⟩
    apply ensureGOT_of_isSome
    rw [hs1]
    exact withGOT_isSome s
  rw [if_neg h3] at h ⊢
  by_cases h4 : t ∈ localGotTypes
  · rw [if_pos h4] at h ⊢
    by_cases h6 : s.rsym.reserved &&& 0x6 ≠ 0
    · rw [if_pos h6] at h
      cases h
      rw [if_pos h6]
      exact ⟨s, rfl, sameReservation_refl s⟩
    · rw [if_neg h6] at h
      have hm := (reserveGOT_ok h hs).1
      have h6b : s1.rsym.reserved &&& 0x6 ≠ 0 := by
        rcases hm with hm | hm <;> rw [hm]
        · exact or_and_ne_zero _ 4 6 (by decide)
        · exact or_and_ne_zero _ 2 6 (by decide)
      rw [if_pos h6b]
      exact ⟨s1, rfl, sameReservation_refl s1⟩
  rw [if_neg h4] at h ⊢
  by_cases h5 : t ∈ dynOnlyTypes
  · rw [if_pos h5] at h
    cases h
  rw [if_neg h5] at h ⊢
  exact ⟨s1, rfl, sameReservation_refl s1⟩

theorem scanGlobalReloc_twice (t : Nat) (info : MCLDInfo) (ty : OutputType) (s s1 : ScanState)
    (hs : s.GotSettled) (h : scanGlobalReloc t info ty s = Outcome.ok s1) :
    ∃ s2, scanGlobalReloc t info ty s1 = Outcome.ok s2 ∧
      SameReservation s1 s2
        (if (t ∈ globalAbsTypes ∧ isSymbolNeedsDynRel s.rsym ty true = true) ∨
            (t ∈ globalRelTypes ∧ isSymbolNeedsDynRel s.rsym ty false = true)
          then 1 else 0) := by
  have hfr := scanGlobalReloc_framed t info ty s
  rw [h] at hfr
  have hr1 : s1.rsym = s.rsym.setReserved s1.rsym.reserved := hfr.1 hs
  unfold scanGlobalReloc at h ⊢
  by_cases h1 : t ∈ globalAbsTypes
  · rw [if_pos h1] at h ⊢
    have h1r : t ∉ globalRelTypes := fun hr => globalRel_not_globalAbs t hr h1
    obtain ⟨sa, hplt, hdyn⟩ := andThen_eq_ok.mp h
    -- the symbol after the PLT part, and its PLT bit when the symbol needs a PLT
    have hsa : sa.rsym = s.rsym.setReserved sa.rsym.reserved ∧
        (isSymbolNeedsPLT s.rsym ty info = true → sa.rsym.reserved &&& 0x8 ≠ 0) := by
      by_cases hp : isSymbolNeedsPLT s.rsym ty info = true
      · rw [if_pos hp] at hplt
        by_cases h8 : s.rsym.reserved &&& 0x8 = 0
        · rw [if_pos h8] at hplt
          have := (reservePLT_ok hplt hs).1
          rw [this]
          exact ⟨rfl, fun _ => or_and_ne_zero _ 8 8 (by decide)⟩
        · rw [if_neg h8] at hplt
          cases hplt
          exact ⟨rfl, fun _ => h8⟩
      · rw [if_neg hp] at hplt
        cases hplt
        exact ⟨rfl, fun hc => absurd hc hp⟩
    have hdsa : isSymbolNeedsDynRel sa.rsym ty true = isSymbolNeedsDynRel s.rsym ty true := by
      rw [hsa.1]; rfl
    by_cases hd : isSymbolNeedsDynRel s.rsym ty true = true
    · rw [hdsa, if_pos hd] at hdyn
      obtain ⟨sb, hc, hres⟩ := andThen_eq_ok.mp hdyn
      obtain ⟨rfl, hcheck⟩ := checkValidReloc_ok hc
      have hs1 := reserveDynRel_ok hres
      subst hs1
      have hskip : (if isSymbolNeedsPLT sb.bumpRelDyn.rsym ty info = true then
          (if sb.bumpRelDyn.rsym.reserved &&& 0x8 = 0 then reservePLT ty sb.bumpRelDyn
            else Outcome.ok sb.bumpRelDyn)
          else Outcome.ok sb.bumpRelDyn) = Outcome.ok sb.bumpRelDyn := by
        by_cases hp : isSymbolNeedsPLT s.rsym ty info = true
        · have hb : sb.bumpRelDyn.rsym.reserved &&& 0x8 ≠ 0 :=
            or_and_ne_zero_left _ 1 8 (hsa.2 hp)
          rw [if_neg hb]
          simp
        · have : isSymbolNeedsPLT sb.bumpRelDyn.rsym ty info = isSymbolNeedsPLT s.rsym ty info := by
            rw [hr1]; rfl
          rw [this, if_neg hp]
      have hd2 : isSymbolNeedsDynRel sb.bumpRelDyn.rsym ty true = true := by
        rw [hr1]; exact hd
      rw [hskip, andThen_ok, if_pos hd2, hcheck, andThen_ok,
        reserveDynRel_bumpRelDyn, if_pos (Or.inl ⟨h1, hd⟩)]
      exact ⟨_, rfl, sameReservation_bump sb⟩
    · rw [hdsa, if_neg hd] at hdyn
      cases hdyn
      have hps : isSymbolNeedsPLT s1.rsym ty info = isSymbolNeedsPLT s.rsym ty info := by
        rw [hr1]; rfl
      have hskip : (if isSymbolNeedsPLT s1.rsym ty info = true then
          (if s1.rsym.reserved &&& 0x8 = 0 then reservePLT ty s1 else Outcome.ok s1)
          else Outcome.ok s1) = Outcome.ok s1 := by
        rw [hps]
        by_cases hp : isSymbolNeedsPLT s.rsym ty info = true
        · rw [if_pos hp, if_neg (hsa.2 hp)]
        · rw [if_neg hp]
      have hne : ¬ ((t ∈ globalAbsTypes ∧ isSymbolNeedsDynRel s.rsym ty true = true) ∨
          (t ∈ globalRelTypes ∧ isSymbolNeedsDynRel s.rsym ty false = true)) := by
        rintro (hc | hc)
        · exact hd hc.2
        · exact h1r hc.1
      rw [hskip, andThen_ok, hdsa, if_neg hd, if_neg hne]
      exact ⟨s1, rfl, sameReservation_refl s1⟩
  rw [if_neg h1] at h ⊢
  by_cases h2 : t ∈ gotOffTypes
  · rw [if_pos h2] at h ⊢
    have h2r : t ∉ globalRelTypes := gotOff_not_globalRel t h2
    have hne : ¬ ((t ∈ globalAbsTypes ∧ isSymbolNeedsDynRel s.rsym ty true = true) ∨
        (t ∈ globalRelTypes ∧ isSymbolNeedsDynRel s.rsym ty false = true)) := by
      rintro (hc | hc)
      · exact h1 hc.1
      · exact h2r hc.1
    rw [if_neg hne]
    have hs1 := ensureGOT_ok h
    refine ⟨s1, ?_, sameReservation_refl s1⟩
    apply ensureGOT_of_isSome
    rw [hs1]
    exact withGOT_isSome s
  rw [if_neg h2] at h ⊢
  by_cases h3 : t ∈ globalRelTypes
  · rw [if_pos h3] at h ⊢
    by_cases hd : isSymbolNeedsDynRel s.rsym ty false = true
    · rw [if_pos hd] at h
      obtain ⟨sb, hc, hres⟩ := andThen_eq_ok.mp h
      obtain ⟨rfl, hcheck⟩ := checkValidReloc_ok hc
      have hs1 := reserveDynRel_ok hres
      subst hs1
      have hd2 : isSymbolNeedsDynRel sb.bumpRelDyn.rsym ty false = true := by
        rw [hr1]; exact hd
      rw [if_pos hd2, hcheck, andThen_ok, reserveDynRel_bumpRelDyn,
        if_pos (Or.inr ⟨h3, hd⟩)]
      exact ⟨_, rfl, sameReservation_bump sb⟩
    · rw [if_neg hd] at h
      cases h
      have hne : ¬ ((t ∈ globalAbsTypes ∧ isSymbolNeedsDynRel s.rsym ty true = true) ∨
          (t ∈ globalRelTypes ∧ isSymbolNeedsDynRel s.rsym ty false = true)) := by
        rintro (hc | hc)
        · exact h1 hc.1
        · exact hd hc.2
      rw [if_neg hd, if_neg hne]
      exact ⟨s, rfl, sameReservation_refl s⟩
  have hne : ¬ ((t ∈ globalAbsTypes ∧ isSymbolNeedsDynRel s.rsym ty true = true) ∨
      (t ∈ globalRelTypes ∧ isSymbolNeedsDynRel s.rsym ty false = true)) := by
    rintro (hc | hc)
    · exact h1 hc.1
    · exact h3 hc.1
  rw [if_neg h3] at h ⊢
  rw [if_neg hne]
  by_cases h4 : t ∈ globalBranchTypes
  · rw [if_pos h4] at h ⊢
    by_cases h8 : s.rsym.reserved &&& 0x8 ≠ 0
    · rw [if_pos h8] at h
      cases h
      rw [if_pos h8]
      exact ⟨s, rfl, sameReservation_refl s⟩
    · rw [if_neg h8] at h
      by_cases hdef : (s.rsym.isDefine && !s.rsym.isDyn &&
          !isSymbolPreemtible s.rsym ty info) = true
      · rw [if_pos hdef] at h
        cases h
        rw [if_neg h8, if_pos hdef]
        exact ⟨s, rfl, sameReservation_refl s⟩
      · rw [if_neg hdef] at h
        have hm := (reservePLT_ok h hs).1
        have h8b : s1.rsym.reserved &&& 0x8 ≠ 0 := by
          rw [hm]
          exact or_and_ne_zero _ 8 8 (by decide)
        rw [if_pos h8b]
        exact ⟨s1, rfl, sameReservation_refl s1⟩
  rw [if_neg h4] at h ⊢
  by_cases h5 : t ∈ globalGotTypes
  · rw [if_pos h5] at h ⊢
    by_cases h6 : s.rsym.reserved &&& 0x6 ≠ 0
    · rw [if_pos h6] at h
      cases h
      rw [if_pos h6]
      exact ⟨s, rfl, sameReservation_refl s⟩
    · rw [if_neg h6] at h
      have hm := (reserveGOT_ok h hs).1
      have h6b : s1.rsym.reserved &&& 0x6 ≠ 0 := by
        rcases hm with hm | hm <;> rw [hm]
        · exact or_and_ne_zero _ 4 6 (by decide)
        · exact or_and_ne_zero _ 2 6 (by decide)
      rw [if_pos h6b]
      exact ⟨s1, rfl, sameReservation_refl s1⟩
  rw [if_neg h5] at h ⊢
  by_cases h7 : t ∈ dynOnlyTypes
  · rw [if_pos h7] at h
    cases h
  rw [if_neg h7] at h ⊢
  exact ⟨s1, rfl, sameReservation_refl s1⟩

theorem createARMGOT_ok {ty : OutputType} {s s1 : ScanState}
    (h : createARMGOT ty s = Outcome.ok s1) :
    s1.rsym.name = s.rsym.name ∧ s1.backend.m_pGOT.isSome = true := by
  cases ty <;> simp [createARMGOT, Outcome.andThen, ScanState.setGOT] at h <;>
    subst h <;> simp only [ScanState.defineSymbol] <;> refine ⟨?_, rfl⟩ <;>
    split_ifs <;> rfl

/-- The state the first statement of `scanRelocation` returns with is one the
definition of `_GLOBAL_OFFSET_TABLE_` cannot reach any more. -/
theorem gotRef_ok {ty : OutputType} {s sa : ScanState}
    (hpre : (if s.backend.m_pGOT.isNone = true ∧ s.rsym.name = "_GLOBAL_OFFSET_TABLE_" then
        createARMGOT ty s else Outcome.ok s) = Outcome.ok sa) :
    sa.GotSettled ∧ sa.rsym.name = s.rsym.name := by
  by_cases hc : s.backend.m_pGOT.isNone = true ∧ s.rsym.name = "_GLOBAL_OFFSET_TABLE_"
  · rw [if_pos hc] at hpre
    obtain ⟨hn, hg⟩ := createARMGOT_ok hpre
    exact ⟨Or.inr hg, hn⟩
  · rw [if_neg hc] at hpre
    cases hpre
    refine ⟨?_, rfl⟩
    by_cases hn : s.rsym.name = "_GLOBAL_OFFSET_TABLE_"
    · refine Or.inr ?_
      cases hg : s.backend.m_pGOT with
      | none => exact absurd ⟨by rw [hg]; rfl, hn⟩ hc
      | some g => rfl
    · exact Or.inl hn

/-- C5 (amended): when a scan of a relocation returns normally, a second scan of the
same relocation returns normally too, with the same reservation mask on the symbol and
the same numbers of reserved GOT, PLT and `.rel.plt` entries as after the first scan;
the number of `.rel.dyn` entries is the same as well, except for the relocations that
reserve a dynamic relocation per site, where the second scan reserves one more. -/
theorem scanRelocation_twice (t : Nat) (info : MCLDInfo) (ty : OutputType) (s s1 : ScanState)
    (h : scanRelocation t info ty s = Outcome.ok s1) :
    ∃ s2, scanRelocation t info ty s1 = Outcome.ok s2 ∧
      SameReservation s1 s2 (if reservesDynRelPerSite t ty s1.rsym = true then 1 else 0) := by
  unfold scanRelocation at h
  obtain ⟨sa, hpre, hdisp⟩ := andThen_eq_ok.mp h
  obtain ⟨hsa, -⟩ := gotRef_ok hpre
  -- the type-specific part changes the reservation mask of the symbol only
  have hfa : Frame sa s1 := by
    by_cases hl : sa.rsym.isLocal = true
    · rw [if_pos hl] at hdisp
      have := scanLocalReloc_framed t ty sa
      rwa [hdisp] at this
    · rw [if_neg hl] at hdisp
      by_cases hg : sa.rsym.isGlobal = true
      · rw [if_pos hg] at hdisp
        have := scanGlobalReloc_framed t info ty sa
        rwa [hdisp] at this
      · rw [if_neg hg] at hdisp
        cases hdisp
        exact frame_refl _
  have hr1 : s1.rsym = sa.rsym.setReserved s1.rsym.reserved := hfa.1 hsa
  have hloc : s1.rsym.isLocal = sa.rsym.isLocal := by rw [hr1]; rfl
  have hglob : s1.rsym.isGlobal = sa.rsym.isGlobal := by rw [hr1]; rfl
  have hdT : isSymbolNeedsDynRel s1.rsym ty true = isSymbolNeedsDynRel sa.rsym ty true := by
    rw [hr1]; rfl
  have hdF : isSymbolNeedsDynRel s1.rsym ty false = isSymbolNeedsDynRel sa.rsym ty false := by
    rw [hr1]; rfl
  -- the first statement of the second scan finds nothing to do
  have hs1 : s1.GotSettled := frame_settled hfa hsa
  have hpre1 : ¬ (s1.backend.m_pGOT.isNone = true ∧
      s1.rsym.name = "_GLOBAL_OFFSET_TABLE_") := fun hc => gotSettled_isNone hs1 hc.1 hc.2
  unfold scanRelocation
  rw [if_neg hpre1, andThen_ok, hloc, hglob]
  unfold reservesDynRelPerSite
  rw [hloc, hglob, hdT, hdF]
  by_cases hl : sa.rsym.isLocal = true
  · rw [if_pos hl] at hdisp ⊢
    obtain ⟨s2, h2, hsame⟩ := scanLocalReloc_twice t ty sa s1 hsa hdisp
    refine ⟨s2, h2, ?_⟩
    simpa [hl] using hsame
  · rw [if_neg hl] at hdisp ⊢
    by_cases hg : sa.rsym.isGlobal = true
    · rw [if_pos hg] at hdisp ⊢
      obtain ⟨s2, h2, hsame⟩ := scanGlobalReloc_twice t info ty sa s1 hsa hdisp
      refine ⟨s2, h2, ?_⟩
      simpa [hl, hg] using hsame
    · rw [if_neg hg] at hdisp ⊢
      refine ⟨s1, rfl, ?_⟩
      simpa [hl, hg] using sameReservation_refl s1

/-- C5 (witness): the amended statement at an `R_ARM_ABS32` against a local section
symbol in a shared object. -/
theorem scanRelocation_twice_witness :
    scanRelocation R_ARM_ABS32 { Bsymbolic := false } OutputType.DynObj
        (ScanState.initial localSect) =
      Outcome.ok (ScanState.initial localSect).bumpRelDyn ∧
    ∃ s2, scanRelocation R_ARM_ABS32 { Bsymbolic := false } OutputType.DynObj
        (ScanState.initial localSect).bumpRelDyn = Outcome.ok s2 ∧
      SameReservation (ScanState.initial localSect).bumpRelDyn s2
        (if reservesDynRelPerSite R_ARM_ABS32 OutputType.DynObj
          (ScanState.initial localSect).bumpRelDyn.rsym = true then 1 else 0) :=
  ⟨by decide, scanRelocation_twice R_ARM_ABS32 { Bsymbolic := false } OutputType.DynObj
    (ScanState.initial localSect) (ScanState.initial localSect).bumpRelDyn (by decide)⟩

/-- C5 (counterexample): two scans of one `R_ARM_ABS32` against a local symbol in a
shared object both return normally, and leave two `.rel.dyn` entries where a single
scan leaves one.  The same holds against a weak symbol named `_GLOBAL_OFFSET_TABLE_`
scanned from the initial state, which the first scan defines as a local symbol. -/
theorem scanRelocation_twice_not_idempotent :
    (scanRelocation R_ARM_ABS32 { Bsymbolic := false } OutputType.DynObj
        (ScanState.initial localSect)).returns = true ∧
    (scanTwice R_ARM_ABS32 { Bsymbolic := false } OutputType.DynObj
        (ScanState.initial localSect)).returns = true ∧
    relDynEntries (scanRelocation R_ARM_ABS32 { Bsymbolic := false } OutputType.DynObj
        (ScanState.initial localSect)).state.backend = 1 ∧
    relDynEntries (scanTwice R_ARM_ABS32 { Bsymbolic := false } OutputType.DynObj
        (ScanState.initial localSect)).state.backend = 2 ∧
    (scanTwice R_ARM_ABS32 { Bsymbolic := false } OutputType.DynObj
        (ScanState.initial weakGOTRef)).returns = true ∧
    relDynEntries (scanRelocation R_ARM_ABS32 { Bsymbolic := false } OutputType.DynObj
        (ScanState.initial weakGOTRef)).state.backend = 1 ∧
    relDynEntries (scanTwice R_ARM_ABS32 { Bsymbolic := false } OutputType.DynObj
        (ScanState.initial weakGOTRef)).state.backend = 2 := by
  decide


/-! ## Net effects in closed form -/

theorem withGOT_of_isSome (s : ScanState) (h : s.backend.m_pGOT.isSome = true) :
    s.withGOT = s := by
  unfold ScanState.withGOT
  cases hg : s.backend.m_pGOT <;> simp_all

theorem withGOT_withGOT (s : ScanState) : s.withGOT.withGOT = s.withGOT :=
  withGOT_of_isSome _ (withGOT_isSome s)

theorem withGOT_counters (s : ScanState) :
    gotEntries s.withGOT.backend = gotEntries s.backend ∧
    gotPltEntries s.withGOT.backend = gotPltEntries s.backend ∧
    s.withGOT.backend.m_pPLT = s.backend.m_pPLT ∧
    s.withGOT.backend.m_pRelDyn = s.backend.m_pRelDyn ∧
    s.withGOT.backend.m_pRelPLT = s.backend.m_pRelPLT := by
  unfold ScanState.withGOT
  cases hg : s.backend.m_pGOT <;>
    simp [hg, ScanState.setGOT, gotEntries, gotPltEntries, ARMGOT.new]

theorem withGOT_same (s : ScanState) : SameReservation s s.withGOT 0 := by
  obtain ⟨h1, h2, h3, h4, h5⟩ := withGOT_counters s
  refine ⟨withGOT_reserved s, withGOT_rsym s, h1, h2, ?_, ?_, ?_⟩
  · simp only [pltEntries, h3]
  · simp only [relPltEntries, h5]
  · simp only [relDynEntries, h4, Nat.add_zero]

theorem withGOT_consistent (s : ScanState) (h : s.backend.Consistent) :
    s.withGOT.backend.Consistent := by
  obtain ⟨-, -, h3, -, h5⟩ := withGOT_counters s
  unfold ARMGNULDBackend.Consistent at h ⊢
  rw [h3, h5]
  exact ⟨h.1, fun _ => withGOT_isSome s⟩

theorem afterGOTRef_rsym (s : ScanState) (hs : s.GotSettled) :
    s.afterGOTRef.rsym = s.rsym := by
  unfold ScanState.afterGOTRef
  split_ifs
  · exact withGOT_rsym s hs
  · rfl

theorem afterGOTRef_reserved (s : ScanState) :
    s.afterGOTRef.rsym.reserved = s.rsym.reserved := by
  unfold ScanState.afterGOTRef
  split_ifs
  · exact withGOT_reserved s
  · rfl

theorem afterGOTRef_name (s : ScanState) : s.afterGOTRef.rsym.name = s.rsym.name := by
  unfold ScanState.afterGOTRef
  split_ifs
  · exact withGOT_name s
  · rfl

theorem afterGOTRef_settled (s : ScanState) : s.afterGOTRef.GotSettled := by
  unfold ScanState.afterGOTRef
  split_ifs with h
  · exact withGOT_settled s
  · exact Or.inl h

/-- When the definition of `_GLOBAL_OFFSET_TABLE_` does reach the symbol of the
relocation, the symbol the type-specific part of the scan sees is the local symbol
`createARMGOT` defines, with the reservation mask it had. -/
theorem afterGOTRef_rsym_unsettled (s : ScanState) (hs : ¬ s.GotSettled) :
    s.afterGOTRef.rsym = s.rsym.forceDefine gotSymbolDef := by
  have hn : s.rsym.name = "_GLOBAL_OFFSET_TABLE_" := by
    by_contra h
    exact hs (Or.inl h)
  have hg : s.backend.m_pGOT = none := by
    cases hq : s.backend.m_pGOT with
    | none => rfl
    | some g => exact absurd (Or.inr (by rw [hq]; rfl)) hs
  unfold ScanState.afterGOTRef ScanState.withGOT
  rw [if_pos hn, hg]
  simp [ScanState.defineSymbol, ScanState.setGOT, gotSymbolDef, hn]

theorem forceDefine_got_isLocal (r : ResolveInfo) :
    (r.forceDefine gotSymbolDef).isLocal = true := rfl

theorem afterGOTRef_withGOT (s : ScanState) : s.afterGOTRef.withGOT = s.withGOT := by
  unfold ScanState.afterGOTRef
  split_ifs
  · exact withGOT_withGOT s
  · rfl

theorem afterGOTRef_counters (s : ScanState) :
    gotEntries s.afterGOTRef.backend = gotEntries s.backend ∧
    gotPltEntries s.afterGOTRef.backend = gotPltEntries s.backend ∧
    s.afterGOTRef.backend.m_pPLT = s.backend.m_pPLT ∧
    s.afterGOTRef.backend.m_pRelDyn = s.backend.m_pRelDyn ∧
    s.afterGOTRef.backend.m_pRelPLT = s.backend.m_pRelPLT := by
  unfold ScanState.afterGOTRef
  split_ifs
  · exact withGOT_counters s
  · exact ⟨rfl, rfl, rfl, rfl, rfl⟩

theorem afterGOTRef_same (s : ScanState) : SameReservation s s.afterGOTRef 0 := by
  unfold ScanState.afterGOTRef
  split_ifs
  · exact withGOT_same s
  · exact sameReservation_refl s

theorem afterGOTRef_consistent (s : ScanState) (h : s.backend.Consistent) :
    s.afterGOTRef.backend.Consistent := by
  unfold ScanState.afterGOTRef
  split_ifs
  · exact withGOT_consistent s h
  · exact h

/-- The first statement of `scanRelocation` returns with `afterGOTRef`, unless the
output is a relocatable object. -/
theorem gotRef_eq (ty : OutputType) (s : ScanState) (hty : ty ≠ OutputType.Object) :
    (if s.backend.m_pGOT.isNone = true ∧ s.rsym.name = "_GLOBAL_OFFSET_TABLE_" then
        createARMGOT ty s
      else Outcome.ok s) = Outcome.ok s.afterGOTRef := by
  unfold ScanState.afterGOTRef
  by_cases hn : s.rsym.name = "_GLOBAL_OFFSET_TABLE_"
  · rw [if_pos hn]
    cases hg : s.backend.m_pGOT with
    | none =>
      have := ensureGOT_eq ty s hty
      unfold ensureGOT at this
      rw [hg] at this
      simpa [hn] using this
    | some g =>
      have : s.withGOT = s := withGOT_of_isSome s (by rw [hg]; rfl)
      simp [this]
  · simp [hn]

theorem scanRelocation_eq (t : Nat) (info : MCLDInfo) (ty : OutputType) (s : ScanState)
    (hty : ty ≠ OutputType.Object) :
    scanRelocation t info ty s =
      if s.afterGOTRef.rsym.isLocal = true then scanLocalReloc t ty s.afterGOTRef
      else if s.afterGOTRef.rsym.isGlobal = true then scanGlobalReloc t info ty s.afterGOTRef
      else Outcome.ok s.afterGOTRef := by
  unfold scanRelocation
  rw [gotRef_eq ty s hty, andThen_ok]

theorem afterGOTRef_isLocal (s : ScanState) (hl : s.rsym.isLocal = true) :
    s.afterGOTRef.rsym.isLocal = true := by
  by_cases hs : s.GotSettled
  · rw [afterGOTRef_rsym s hs]
    exact hl
  · rw [afterGOTRef_rsym_unsettled s hs]
    rfl

/-- A relocation against a local symbol is scanned by `scanLocalReloc`. -/
theorem scanRelocation_local_eq (t : Nat) (info : MCLDInfo) (ty : OutputType) (s : ScanState)
    (hty : ty ≠ OutputType.Object) (hl : s.rsym.isLocal = true) :
    scanRelocation t info ty s = scanLocalReloc t ty s.afterGOTRef := by
  rw [scanRelocation_eq t info ty s hty, if_pos (afterGOTRef_isLocal s hl)]

/-- A relocation against a symbol that the definition of `_GLOBAL_OFFSET_TABLE_`
reaches is scanned by `scanLocalReloc`, whatever the binding of the symbol was. -/
theorem scanRelocation_unsettled_eq (t : Nat) (info : MCLDInfo) (ty : OutputType)
    (s : ScanState) (hty : ty ≠ OutputType.Object) (hs : ¬ s.GotSettled) :
    scanRelocation t info ty s = scanLocalReloc t ty s.afterGOTRef := by
  rw [scanRelocation_eq t info ty s hty, if_pos]
  rw [afterGOTRef_rsym_unsettled s hs]
  rfl

/-- The symbol record the first statement of `scanRelocation` returns with. -/
theorem gotRef_rsym {ty : OutputType} {s sa : ScanState}
    (hpre : (if s.backend.m_pGOT.isNone = true ∧ s.rsym.name = "_GLOBAL_OFFSET_TABLE_" then
        createARMGOT ty s else Outcome.ok s) = Outcome.ok sa) :
    sa.rsym = s.rsym ∨ sa.rsym = s.rsym.forceDefine gotSymbolDef := by
  by_cases hc : s.backend.m_pGOT.isNone = true ∧ s.rsym.name = "_GLOBAL_OFFSET_TABLE_"
  · rw [if_pos hc] at hpre
    right
    cases ty <;> simp [createARMGOT, Outcome.andThen, ScanState.setGOT] at hpre <;>
      subst hpre <;> simp [ScanState.defineSymbol, gotSymbolDef, hc.2]
  · rw [if_neg hc] at hpre
    cases hpre
    exact Or.inl rfl

theorem bumpRelDyn_counters (s : ScanState) :
    relDynEntries s.bumpRelDyn.backend = relDynEntries s.backend + 1 ∧
    s.bumpRelDyn.backend.m_pGOT = s.backend.m_pGOT ∧
    s.bumpRelDyn.backend.m_pPLT = s.backend.m_pPLT ∧
    s.bumpRelDyn.backend.m_pRelPLT = s.backend.m_pRelPLT ∧
    s.bumpRelDyn.rsym = s.rsym.setReserved (s.rsym.reserved ||| 0x1) ∧
    s.bumpRelDyn.linker = s.linker := by
  simp [ScanState.bumpRelDyn, relDynEntries]

theorem reservePLT_eq (ty : OutputType) (s : ScanState) (hty : ty ≠ OutputType.Object)
    (hc : s.backend.Consistent) (hs : s.GotSettled) :
    reservePLT ty s = Outcome.ok s.bumpPLT := by
  obtain ⟨⟨g, p, rd, rp⟩, l, r⟩ := s
  cases g with
  | none =>
    have hn : r.name ≠ "_GLOBAL_OFFSET_TABLE_" := gotSettled_isNone hs rfl
    cases p <;> cases rp <;> cases ty <;>
      simp [ARMGNULDBackend.Consistent] at hc hty <;>
      simp [reservePLT, ensurePLT, createARMPLTandRelPLT, createARMGOT, reservePLTEntry,
        reserveRelPLTEntry, orReserved, Outcome.andThen, ScanState.setGOT, ScanState.setPLT,
        ScanState.setRelPLT, ScanState.bumpPLT, ScanState.withGOT, gotEntries, gotPltEntries,
        pltEntries, relPltEntries, ARMGOT.new, ScanState.defineSymbol, gotSymbolDef, hn]
  | some g =>
    cases p <;> cases rp <;> cases ty <;>
      simp [ARMGNULDBackend.Consistent] at hc hty <;>
      simp [reservePLT, ensurePLT, createARMPLTandRelPLT, createARMGOT, reservePLTEntry,
        reserveRelPLTEntry, orReserved, Outcome.andThen, ScanState.setGOT, ScanState.setPLT,
        ScanState.setRelPLT, ScanState.bumpPLT, ScanState.withGOT, gotEntries, gotPltEntries,
        pltEntries, relPltEntries, ARMGOT.new]

theorem bumpPLT_counters (s : ScanState) :
    pltEntries s.bumpPLT.backend = pltEntries s.backend + 1 ∧
    relPltEntries s.bumpPLT.backend = relPltEntries s.backend + 1 ∧
    gotPltEntries s.bumpPLT.backend = gotPltEntries s.backend + 1 ∧
    gotEntries s.bumpPLT.backend = gotEntries s.backend ∧
    relDynEntries s.bumpPLT.backend = relDynEntries s.backend ∧
    s.bumpPLT.rsym = s.rsym.setReserved (s.rsym.reserved ||| 0x8) := by
  simp [ScanState.bumpPLT, pltEntries, relPltEntries, gotPltEntries, gotEntries, relDynEntries]

theorem bumpPLT_consistent (s : ScanState) : s.bumpPLT.backend.Consistent := by
  simp [ScanState.bumpPLT, ARMGNULDBackend.Consistent]

theorem bumpRelDyn_consistent (s : ScanState) (h : s.backend.Consistent) :
    s.bumpRelDyn.backend.Consistent := by
  simpa [ScanState.bumpRelDyn, ARMGNULDBackend.Consistent] using h

/-! ## Relocation types that the dynamic linker alone may see -/

/-- A relocation type of the dynamic linker against a local or a global symbol aborts
the scan, whatever the output type and the state of the backend. -/
theorem scanRelocation_dynOnly_fatal (t : Nat) (ht : t ∈ dynOnlyTypes) (info : MCLDInfo)
    (ty : OutputType) (s : ScanState) (hb : s.rsym.binding ≠ Binding.Weak) :
    (scanRelocation t info ty s).returns = false := by
  have h1 : t ∉ localAbs32Types ∧ t ∉ localAbsCheckedTypes ∧ t ∉ gotOffTypes ∧
      t ∉ localGotTypes ∧ t ∉ globalAbsTypes ∧ t ∉ globalRelTypes ∧
      t ∉ globalBranchTypes ∧ t ∉ globalGotTypes := by
    revert t
    decide
  obtain ⟨a1, a2, a3, a4, a5, a6, a7, a8⟩ := h1
  have hloc : ∀ x, (scanLocalReloc t ty x).returns = false := by
    intro x
    simp [scanLocalReloc, a1, a2, a3, a4, ht, Outcome.returns]
  have hglob : ∀ x, (scanGlobalReloc t info ty x).returns = false := by
    intro x
    simp [scanGlobalReloc, a5, a3, a6, a7, a8, ht, Outcome.returns]
  have hbind : s.rsym.isLocal = true ∨ (s.rsym.isLocal = false ∧ s.rsym.isGlobal = true) := by
    unfold ResolveInfo.isLocal ResolveInfo.isGlobal
    cases h : s.rsym.binding <;> simp_all
  unfold scanRelocation
  cases hpre : (if s.backend.m_pGOT.isNone = true ∧ s.rsym.name = "_GLOBAL_OFFSET_TABLE_" then
        createARMGOT ty s else Outcome.ok s) with
  | fatal e sa => rfl
  | ok sa =>
    rw [andThen_ok]
    rcases gotRef_rsym hpre with hr | hr
    · rw [hr]
      rcases hbind with hl | ⟨hl, hg⟩
      · rw [if_pos hl]; exact hloc sa
      · simp only [hl, hg]
        simpa using hglob sa
    · rw [hr, if_pos (forceDefine_got_isLocal _)]
      exact hloc sa

/-- C4 (the code at the failing input): against the weak symbol `foo`, each of
`R_ARM_COPY`, `R_ARM_GLOB_DAT`, `R_ARM_JUMP_SLOT` and `R_ARM_RELATIVE` is scanned
without a fatal error, for a shared object and for an executable: the scan returns
normally and changes nothing. -/
theorem scanRelocation_weak_dynOnly_returns :
    scanRelocation R_ARM_COPY { Bsymbolic := false } OutputType.DynObj
        (ScanState.initial weakFoo) = Outcome.ok (ScanState.initial weakFoo) ∧
    scanRelocation R_ARM_GLOB_DAT { Bsymbolic := false } OutputType.DynObj
        (ScanState.initial weakFoo) = Outcome.ok (ScanState.initial weakFoo) ∧
    scanRelocation R_ARM_JUMP_SLOT { Bsymbolic := false } OutputType.DynObj
        (ScanState.initial weakFoo) = Outcome.ok (ScanState.initial weakFoo) ∧
    scanRelocation R_ARM_RELATIVE { Bsymbolic := false } OutputType.DynObj
        (ScanState.initial weakFoo) = Outcome.ok (ScanState.initial weakFoo) ∧
    scanRelocation R_ARM_COPY { Bsymbolic := false } OutputType.Exec
        (ScanState.initial weakFoo) = Outcome.ok (ScanState.initial weakFoo) ∧
    scanRelocation R_ARM_GLOB_DAT { Bsymbolic := false } OutputType.Exec
        (ScanState.initial weakFoo) = Outcome.ok (ScanState.initial weakFoo) ∧
    scanRelocation R_ARM_JUMP_SLOT { Bsymbolic := false } OutputType.Exec
        (ScanState.initial weakFoo) = Outcome.ok (ScanState.initial weakFoo) ∧
    scanRelocation R_ARM_RELATIVE { Bsymbolic := false } OutputType.Exec
        (ScanState.initial weakFoo) = Outcome.ok (ScanState.initial weakFoo) := by
  decide

/-! ## Absolute relocations against a local symbol -/

theorem scanLocalReloc_abs_exec (t : Nat)
    (ht : t ∈ localAbs32Types ∨ t ∈ localAbsCheckedTypes) (s : ScanState) :
    scanLocalReloc t OutputType.Exec s = Outcome.ok s := by
  unfold scanLocalReloc
  rcases ht with ht | ht
  · simp [ht]
  · simp [ht]

theorem scanLocalReloc_abs32_dynObj (t : Nat) (ht : t ∈ localAbs32Types) (s : ScanState) :
    scanLocalReloc t OutputType.DynObj s = Outcome.ok s.bumpRelDyn := by
  unfold scanLocalReloc
  rw [if_pos ht, if_pos rfl]
  exact reserveDynRel_eq _ s (by decide)

theorem checkValidReloc_dynObj_fatal (t : Nat) (ht : t ∉ dynValidTypes) (s : ScanState) :
    checkValidReloc t OutputType.DynObj s = Outcome.fatal Fatal.unsupportedReloc s := by
  simp [checkValidReloc, ht]

theorem checkValidReloc_dynObj_ok (t : Nat) (ht : t ∈ dynValidTypes) (s : ScanState) :
    checkValidReloc t OutputType.DynObj s = Outcome.ok s := by
  simp [checkValidReloc, ht]

theorem checkValidReloc_exec (t : Nat) (s : ScanState) :
    checkValidReloc t OutputType.Exec s = Outcome.ok s := by
  simp [checkValidReloc]

theorem scanLocalReloc_absChecked_dynObj (t : Nat) (ht : t ∈ localAbsCheckedTypes)
    (s : ScanState) :
    scanLocalReloc t OutputType.DynObj s = Outcome.fatal Fatal.unsupportedReloc s := by
  unfold scanLocalReloc
  rw [if_neg (localAbsChecked_not_localAbs32 t ht), if_pos ht, if_pos rfl,
    checkValidReloc_dynObj_fatal t (localAbsChecked_not_dynValid t ht)]
  rfl

/-- C6 (amended): for an absolute relocation against a local symbol, the scan for an
executable returns normally, reserves nothing and leaves the reservation mask as it
was; the scan for a shared object returns normally with one more `.rel.dyn` entry and
the RelReserved bit set when the type is `R_ARM_ABS32` or `R_ARM_ABS32_NOI`, and aborts
on `checkValidReloc` with nothing reserved for each of the nine other types.  (The
rest of the symbol record is as it was too, unless the symbol is named
`_GLOBAL_OFFSET_TABLE_` and the scan creates the GOT, which defines it.) -/
theorem scanRelocation_abs_local (t : Nat)
    (ht : t ∈ localAbs32Types ∨ t ∈ localAbsCheckedTypes) (info : MCLDInfo) (s : ScanState)
    (hl : s.rsym.isLocal = true) :
    (∃ s1, scanRelocation t info OutputType.Exec s = Outcome.ok s1 ∧
      SameReservation s s1 0) ∧
    (t ∈ localAbs32Types →
      ∃ s1, scanRelocation t info OutputType.DynObj s = Outcome.ok s1 ∧
        relDynEntries s1.backend = relDynEntries s.backend + 1 ∧
        s1.rsym.reserved = s.rsym.reserved ||| 0x1 ∧
        (s.GotSettled → s1.rsym = s.rsym.setReserved (s.rsym.reserved ||| 0x1)) ∧
        gotEntries s1.backend = gotEntries s.backend ∧
        gotPltEntries s1.backend = gotPltEntries s.backend ∧
        pltEntries s1.backend = pltEntries s.backend ∧
        relPltEntries s1.backend = relPltEntries s.backend) ∧
    (t ∈ localAbsCheckedTypes →
      ∃ s1, scanRelocation t info OutputType.DynObj s =
          Outcome.fatal Fatal.unsupportedReloc s1 ∧
        SameReservation s s1 0) := by
  refine ⟨⟨s.afterGOTRef, ?_, afterGOTRef_same s⟩, fun h32 => ⟨s.afterGOTRef.bumpRelDyn, ?_⟩,
    fun hck => ⟨s.afterGOTRef, ?_, afterGOTRef_same s⟩⟩
  · rw [scanRelocation_local_eq t info _ s (by decide) hl, scanLocalReloc_abs_exec t ht]
  · obtain ⟨c1, c2, c3, c4, c5⟩ := afterGOTRef_counters s
    obtain ⟨b1, b2, b3, b4, b5, -⟩ := bumpRelDyn_counters s.afterGOTRef
    refine ⟨?_, ?_, ?_, ?_, ?_, ?_, ?_, ?_⟩
    · rw [scanRelocation_local_eq t info _ s (by decide) hl,
        scanLocalReloc_abs32_dynObj t h32]
    · rw [b1]; simp [relDynEntries, c4]
    · rw [b5, ← afterGOTRef_reserved s]
      rfl
    · intro hs
      rw [b5, afterGOTRef_rsym s hs]
    · simp only [gotEntries, b2]; exact c1
    · simp only [gotPltEntries, b2]; exact c2
    · simp only [pltEntries, b3, c3]
    · simp only [relPltEntries, b4, c5]
  · rw [scanRelocation_local_eq t info _ s (by decide) hl,
      scanLocalReloc_absChecked_dynObj t hck]

/-- C6 (witness): the amended statement at an `R_ARM_ABS16` against a local section
symbol, from the initial state. -/
theorem scanRelocation_abs_local_witness :
    (∃ s1, scanRelocation R_ARM_ABS16 { Bsymbolic := false } OutputType.Exec
        (ScanState.initial localSect) = Outcome.ok s1 ∧
      SameReservation (ScanState.initial localSect) s1 0) ∧
    (∃ s1, scanRelocation R_ARM_ABS16 { Bsymbolic := false } OutputType.DynObj
        (ScanState.initial localSect) = Outcome.fatal Fatal.unsupportedReloc s1 ∧
      SameReservation (ScanState.initial localSect) s1 0) :=
  ⟨(scanRelocation_abs_local R_ARM_ABS16 (Or.inr (by decide)) { Bsymbolic := false }
      (ScanState.initial localSect) (by decide)).1,
   (scanRelocation_abs_local R_ARM_ABS16 (Or.inr (by decide)) { Bsymbolic := false }
      (ScanState.initial localSect) (by decide)).2.2 (by decide)⟩

/-- C6 (counterexample): the scan of an `R_ARM_ABS16` against a local section symbol
for a shared object does not return normally: it aborts with the unsupported
relocation error, no `.rel.dyn` section created and the RelReserved bit clear. -/
theorem scanRelocation_abs16_local_dynObj_fatal :
    scanRelocation R_ARM_ABS16 { Bsymbolic := false } OutputType.DynObj
        (ScanState.initial localSect) =
      Outcome.fatal Fatal.unsupportedReloc (ScanState.initial localSect) := by
  decide

/-- C7: from a fresh backend, the scan of one `R_ARM_ABS32` against a local symbol for
a shared object returns normally, having created `.rel.dyn` with exactly one entry
reserved, with no PLT and no `.rel.plt` (so no entry reserved in either), and with the
reservation mask of the symbol changed to `old ||| 0x1`. -/
theorem scanRelocation_abs32_local_fresh (info : MCLDInfo) (l : MCLinker) (r : ResolveInfo)
    (hl : r.isLocal = true) :
    ∃ s1, scanRelocation R_ARM_ABS32 info OutputType.DynObj
        { backend := ARMGNULDBackend.fresh, linker := l, rsym := r } = Outcome.ok s1 ∧
      s1.backend.m_pRelDyn = some { reserved := 1 } ∧
      s1.backend.m_pPLT = none ∧ s1.backend.m_pRelPLT = none ∧
      pltEntries s1.backend = 0 ∧ relPltEntries s1.backend = 0 ∧
      s1.rsym.reserved = r.reserved ||| 0x1 := by
  refine ⟨(ScanState.afterGOTRef
    { backend := ARMGNULDBackend.fresh, linker := l, rsym := r }).bumpRelDyn, ?_, ?_⟩
  · rw [scanRelocation_local_eq _ info _ _ (by decide) hl,
      scanLocalReloc_abs32_dynObj _ (by decide)]
  · obtain ⟨-, -, c3, c4, c5⟩ := afterGOTRef_counters
      { backend := ARMGNULDBackend.fresh, linker := l, rsym := r }
    obtain ⟨b1, -, b3, b4, b5, -⟩ := bumpRelDyn_counters (ScanState.afterGOTRef
      { backend := ARMGNULDBackend.fresh, linker := l, rsym := r })
    refine ⟨?_, ?_, ?_, ?_, ?_, ?_⟩
    · simp only [ScanState.bumpRelDyn, relDynEntries]
      rw [c4]
      rfl
    · rw [b3, c3]; rfl
    · rw [b4, c5]; rfl
    · simp only [pltEntries]
      rw [b3, c3]
      rfl
    · simp only [relPltEntries]
      rw [b4, c5]
      rfl
    · rw [b5]
      exact congrArg (fun m => m ||| 0x1) (afterGOTRef_reserved _)

/-- C7 (witness): the local section symbol `.data` is such a symbol. -/
theorem scanRelocation_abs32_local_fresh_witness :
    ∃ s1, scanRelocation R_ARM_ABS32 { Bsymbolic := false } OutputType.DynObj
        { backend := ARMGNULDBackend.fresh, linker := { defined := [] },
          rsym := localSect } = Outcome.ok s1 ∧
      s1.backend.m_pRelDyn = some { reserved := 1 } ∧
      s1.backend.m_pPLT = none ∧ s1.backend.m_pRelPLT = none ∧
      pltEntries s1.backend = 0 ∧ relPltEntries s1.backend = 0 ∧
      s1.rsym.reserved = localSect.reserved ||| 0x1 :=
  scanRelocation_abs32_local_fresh { Bsymbolic := false } { defined := [] } localSect
    (by decide)

/-! ## Absolute relocations against a global symbol -/

theorem isGlobal_not_isLocal (r : ResolveInfo) (h : r.isGlobal = true) : ¬ r.isLocal = true := by
  unfold ResolveInfo.isGlobal at h
  unfold ResolveInfo.isLocal
  cases hb : r.binding <;> simp_all

theorem isSymbolNeedsPLT_dynObj {r : ResolveInfo} {ty : OutputType} {info : MCLDInfo}
    (h : isSymbolNeedsPLT r ty info = true) : ty = OutputType.DynObj := by
  cases ty <;> simp_all [isSymbolNeedsPLT]

theorem isSymbolNeedsPLT_exec (r : ResolveInfo) (info : MCLDInfo) :
    isSymbolNeedsPLT r OutputType.Exec info = false := by
  simp [isSymbolNeedsPLT]

theorem isSymbolNeedsDynRel_dynObj_abs (r : ResolveInfo) :
    isSymbolNeedsDynRel r OutputType.DynObj true = !r.isAbsolute := by
  unfold isSymbolNeedsDynRel
  cases r.isUndef <;> cases r.isAbsolute <;> simp

theorem globalAbs_dynValid_iff : ∀ t ∈ globalAbsTypes,
    (t ∈ dynValidTypes ↔ t ∈ localAbs32Types) := by decide

theorem scanRelocation_global_eq (t : Nat) (info : MCLDInfo) (ty : OutputType) (s : ScanState)
    (hty : ty ≠ OutputType.Object) (hg : s.rsym.isGlobal = true) (hs : s.GotSettled) :
    scanRelocation t info ty s = scanGlobalReloc t info ty s.afterGOTRef := by
  rw [scanRelocation_eq t info ty s hty, afterGOTRef_rsym s hs,
    if_neg (isGlobal_not_isLocal _ hg), if_pos hg]

theorem afterPLTPart_rsym (info : MCLDInfo) (ty : OutputType) (s : ScanState) :
    (s.afterPLTPart info ty).rsym = s.rsym.setReserved (s.afterPLTPart info ty).rsym.reserved := by
  unfold ScanState.afterPLTPart
  split_ifs
  · rw [(bumpPLT_counters s).2.2.2.2.2]; rfl
  · rfl

theorem afterPLTPart_relDyn (info : MCLDInfo) (ty : OutputType) (s : ScanState) :
    relDynEntries (s.afterPLTPart info ty).backend = relDynEntries s.backend := by
  unfold ScanState.afterPLTPart
  split_ifs
  · exact (bumpPLT_counters s).2.2.2.2.1
  · rfl

theorem afterPLTPart_consistent (info : MCLDInfo) (ty : OutputType) (s : ScanState)
    (hc : s.backend.Consistent) : (s.afterPLTPart info ty).backend.Consistent := by
  unfold ScanState.afterPLTPart
  split_ifs
  · exact bumpPLT_consistent s
  · exact hc

/-- The absolute group of `scanGlobalReloc` in closed form, from a consistent backend. -/
theorem scanGlobalReloc_abs_eq (t : Nat) (ht : t ∈ globalAbsTypes) (info : MCLDInfo)
    (ty : OutputType) (s : ScanState) (hty : ty ≠ OutputType.Object)
    (hc : s.backend.Consistent) (hs : s.GotSettled) :
    scanGlobalReloc t info ty s =
      if isSymbolNeedsDynRel s.rsym ty true = true then
        if ty = OutputType.DynObj ∧ t ∉ localAbs32Types then
          Outcome.fatal Fatal.unsupportedReloc (s.afterPLTPart info ty)
        else Outcome.ok (s.afterPLTPart info ty).bumpRelDyn
      else Outcome.ok (s.afterPLTPart info ty) := by
  have hplt : (if isSymbolNeedsPLT s.rsym ty info = true then
      (if s.rsym.reserved &&& 0x8 = 0 then reservePLT ty s else Outcome.ok s)
      else Outcome.ok s) = Outcome.ok (s.afterPLTPart info ty) := by
    unfold ScanState.afterPLTPart
    by_cases hp : isSymbolNeedsPLT s.rsym ty info = true
    · by_cases h8 : s.rsym.reserved &&& 0x8 = 0
      · rw [if_pos hp, if_pos h8, if_pos ⟨hp, h8⟩, reservePLT_eq ty s hty hc hs]
      · rw [if_pos hp, if_neg h8, if_neg (fun h => h8 h.2)]
    · rw [if_neg hp, if_neg (fun h => hp h.1)]
  have hd : isSymbolNeedsDynRel (s.afterPLTPart info ty).rsym ty true =
      isSymbolNeedsDynRel s.rsym ty true := by
    rw [afterPLTPart_rsym]; rfl
  unfold scanGlobalReloc
  rw [if_pos ht, hplt, andThen_ok, hd]
  by_cases hdr : isSymbolNeedsDynRel s.rsym ty true = true
  · rw [if_pos hdr, if_pos hdr]
    by_cases hf : ty = OutputType.DynObj ∧ t ∉ localAbs32Types
    · rw [if_pos hf]
      obtain ⟨rfl, h32⟩ := hf
      rw [checkValidReloc_dynObj_fatal t (fun h => h32 ((globalAbs_dynValid_iff t ht).mp h))]
      rfl
    · rw [if_neg hf]
      have hck : checkValidReloc t ty (s.afterPLTPart info ty) =
          Outcome.ok (s.afterPLTPart info ty) := by
        cases ty with
        | Object => exact absurd rfl hty
        | Exec => exact checkValidReloc_exec t _
        | DynObj =>
          apply checkValidReloc_dynObj_ok
          by_contra hnv
          exact hf ⟨rfl, fun h32 => hnv ((globalAbs_dynValid_iff t ht).mpr h32)⟩
      rw [hck, andThen_ok, reserveDynRel_eq ty _ hty]
  · rw [if_neg hdr, if_neg hdr]

/-- The state the absolute group ends in for a shared object is the state after the
PLT part, with or without a further `.rel.dyn` entry. -/
theorem absEnd_state (abs : Bool) (t : Nat) (x : ScanState) :
    (if (!abs) = true then
        if OutputType.DynObj = OutputType.DynObj ∧ t ∉ localAbs32Types then
          Outcome.fatal Fatal.unsupportedReloc x
        else Outcome.ok x.bumpRelDyn
      else Outcome.ok x).state = x ∨
    (if (!abs) = true then
        if OutputType.DynObj = OutputType.DynObj ∧ t ∉ localAbs32Types then
          Outcome.fatal Fatal.unsupportedReloc x
        else Outcome.ok x.bumpRelDyn
      else Outcome.ok x).state = x.bumpRelDyn := by
  split_ifs <;> simp [Outcome.state]

theorem endState_plt (x : ScanState) (o : Outcome)
    (ho : o.state = x ∨ o.state = x.bumpRelDyn) :
    pltEntries o.state.backend = pltEntries x.backend ∧
    relPltEntries o.state.backend = relPltEntries x.backend ∧
    gotPltEntries o.state.backend = gotPltEntries x.backend ∧
    o.state.backend.m_pPLT.isSome = x.backend.m_pPLT.isSome ∧
    o.state.backend.m_pRelPLT.isSome = x.backend.m_pRelPLT.isSome ∧
    o.state.backend.m_pGOT.isSome = x.backend.m_pGOT.isSome ∧
    (x.rsym.reserved &&& 0x8 ≠ 0 → o.state.rsym.reserved &&& 0x8 ≠ 0) := by
  rcases ho with ho | ho <;> rw [ho]
  · exact ⟨rfl, rfl, rfl, rfl, rfl, rfl, id⟩
  · obtain ⟨-, b2, b3, b4, b5, -⟩ := bumpRelDyn_counters x
    refine ⟨?_, ?_, ?_, ?_, ?_, ?_, fun h => ?_⟩
    · simp only [pltEntries, b3]
    · simp only [relPltEntries, b4]
    · simp only [gotPltEntries, b2]
    · rw [b3]
    · rw [b4]
    · rw [b2]
    · rw [b5]
      exact or_and_ne_zero_left _ 1 8 h

/-- C8 (amended): for an absolute relocation against a global symbol that needs a PLT,
scanned from a consistent backend, the symbol not being one named
`_GLOBAL_OFFSET_TABLE_` that is scanned before the GOT exists (which `createARMGOT`
defines as a local symbol): when the PLT bit of the symbol is clear, the scan
reserves exactly one PLT entry, one GOT slot for it and one `.rel.plt` entry, in
sections that exist afterwards, and sets the PLT bit; when the PLT bit is set already,
no PLT and no `.rel.plt` entry is reserved.  This holds of the state the scan ends in,
whether it returns (the type is `R_ARM_ABS32` or `R_ARM_ABS32_NOI`, or the symbol is
absolute) or aborts afterwards on `checkValidReloc`. -/
theorem scanRelocation_abs_global_needsPLT (t : Nat) (ht : t ∈ globalAbsTypes)
    (info : MCLDInfo) (ty : OutputType) (s : ScanState) (hg : s.rsym.isGlobal = true)
    (hp : isSymbolNeedsPLT s.rsym ty info = true) (hc : s.backend.Consistent)
    (hs : s.GotSettled) :
    (s.rsym.reserved &&& 0x8 = 0 →
      pltEntries (scanRelocation t info ty s).state.backend = pltEntries s.backend + 1 ∧
      relPltEntries (scanRelocation t info ty s).state.backend =
        relPltEntries s.backend + 1 ∧
      gotPltEntries (scanRelocation t info ty s).state.backend =
        gotPltEntries s.backend + 1 ∧
      (scanRelocation t info ty s).state.backend.m_pPLT.isSome = true ∧
      (scanRelocation t info ty s).state.backend.m_pRelPLT.isSome = true ∧
      (scanRelocation t info ty s).state.backend.m_pGOT.isSome = true ∧
      (scanRelocation t info ty s).state.rsym.reserved &&& 0x8 ≠ 0) ∧
    (s.rsym.reserved &&& 0x8 ≠ 0 →
      pltEntries (scanRelocation t info ty s).state.backend = pltEntries s.backend ∧
      relPltEntries (scanRelocation t info ty s).state.backend = relPltEntries s.backend) ∧
    ((scanRelocation t info ty s).returns = true ↔
      (s.rsym.isAbsolute = true ∨ t ∈ localAbs32Types)) := by
  have hty : ty = OutputType.DynObj := isSymbolNeedsPLT_dynObj hp
  subst hty
  have hca := afterGOTRef_consistent s hc
  have hpa : isSymbolNeedsPLT s.afterGOTRef.rsym OutputType.DynObj info = true := by
    rw [afterGOTRef_rsym s hs]; exact hp
  obtain ⟨c1, c2, c3, c4, c5⟩ := afterGOTRef_counters s
  rw [scanRelocation_global_eq t info _ s (by decide) hg hs,
    scanGlobalReloc_abs_eq t ht info _ _ (by decide) hca (afterGOTRef_settled s),
    isSymbolNeedsDynRel_dynObj_abs, afterGOTRef_rsym s hs]
  obtain ⟨-, -, -, cg, cp, cr, -⟩ := afterGOTRef_same s
  refine ⟨fun h8 => ?_, fun h8 => ?_, ?_⟩
  · have hsp : s.afterGOTRef.afterPLTPart info OutputType.DynObj = s.afterGOTRef.bumpPLT := by
      unfold ScanState.afterPLTPart
      rw [if_pos ⟨hpa, by rw [afterGOTRef_rsym s hs]; exact h8⟩]
    rw [hsp]
    obtain ⟨p1, p2, p3, -, -, p6⟩ := bumpPLT_counters s.afterGOTRef
    have hbit : s.afterGOTRef.bumpPLT.rsym.reserved &&& 0x8 ≠ 0 := by
      rw [p6]
      exact or_and_ne_zero _ 8 8 (by decide)
    obtain ⟨e1, e2, e3, e4, e5, e6, e7⟩ := endState_plt s.afterGOTRef.bumpPLT _
      (absEnd_state s.rsym.isAbsolute t s.afterGOTRef.bumpPLT)
    exact ⟨e1.trans (p1.trans (by rw [cp])), e2.trans (p2.trans (by rw [cr])),
      e3.trans (p3.trans (by rw [cg])), e4.trans rfl, e5.trans rfl, e6.trans rfl, e7 hbit⟩
  · have hsp : s.afterGOTRef.afterPLTPart info OutputType.DynObj = s.afterGOTRef := by
      unfold ScanState.afterPLTPart
      rw [if_neg (fun h => h8 (by rw [← afterGOTRef_rsym s hs]; exact h.2))]
    rw [hsp]
    obtain ⟨e1, e2, -⟩ := endState_plt s.afterGOTRef _
      (absEnd_state s.rsym.isAbsolute t s.afterGOTRef)
    exact ⟨e1.trans cp, e2.trans cr⟩
  · cases ha : s.rsym.isAbsolute
    · by_cases h32 : t ∈ localAbs32Types <;> simp [h32, Outcome.returns]
    · simp [Outcome.returns]

/-- C8 (witness): an `R_ARM_ABS32` against the function `sin` of a shared object, in
a shared object without Bsymbolic, from the initial state. -/
theorem scanRelocation_abs_global_needsPLT_witness :
    pltEntries (scanRelocation R_ARM_ABS32 { Bsymbolic := false } OutputType.DynObj
        (ScanState.initial dynSin)).state.backend = 1 ∧
    relPltEntries (scanRelocation R_ARM_ABS32 { Bsymbolic := false } OutputType.DynObj
        (ScanState.initial dynSin)).state.backend = 1 ∧
    (scanRelocation R_ARM_ABS32 { Bsymbolic := false } OutputType.DynObj
        (ScanState.initial dynSin)).state.rsym.reserved &&& 0x8 ≠ 0 :=
  have h := (scanRelocation_abs_global_needsPLT R_ARM_ABS32 (by decide) { Bsymbolic := false }
    OutputType.DynObj (ScanState.initial dynSin) (by decide) (by decide) (by decide)
    (by decide)).1 (by decide)
  ⟨h.1, h.2.1, h.2.2.2.2.2.2⟩

/-- C8 (counterexample): an `R_ARM_ABS32` against an undefined global function named
`_GLOBAL_OFFSET_TABLE_`, in a shared object without Bsymbolic, from the initial state.
The symbol is global, needs a PLT and has the PLT bit clear, and the backend is
consistent; the scan creates the GOT, which defines the symbol as a local one, and
scans it as a local symbol: it returns with one `.rel.dyn` entry and the mask 0x1,
having created no PLT and reserved no PLT and no `.rel.plt` entry. -/
theorem scanRelocation_abs_gotSymbol_no_plt :
    undefGOTFunc.isGlobal = true ∧
    isSymbolNeedsPLT undefGOTFunc OutputType.DynObj { Bsymbolic := false } = true ∧
    undefGOTFunc.reserved &&& 0x8 = 0 ∧
    (ScanState.initial undefGOTFunc).backend.Consistent ∧
    (scanRelocation R_ARM_ABS32 { Bsymbolic := false } OutputType.DynObj
        (ScanState.initial undefGOTFunc)).returns = true ∧
    (scanRelocation R_ARM_ABS32 { Bsymbolic := false } OutputType.DynObj
        (ScanState.initial undefGOTFunc)).state.backend.m_pPLT = none ∧
    pltEntries (scanRelocation R_ARM_ABS32 { Bsymbolic := false } OutputType.DynObj
        (ScanState.initial undefGOTFunc)).state.backend = 0 ∧
    relPltEntries (scanRelocation R_ARM_ABS32 { Bsymbolic := false } OutputType.DynObj
        (ScanState.initial undefGOTFunc)).state.backend = 0 ∧
    relDynEntries (scanRelocation R_ARM_ABS32 { Bsymbolic := false } OutputType.DynObj
        (ScanState.initial undefGOTFunc)).state.backend = 1 ∧
    (scanRelocation R_ARM_ABS32 { Bsymbolic := false } OutputType.DynObj
        (ScanState.initial undefGOTFunc)).state.rsym.binding = Binding.Local ∧
    (scanRelocation R_ARM_ABS32 { Bsymbolic := false } OutputType.DynObj
        (ScanState.initial undefGOTFunc)).state.rsym.reserved = 0x1 := by
  decide

theorem or8_and1 (m : Nat) : (m ||| 8) &&& 1 = m &&& 1 := by
  apply Nat.eq_of_testBit_eq
  intro i
  simp only [Nat.testBit_and, Nat.testBit_or]
  cases i with
  | zero => simp [Nat.testBit]
  | succ j =>
    have : Nat.testBit 1 (j + 1) = false := by
      simp [Nat.testBit_succ]
    rw [this]
    simp

theorem afterPLTPart_mask1 (info : MCLDInfo) (ty : OutputType) (s : ScanState) :
    (s.afterPLTPart info ty).rsym.reserved &&& 0x1 = s.rsym.reserved &&& 0x1 := by
  unfold ScanState.afterPLTPart
  split_ifs
  · rw [(bumpPLT_counters s).2.2.2.2.2]
    exact or8_and1 _
  · rfl

/-- C9 (amended): for an absolute relocation against a global symbol that needs a
dynamic relocation, scanned from a consistent backend, the symbol not being one named
`_GLOBAL_OFFSET_TABLE_` that is scanned before the GOT exists (which `createARMGOT`
defines as a local symbol): for an executable the scan returns normally with one more
`.rel.dyn` entry and the RelReserved bit set, whatever the absolute type; for a shared
object it does so when the type is `R_ARM_ABS32` or `R_ARM_ABS32_NOI`, and for each of
the nine other types it aborts on `checkValidReloc`, with no `.rel.dyn` entry reserved
and the RelReserved bit as it was. -/
theorem scanRelocation_abs_global_needsDynRel (t : Nat) (ht : t ∈ globalAbsTypes)
    (info : MCLDInfo) (ty : OutputType) (s : ScanState) (hg : s.rsym.isGlobal = true)
    (hd : isSymbolNeedsDynRel s.rsym ty true = true) (hc : s.backend.Consistent)
    (hs : s.GotSettled) :
    (ty = OutputType.Exec →
      ∃ s1, scanRelocation t info ty s = Outcome.ok s1 ∧
        relDynEntries s1.backend = relDynEntries s.backend + 1 ∧
        s1.rsym = s.rsym.setReserved (s.rsym.reserved ||| 0x1)) ∧
    (ty = OutputType.DynObj → t ∈ localAbs32Types →
      ∃ s1, scanRelocation t info ty s = Outcome.ok s1 ∧
        relDynEntries s1.backend = relDynEntries s.backend + 1 ∧
        s1.rsym.reserved &&& 0x1 ≠ 0) ∧
    (ty = OutputType.DynObj → t ∉ localAbs32Types →
      ∃ s1, scanRelocation t info ty s = Outcome.fatal Fatal.unsupportedReloc s1 ∧
        relDynEntries s1.backend = relDynEntries s.backend ∧
        s1.rsym.reserved &&& 0x1 = s.rsym.reserved &&& 0x1) := by
  have hca := afterGOTRef_consistent s hc
  have hda : isSymbolNeedsDynRel s.afterGOTRef.rsym ty true = true := by
    rw [afterGOTRef_rsym s hs]; exact hd
  obtain ⟨-, -, -, -, -, -, cd⟩ := afterGOTRef_same s
  refine ⟨fun hty => ?_, fun hty h32 => ?_, fun hty h32 => ?_⟩
  · subst hty
    have hsp : s.afterGOTRef.afterPLTPart info OutputType.Exec = s.afterGOTRef := by
      unfold ScanState.afterPLTPart
      rw [if_neg (fun h => by simp [isSymbolNeedsPLT_exec] at h)]
    refine ⟨s.afterGOTRef.bumpRelDyn, ?_, ?_, ?_⟩
    · rw [scanRelocation_global_eq t info _ s (by decide) hg hs,
        scanGlobalReloc_abs_eq t ht info _ _ (by decide) hca (afterGOTRef_settled s), if_pos hda,
        if_neg (fun h => by simp at h), hsp]
    · rw [(bumpRelDyn_counters _).1, cd]
    · rw [(bumpRelDyn_counters _).2.2.2.2.1, afterGOTRef_rsym s hs]
  · subst hty
    refine ⟨(s.afterGOTRef.afterPLTPart info OutputType.DynObj).bumpRelDyn, ?_, ?_, ?_⟩
    · rw [scanRelocation_global_eq t info _ s (by decide) hg hs,
        scanGlobalReloc_abs_eq t ht info _ _ (by decide) hca (afterGOTRef_settled s), if_pos hda,
        if_neg (fun h => h.2 h32)]
    · rw [(bumpRelDyn_counters _).1, afterPLTPart_relDyn, cd]
    · rw [(bumpRelDyn_counters _).2.2.2.2.1]
      exact or_and_ne_zero _ 1 1 (by decide)
  · subst hty
    refine ⟨s.afterGOTRef.afterPLTPart info OutputType.DynObj, ?_, ?_, ?_⟩
    · rw [scanRelocation_global_eq t info _ s (by decide) hg hs,
        scanGlobalReloc_abs_eq t ht info _ _ (by decide) hca (afterGOTRef_settled s), if_pos hda,
        if_pos ⟨rfl, h32⟩]
    · rw [afterPLTPart_relDyn]
      exact cd
    · rw [afterPLTPart_mask1, afterGOTRef_rsym s hs]

/-- C9 (witness): an `R_ARM_ABS32` against the global object `x`, for a shared
object, from the initial state. -/
theorem scanRelocation_abs_global_needsDynRel_witness :
    ∃ s1, scanRelocation R_ARM_ABS32 { Bsymbolic := false } OutputType.DynObj
        (ScanState.initial globalX) = Outcome.ok s1 ∧
      relDynEntries s1.backend = relDynEntries (ScanState.initial globalX).backend + 1 ∧
      s1.rsym.reserved &&& 0x1 ≠ 0 :=
  (scanRelocation_abs_global_needsDynRel R_ARM_ABS32 (by decide) { Bsymbolic := false }
    OutputType.DynObj (ScanState.initial globalX) (by decide) (by decide)
    (by decide) (by decide)).2.1 rfl (by decide)

/-- C9 (counterexample): the global object `x` needs a dynamic relocation in a shared
object, and the scan of an `R_ARM_ABS16` against it does not return normally: it
aborts with the unsupported relocation error, nothing reserved.  And a global function
named `_GLOBAL_OFFSET_TABLE_` of a shared object needs a dynamic relocation in an
executable, yet the scan of an `R_ARM_ABS32` against it from the initial state, which
defines it as a local symbol, returns with no `.rel.dyn` entry and the mask 0. -/
theorem scanRelocation_abs16_global_dynObj_fatal :
    isSymbolNeedsDynRel globalX OutputType.DynObj true = true ∧
    scanRelocation R_ARM_ABS16 { Bsymbolic := false } OutputType.DynObj
        (ScanState.initial globalX) =
      Outcome.fatal Fatal.unsupportedReloc (ScanState.initial globalX) ∧
    dynGOTFunc.isGlobal = true ∧
    isSymbolNeedsDynRel dynGOTFunc OutputType.Exec true = true ∧
    (scanRelocation R_ARM_ABS32 { Bsymbolic := false } OutputType.Exec
        (ScanState.initial dynGOTFunc)).returns = true ∧
    relDynEntries (scanRelocation R_ARM_ABS32 { Bsymbolic := false } OutputType.Exec
        (ScanState.initial dynGOTFunc)).state.backend = 0 ∧
    (scanRelocation R_ARM_ABS32 { Bsymbolic := false } OutputType.Exec
        (ScanState.initial dynGOTFunc)).state.rsym.reserved = 0 := by
  decide

/-! ## GOT-offset relocations -/

theorem gotOff_not_others : ∀ t ∈ gotOffTypes,
    t ∉ localAbs32Types ∧ t ∉ localAbsCheckedTypes ∧ t ∉ globalAbsTypes := by decide

/-- C10: for an `R_ARM_GOTOFF32` or `R_ARM_GOTOFF12` against a local or a global
symbol, for an executable or a shared object, the scan returns normally; afterwards
the backend has a GOT; when it had one before, the whole state is as it was (the GOT is
kept, not created again); no GOT, PLT, `.rel.dyn` or `.rel.plt` entry is reserved and
the reservation mask of the symbol is as it was (as is the rest of the symbol record,
unless the symbol is named `_GLOBAL_OFFSET_TABLE_` and the scan creates the GOT, which
defines it). -/
theorem scanRelocation_gotOff (t : Nat) (ht : t ∈ gotOffTypes) (info : MCLDInfo)
    (ty : OutputType) (s : ScanState)
    (hty : ty = OutputType.Exec ∨ ty = OutputType.DynObj)
    (hb : s.rsym.isLocal = true ∨ s.rsym.isGlobal = true) :
    ∃ s1, scanRelocation t info ty s = Outcome.ok s1 ∧
      s1.backend.m_pGOT.isSome = true ∧
      (s.backend.m_pGOT.isSome = true → s1 = s) ∧
      SameReservation s s1 0 := by
  have hne : ty ≠ OutputType.Object := by
    rcases hty with h | h <;> rw [h] <;> decide
  obtain ⟨n1, n2, n3⟩ := gotOff_not_others t ht
  refine ⟨s.withGOT, ?_, withGOT_isSome s, withGOT_of_isSome s, withGOT_same s⟩
  have hloc : scanLocalReloc t ty s.afterGOTRef = Outcome.ok s.withGOT := by
    unfold scanLocalReloc
    rw [if_neg n1, if_neg n2, if_pos ht, ensureGOT_eq ty _ hne, afterGOTRef_withGOT]
  by_cases hs : s.GotSettled
  · by_cases hl : s.rsym.isLocal = true
    · rw [scanRelocation_local_eq t info ty s hne hl, hloc]
    · have hg : s.rsym.isGlobal = true := hb.resolve_left hl
      rw [scanRelocation_global_eq t info ty s hne hg hs]
      unfold scanGlobalReloc
      rw [if_neg n3, if_pos ht, ensureGOT_eq ty _ hne, afterGOTRef_withGOT]
  · rw [scanRelocation_unsettled_eq t info ty s hne hs, hloc]

/-- C10 (witness): an `R_ARM_GOTOFF32` against the global object `x`, for an
executable, from the initial state. -/
theorem scanRelocation_gotOff_witness :
    ∃ s1, scanRelocation R_ARM_GOTOFF32 { Bsymbolic := false } OutputType.Exec
        (ScanState.initial globalX) = Outcome.ok s1 ∧
      s1.backend.m_pGOT.isSome = true ∧
      ((ScanState.initial globalX).backend.m_pGOT.isSome = true →
        s1 = ScanState.initial globalX) ∧
      SameReservation (ScanState.initial globalX) s1 0 :=
  scanRelocation_gotOff R_ARM_GOTOFF32 (by decide) { Bsymbolic := false } OutputType.Exec
    (ScanState.initial globalX) (Or.inl rfl) (Or.inr (by decide))


/-! ## The construction invariant is kept by every scan -/

theorem fresh_consistent : ARMGNULDBackend.fresh.Consistent := by decide

theorem keepsConsistent_andThen {f g : ScanState → Outcome} (hf : KeepsConsistent f)
    (hg : KeepsConsistent g) : KeepsConsistent (fun s => (f s).andThen g) := by
  intro s hs
  have h1 := hf s hs
  show ((f s).andThen g).state.backend.Consistent
  cases h : f s with
  | ok sa =>
    rw [h] at h1
    exact hg sa h1
  | fatal e sa =>
    rw [h] at h1
    exact h1

theorem keepsConsistent_ite {f g : ScanState → Outcome} (c : ScanState → Prop)
    [DecidablePred c] (hf : KeepsConsistent f) (hg : KeepsConsistent g) :
    KeepsConsistent (fun s => if c s then f s else g s) := by
  intro s hs
  by_cases h : c s
  · simpa [h] using hf s hs
  · simpa [h] using hg s hs

theorem keepsConsistent_ok : KeepsConsistent Outcome.ok := fun _ hs => hs

theorem keepsConsistent_fatal (e : Fatal) : KeepsConsistent (Outcome.fatal e) := fun _ hs => hs

theorem createARMGOT_keepsConsistent (ty : OutputType) : KeepsConsistent (createARMGOT ty) := by
  intro s hs
  unfold ARMGNULDBackend.Consistent at hs ⊢
  cases ty <;> simp [createARMGOT, Outcome.andThen, Outcome.state, ScanState.setGOT] <;>
    first | exact hs | exact hs.1

theorem ensureGOT_keepsConsistent (ty : OutputType) : KeepsConsistent (ensureGOT ty) :=
  keepsConsistent_ite (fun s => s.backend.m_pGOT.isNone = true)
    (createARMGOT_keepsConsistent ty) keepsConsistent_ok

theorem ensureRelDyn_keepsConsistent (ty : OutputType) : KeepsConsistent (ensureRelDyn ty) := by
  intro s hs
  unfold ARMGNULDBackend.Consistent at hs ⊢
  unfold ensureRelDyn
  split_ifs
  · cases ty <;> simp [createARMRelDyn, Outcome.state, ScanState.setRelDyn] <;> exact hs
  · exact hs

theorem ensurePLT_keepsConsistent (ty : OutputType) : KeepsConsistent (ensurePLT ty) := by
  intro s hs
  obtain ⟨⟨g, p, rd, rp⟩, l, r⟩ := s
  unfold ARMGNULDBackend.Consistent at hs ⊢
  cases g <;> cases p <;> cases rp <;> cases ty <;>
    simp_all [ensurePLT, createARMPLTandRelPLT, createARMGOT, Outcome.andThen, Outcome.state,
      ScanState.setGOT, ScanState.setPLT, ScanState.setRelPLT]

theorem reserveGOTEntry_keepsConsistent : KeepsConsistent reserveGOTEntry := by
  intro s hs
  unfold ARMGNULDBackend.Consistent at hs ⊢
  unfold reserveGOTEntry
  cases h : s.backend.m_pGOT with
  | none => exact hs
  | some g => exact ⟨hs.1, fun _ => rfl⟩

theorem reservePLTEntry_keepsConsistent : KeepsConsistent reservePLTEntry := by
  intro s hs
  unfold ARMGNULDBackend.Consistent at hs ⊢
  unfold reservePLTEntry
  cases h : s.backend.m_pGOT <;> cases h2 : s.backend.m_pPLT <;>
    simp_all [Outcome.state, ScanState.setGOT, ScanState.setPLT]

theorem reserveRelDynEntry_keepsConsistent : KeepsConsistent reserveRelDynEntry := by
  intro s hs
  unfold ARMGNULDBackend.Consistent at hs ⊢
  unfold reserveRelDynEntry
  cases h : s.backend.m_pRelDyn <;> simp_all [Outcome.state, ScanState.setRelDyn]

theorem reserveRelPLTEntry_keepsConsistent : KeepsConsistent reserveRelPLTEntry := by
  intro s hs
  unfold ARMGNULDBackend.Consistent at hs ⊢
  unfold reserveRelPLTEntry
  cases h : s.backend.m_pRelPLT <;> simp_all [Outcome.state, ScanState.setRelPLT]

theorem orReserved_keepsConsistent (bit : Nat) : KeepsConsistent (orReserved bit) :=
  fun _ hs => hs

theorem checkValidReloc_keepsConsistent (t : Nat) (ty : OutputType) :
    KeepsConsistent (checkValidReloc t ty) := by
  intro s hs
  rw [checkValidReloc_state]
  exact hs

theorem reserveDynRel_keepsConsistent (ty : OutputType) : KeepsConsistent (reserveDynRel ty) :=
  keepsConsistent_andThen
    (keepsConsistent_andThen (ensureRelDyn_keepsConsistent ty) reserveRelDynEntry_keepsConsistent)
    (orReserved_keepsConsistent 0x1)

theorem reservePLT_keepsConsistent (ty : OutputType) : KeepsConsistent (reservePLT ty) :=
  keepsConsistent_andThen
    (keepsConsistent_andThen
      (keepsConsistent_andThen (ensurePLT_keepsConsistent ty) reservePLTEntry_keepsConsistent)
      reserveRelPLTEntry_keepsConsistent)
    (orReserved_keepsConsistent 0x8)

theorem reserveGOT_keepsConsistent (d : ScanState → Bool) (ty : OutputType) :
    KeepsConsistent (reserveGOT d ty) :=
  keepsConsistent_andThen
    (keepsConsistent_andThen (ensureGOT_keepsConsistent ty) reserveGOTEntry_keepsConsistent)
    (keepsConsistent_ite (fun s1 => d s1 = true)
      (keepsConsistent_andThen
        (keepsConsistent_andThen (ensureRelDyn_keepsConsistent ty)
          reserveRelDynEntry_keepsConsistent)
        (orReserved_keepsConsistent 0x4))
      (orReserved_keepsConsistent 0x2))

theorem scanLocalReloc_keepsConsistent (t : Nat) (ty : OutputType) :
    KeepsConsistent (scanLocalReloc t ty) := by
  intro s hs
  unfold scanLocalReloc
  split_ifs
  · exact reserveDynRel_keepsConsistent ty s hs
  · exact hs
  · exact keepsConsistent_andThen (checkValidReloc_keepsConsistent t ty)
      (reserveDynRel_keepsConsistent ty) s hs
  · exact hs
  · exact ensureGOT_keepsConsistent ty s hs
  · exact hs
  · exact reserveGOT_keepsConsistent _ ty s hs
  · exact hs
  · exact hs

theorem scanGlobalReloc_keepsConsistent (t : Nat) (info : MCLDInfo) (ty : OutputType) :
    KeepsConsistent (scanGlobalReloc t info ty) := by
  have hdyn : ∀ a : Bool, KeepsConsistent (fun s1 =>
      if isSymbolNeedsDynRel s1.rsym ty a = true then
        (checkValidReloc t ty s1).andThen (reserveDynRel ty) else Outcome.ok s1) := fun a =>
    keepsConsistent_ite (fun s1 => isSymbolNeedsDynRel s1.rsym ty a = true)
      (keepsConsistent_andThen (checkValidReloc_keepsConsistent t ty)
        (reserveDynRel_keepsConsistent ty)) keepsConsistent_ok
  have hplt : KeepsConsistent (fun s => if isSymbolNeedsPLT s.rsym ty info = true then
      (if s.rsym.reserved &&& 0x8 = 0 then reservePLT ty s else Outcome.ok s)
      else Outcome.ok s) :=
    keepsConsistent_ite (fun s => isSymbolNeedsPLT s.rsym ty info = true)
      (keepsConsistent_ite (fun s => s.rsym.reserved &&& 0x8 = 0)
        (reservePLT_keepsConsistent ty) keepsConsistent_ok)
      keepsConsistent_ok
  have hbr : KeepsConsistent (fun s => if s.rsym.reserved &&& 0x8 ≠ 0 then Outcome.ok s
      else if (s.rsym.isDefine && !s.rsym.isDyn && !isSymbolPreemtible s.rsym ty info) = true
        then Outcome.ok s
      else reservePLT ty s) :=
    keepsConsistent_ite (fun s => s.rsym.reserved &&& 0x8 ≠ 0) keepsConsistent_ok
      (keepsConsistent_ite (fun s => (s.rsym.isDefine && !s.rsym.isDyn &&
        !isSymbolPreemtible s.rsym ty info) = true) keepsConsistent_ok
        (reservePLT_keepsConsistent ty))
  have hgot : KeepsConsistent (fun s => if s.rsym.reserved &&& 0x6 ≠ 0 then Outcome.ok s
      else reserveGOT (fun s1 => decide (OutputType.DynObj = ty) || s1.rsym.isUndef ||
        s1.rsym.isDyn) ty s) :=
    keepsConsistent_ite (fun s => s.rsym.reserved &&& 0x6 ≠ 0) keepsConsistent_ok
      (reserveGOT_keepsConsistent _ ty)
  intro s hs
  unfold scanGlobalReloc
  by_cases h1 : t ∈ globalAbsTypes
  · rw [if_pos h1]
    exact keepsConsistent_andThen hplt (hdyn true) s hs
  rw [if_neg h1]
  by_cases h2 : t ∈ gotOffTypes
  · rw [if_pos h2]
    exact ensureGOT_keepsConsistent ty s hs
  rw [if_neg h2]
  by_cases h3 : t ∈ globalRelTypes
  · rw [if_pos h3]
    exact hdyn false s hs
  rw [if_neg h3]
  by_cases h4 : t ∈ globalBranchTypes
  · rw [if_pos h4]
    exact hbr s hs
  rw [if_neg h4]
  by_cases h5 : t ∈ globalGotTypes
  · rw [if_pos h5]
    exact hgot s hs
  rw [if_neg h5]
  split_ifs <;> exact hs

/-- Every scan keeps the construction invariant, in the state it returns with and in
the state it aborts in; the constructor establishes it (`fresh_consistent`). -/
theorem scanRelocation_keepsConsistent (t : Nat) (info : MCLDInfo) (ty : OutputType) :
    KeepsConsistent (scanRelocation t info ty) := by
  have h1 : KeepsConsistent (fun s => if s.backend.m_pGOT.isNone = true ∧
      s.rsym.name = "_GLOBAL_OFFSET_TABLE_" then createARMGOT ty s else Outcome.ok s) :=
    keepsConsistent_ite
      (fun s => s.backend.m_pGOT.isNone = true ∧ s.rsym.name = "_GLOBAL_OFFSET_TABLE_")
      (createARMGOT_keepsConsistent ty) keepsConsistent_ok
  have h2 : KeepsConsistent (fun s1 => if s1.rsym.isLocal = true then scanLocalReloc t ty s1
      else if s1.rsym.isGlobal = true then scanGlobalReloc t info ty s1 else Outcome.ok s1) :=
    keepsConsistent_ite (fun s1 => s1.rsym.isLocal = true) (scanLocalReloc_keepsConsistent t ty)
      (keepsConsistent_ite (fun s1 => s1.rsym.isGlobal = true)
        (scanGlobalReloc_keepsConsistent t info ty) keepsConsistent_ok)
  exact keepsConsistent_andThen h1 h2

/-! ## GOT-indirect relocations -/

theorem and6_or2 (m : Nat) (h : m &&& 0x6 = 0) :
    (m ||| 0x2) &&& 0x2 ≠ 0 ∧ (m ||| 0x2) &&& 0x4 = 0 := by
  refine ⟨or_and_ne_zero m 2 2 (by decide), ?_⟩
  apply Nat.eq_of_testBit_eq
  intro i
  have h2 := congrArg (fun n => Nat.testBit n 2) h
  simp only [Nat.testBit_and, Nat.testBit_or, Nat.zero_testBit] at h2 ⊢
  by_cases hi : i = 2
  · subst hi
    have e6 : Nat.testBit 6 2 = true := by decide
    have e2 : Nat.testBit 2 2 = false := by decide
    have hm : m.testBit 2 = false := by simpa [e6] using h2
    simp [hm, e2]
  · have e4 : Nat.testBit 4 i = false := by
      have : (4 : Nat) = 2 ^ 2 := by norm_num
      rw [this, Nat.testBit_two_pow]
      simpa using fun h => hi h.symm
    rw [e4]
    simp

theorem and6_or4 (m : Nat) (h : m &&& 0x6 = 0) :
    (m ||| 0x4) &&& 0x4 ≠ 0 ∧ (m ||| 0x4) &&& 0x2 = 0 := by
  refine ⟨or_and_ne_zero m 4 4 (by decide), ?_⟩
  apply Nat.eq_of_testBit_eq
  intro i
  have h1 := congrArg (fun n => Nat.testBit n 1) h
  simp only [Nat.testBit_and, Nat.testBit_or, Nat.zero_testBit] at h1 ⊢
  by_cases hi : i = 1
  · subst hi
    have e6 : Nat.testBit 6 1 = true := by decide
    have e4 : Nat.testBit 4 1 = false := by decide
    have hm : m.testBit 1 = false := by simpa [e6] using h1
    simp [hm, e4]
  · have e2 : Nat.testBit 2 i = false := by
      have : (2 : Nat) = 2 ^ 1 := by norm_num
      rw [this, Nat.testBit_two_pow]
      simpa using fun h => hi h.symm
    rw [e2]
    simp

/-- The statements of a GOT group in closed form, when the condition for a dynamic
relocation reads the symbol only. -/
theorem reserveGOT_eq (d : ScanState → Bool) (v : Bool) (ty : OutputType) (s : ScanState)
    (hty : ty ≠ OutputType.Object) (hd : ∀ x : ScanState, x.rsym = s.rsym → d x = v)
    (hs : s.GotSettled) :
    reserveGOT d ty s = Outcome.ok (s.bumpGOT v) := by
  obtain ⟨⟨g, p, rd, rp⟩, l, r⟩ := s
  unfold reserveGOT
  cases g with
  | none =>
    have hn : r.name ≠ "_GLOBAL_OFFSET_TABLE_" := gotSettled_isNone hs rfl
    cases v <;> cases rd <;> cases ty <;>
      simp [ensureGOT, createARMGOT, reserveGOTEntry, ensureRelDyn, createARMRelDyn,
        reserveRelDynEntry, orReserved, Outcome.andThen, ScanState.setGOT,
        ScanState.setRelDyn, ScanState.bumpGOT, ScanState.withGOT, gotEntries, gotPltEntries,
        relDynEntries, ARMGOT.new, hd, ScanState.defineSymbol, gotSymbolDef, hn] at hty ⊢
  | some g =>
    cases v <;> cases rd <;> cases ty <;>
      simp [ensureGOT, createARMGOT, reserveGOTEntry, ensureRelDyn, createARMRelDyn,
        reserveRelDynEntry, orReserved, Outcome.andThen, ScanState.setGOT,
        ScanState.setRelDyn, ScanState.bumpGOT, ScanState.withGOT, gotEntries, gotPltEntries,
        relDynEntries, ARMGOT.new, hd] at hty ⊢

theorem bumpGOT_counters (v : Bool) (s : ScanState) :
    gotEntries (s.bumpGOT v).backend = gotEntries s.backend + 1 ∧
    gotPltEntries (s.bumpGOT v).backend = gotPltEntries s.backend ∧
    pltEntries (s.bumpGOT v).backend = pltEntries s.backend ∧
    relPltEntries (s.bumpGOT v).backend = relPltEntries s.backend ∧
    relDynEntries (s.bumpGOT v).backend = relDynEntries s.backend + (if v then 1 else 0) ∧
    (s.bumpGOT v).rsym =
      s.rsym.setReserved (s.rsym.reserved ||| (if v then 0x4 else 0x2)) := by
  cases v <;>
    simp [ScanState.bumpGOT, pltEntries, relPltEntries, gotPltEntries, gotEntries,
      relDynEntries]

theorem localGot_not_others : ∀ t ∈ localGotTypes,
    t ∉ localAbs32Types ∧ t ∉ localAbsCheckedTypes ∧ t ∉ gotOffTypes ∧
    t ∉ globalAbsTypes ∧ t ∉ globalRelTypes ∧ t ∉ globalBranchTypes ∧
    t ∈ globalGotTypes := by decide

theorem scanLocalReloc_got_eq (t : Nat) (ht : t ∈ localGotTypes) (ty : OutputType)
    (s : ScanState) (hty : ty ≠ OutputType.Object) (h6 : s.rsym.reserved &&& 0x6 = 0)
    (hs : s.GotSettled) :
    scanLocalReloc t ty s = Outcome.ok (s.bumpGOT (decide (OutputType.DynObj = ty))) := by
  obtain ⟨n1, n2, n3, -⟩ := localGot_not_others t ht
  unfold scanLocalReloc
  rw [if_neg n1, if_neg n2, if_neg n3, if_pos ht, if_neg (fun h => h h6)]
  exact reserveGOT_eq _ _ ty s hty (fun _ _ => rfl) hs

theorem scanGlobalReloc_got_eq (t : Nat) (ht : t ∈ globalGotTypes) (info : MCLDInfo)
    (ty : OutputType) (s : ScanState) (hty : ty ≠ OutputType.Object)
    (h6 : s.rsym.reserved &&& 0x6 = 0) (hs : s.GotSettled) :
    scanGlobalReloc t info ty s =
      Outcome.ok (s.bumpGOT (decide (OutputType.DynObj = ty) || s.rsym.isUndef ||
        s.rsym.isDyn)) := by
  have hn : t ∉ globalAbsTypes ∧ t ∉ gotOffTypes ∧ t ∉ globalRelTypes ∧
      t ∉ globalBranchTypes := by
    revert t
    decide
  obtain ⟨n1, n2, n3, n4⟩ := hn
  unfold scanGlobalReloc
  rw [if_neg n1, if_neg n2, if_neg n3, if_neg n4, if_pos ht, if_neg (fun h => h h6)]
  exact reserveGOT_eq _ _ ty s hty (fun x hx => by simp only [hx]) hs

theorem scanGlobalReloc_got_skip (t : Nat) (ht : t ∈ globalGotTypes) (info : MCLDInfo)
    (ty : OutputType) (s : ScanState) (h6 : s.rsym.reserved &&& 0x6 ≠ 0) :
    scanGlobalReloc t info ty s = Outcome.ok s := by
  have hn : t ∉ globalAbsTypes ∧ t ∉ gotOffTypes ∧ t ∉ globalRelTypes ∧
      t ∉ globalBranchTypes := by
    revert t
    decide
  obtain ⟨n1, n2, n3, n4⟩ := hn
  unfold scanGlobalReloc
  rw [if_neg n1, if_neg n2, if_neg n3, if_neg n4, if_pos ht, if_pos h6]

theorem scanLocalReloc_got_skip (t : Nat) (ht : t ∈ localGotTypes) (ty : OutputType)
    (s : ScanState) (h6 : s.rsym.reserved &&& 0x6 ≠ 0) :
    scanLocalReloc t ty s = Outcome.ok s := by
  obtain ⟨n1, n2, n3, -⟩ := localGot_not_others t ht
  unfold scanLocalReloc
  rw [if_neg n1, if_neg n2, if_neg n3, if_pos ht, if_pos h6]

/-- C11 (amended): for an executable, the scan of an `R_ARM_GOT_BREL` or
`R_ARM_GOT_PREL` against a local or global symbol whose GOT and GOTRel bits are clear
returns normally with exactly one more GOT entry.  Against a global symbol that is
undefined or from a shared object it also reserves one `.rel.dyn` entry and sets the
GOTRel bit, not the GOT bit, unless the symbol is named `_GLOBAL_OFFSET_TABLE_` and
scanned before the GOT exists (`createARMGOT` then defines it as a local symbol);
against every other symbol (local, or global and neither undefined nor from a shared
object, or defined by `createARMGOT` in this scan) it reserves no `.rel.dyn` entry and
sets the GOT bit, not the GOTRel bit. -/
theorem scanRelocation_got_exec (t : Nat) (ht : t ∈ localGotTypes) (info : MCLDInfo)
    (s : ScanState) (hb : s.rsym.isLocal = true ∨ s.rsym.isGlobal = true)
    (h6 : s.rsym.reserved &&& 0x6 = 0) :
    ∃ s1, scanRelocation t info OutputType.Exec s = Outcome.ok s1 ∧
      gotEntries s1.backend = gotEntries s.backend + 1 ∧
      (s.GotSettled ∧ s.rsym.isGlobal = true ∧
          (s.rsym.isUndef = true ∨ s.rsym.isDyn = true) →
        relDynEntries s1.backend = relDynEntries s.backend + 1 ∧
        s1.rsym.reserved &&& 0x4 ≠ 0 ∧ s1.rsym.reserved &&& 0x2 = 0) ∧
      (¬ (s.GotSettled ∧ s.rsym.isGlobal = true ∧
          (s.rsym.isUndef = true ∨ s.rsym.isDyn = true)) →
        relDynEntries s1.backend = relDynEntries s.backend ∧
        s1.rsym.reserved &&& 0x2 ≠ 0 ∧ s1.rsym.reserved &&& 0x4 = 0) := by
  obtain ⟨-, -, cg, -, -, -, cd⟩ := afterGOTRef_same s
  have h6a : s.afterGOTRef.rsym.reserved &&& 0x6 = 0 := by
    rw [afterGOTRef_reserved]; exact h6
  have hsa := afterGOTRef_settled s
  -- both scanners return with `bumpGOT v` for the flag `v` of the dynamic relocation
  have key : ∀ v : Bool,
      scanRelocation t info OutputType.Exec s = Outcome.ok (s.afterGOTRef.bumpGOT v) →
      (v = true ↔ (s.GotSettled ∧ s.rsym.isGlobal = true ∧
        (s.rsym.isUndef = true ∨ s.rsym.isDyn = true))) →
      ∃ s1, scanRelocation t info OutputType.Exec s = Outcome.ok s1 ∧
        gotEntries s1.backend = gotEntries s.backend + 1 ∧
        (s.GotSettled ∧ s.rsym.isGlobal = true ∧
            (s.rsym.isUndef = true ∨ s.rsym.isDyn = true) →
          relDynEntries s1.backend = relDynEntries s.backend + 1 ∧
          s1.rsym.reserved &&& 0x4 ≠ 0 ∧ s1.rsym.reserved &&& 0x2 = 0) ∧
        (¬ (s.GotSettled ∧ s.rsym.isGlobal = true ∧
            (s.rsym.isUndef = true ∨ s.rsym.isDyn = true)) →
          relDynEntries s1.backend = relDynEntries s.backend ∧
          s1.rsym.reserved &&& 0x2 ≠ 0 ∧ s1.rsym.reserved &&& 0x4 = 0) := by
    intro v hscan hv
    obtain ⟨b1, -, -, -, b5, b6⟩ := bumpGOT_counters v s.afterGOTRef
    refine ⟨_, hscan, by rw [b1, cg], fun hc => ?_, fun hc => ?_⟩
    · have hvt : v = true := hv.mpr hc
      subst hvt
      refine ⟨by rw [b5, cd]; rfl, ?_, ?_⟩
      · rw [b6]; exact (and6_or4 _ h6a).1
      · rw [b6]; exact (and6_or4 _ h6a).2
    · have hvf : v = false := by
        cases v with
        | false => rfl
        | true => exact absurd (hv.mp rfl) hc
      subst hvf
      refine ⟨by rw [b5, cd]; rfl, ?_, ?_⟩
      · rw [b6]; exact (and6_or2 _ h6a).1
      · rw [b6]; exact (and6_or2 _ h6a).2
  by_cases hs : s.GotSettled
  · by_cases hl : s.rsym.isLocal = true
    · apply key false
      · rw [scanRelocation_local_eq t info _ s (by decide) hl,
          scanLocalReloc_got_eq t ht _ _ (by decide) h6a hsa]
        rfl
      · constructor
        · intro h; cases h
        · intro h
          exact absurd hl (isGlobal_not_isLocal _ h.2.1)
    · have hg : s.rsym.isGlobal = true := hb.resolve_left hl
      apply key (s.rsym.isUndef || s.rsym.isDyn)
      · rw [scanRelocation_global_eq t info _ s (by decide) hg hs,
          scanGlobalReloc_got_eq t (localGot_not_others t ht).2.2.2.2.2.2 info _ _ (by decide)
            h6a hsa, afterGOTRef_rsym s hs]
        rfl
      · simp [hg, hs]
  · apply key false
    · rw [scanRelocation_unsettled_eq t info _ s (by decide) hs,
        scanLocalReloc_got_eq t ht _ _ (by decide) h6a hsa]
      rfl
    · constructor
      · intro h; cases h
      · intro h
        exact absurd h.1 hs

/-- C11 (witness): an `R_ARM_GOT_BREL` against the global object `x`, defined in the
link, from the initial state. -/
theorem scanRelocation_got_exec_witness :
    ∃ s1, scanRelocation R_ARM_GOT_BREL { Bsymbolic := false } OutputType.Exec
        (ScanState.initial globalX) = Outcome.ok s1 ∧
      gotEntries s1.backend = gotEntries (ScanState.initial globalX).backend + 1 ∧
      relDynEntries s1.backend = relDynEntries (ScanState.initial globalX).backend ∧
      s1.rsym.reserved &&& 0x2 ≠ 0 ∧ s1.rsym.reserved &&& 0x4 = 0 :=
  Exists.elim (scanRelocation_got_exec R_ARM_GOT_BREL (by decide)
    { Bsymbolic := false } (ScanState.initial globalX) (Or.inr (by decide)) (by decide))
    (fun s1 h => ⟨s1, h.1, h.2.1, h.2.2.2 (by decide)⟩)

/-- C11 (counterexample): for an executable, the scan of an `R_ARM_GOT_BREL` against
the undefined global function `bar`, GOT and GOTRel bits clear, reserves a `.rel.dyn`
entry and sets the GOTRel bit (the mask becomes 0x4), not the GOT bit.  (Against an
undefined global function named `_GLOBAL_OFFSET_TABLE_`, from the initial state, the
same scan reserves no `.rel.dyn` entry and sets the GOT bit: the scan has defined the
symbol as a local one.) -/
theorem scanRelocation_got_exec_undef_gotRel :
    undefBar.reserved &&& 0x6 = 0 ∧
    (scanRelocation R_ARM_GOT_BREL { Bsymbolic := false } OutputType.Exec
        (ScanState.initial undefBar)).returns = true ∧
    relDynEntries (scanRelocation R_ARM_GOT_BREL { Bsymbolic := false } OutputType.Exec
        (ScanState.initial undefBar)).state.backend = 1 ∧
    (scanRelocation R_ARM_GOT_BREL { Bsymbolic := false } OutputType.Exec
        (ScanState.initial undefBar)).state.rsym.reserved = 0x4 ∧
    undefGOTFunc.isGlobal = true ∧ undefGOTFunc.isUndef = true ∧
    (scanRelocation R_ARM_GOT_BREL { Bsymbolic := false } OutputType.Exec
        (ScanState.initial undefGOTFunc)).returns = true ∧
    gotEntries (scanRelocation R_ARM_GOT_BREL { Bsymbolic := false } OutputType.Exec
        (ScanState.initial undefGOTFunc)).state.backend = 1 ∧
    relDynEntries (scanRelocation R_ARM_GOT_BREL { Bsymbolic := false } OutputType.Exec
        (ScanState.initial undefGOTFunc)).state.backend = 0 ∧
    (scanRelocation R_ARM_GOT_BREL { Bsymbolic := false } OutputType.Exec
        (ScanState.initial undefGOTFunc)).state.rsym.reserved = 0x2 := by
  decide

/-! ## Branch relocations -/

theorem foldl_andThen_from (g : Nat → ScanState → Outcome) (ts : List Nat) (o : Outcome) :
    ts.foldl (fun acc t => acc.andThen (g t)) o =
      o.andThen (fun s => ts.foldl (fun acc t => acc.andThen (g t)) (Outcome.ok s)) := by
  cases o with
  | ok s => rfl
  | fatal e s =>
    show ts.foldl (fun acc t => acc.andThen (g t)) (Outcome.fatal e s) = Outcome.fatal e s
    induction ts with
    | nil => rfl
    | cons t rest ih => exact ih

theorem scanAll_nil (info : MCLDInfo) (ty : OutputType) (s : ScanState) :
    scanAll [] info ty s = Outcome.ok s := rfl

theorem scanAll_cons (t : Nat) (ts : List Nat) (info : MCLDInfo) (ty : OutputType)
    (s : ScanState) :
    scanAll (t :: ts) info ty s =
      (scanRelocation t info ty s).andThen (scanAll ts info ty) :=
  foldl_andThen_from (fun t => scanRelocation t info ty) ts (scanRelocation t info ty s)

/-- A sequence of scans that each leave the state alone leaves the state alone. -/
theorem scanAll_fixed (ts : List Nat) (info : MCLDInfo) (ty : OutputType) (s : ScanState)
    (h : ∀ t ∈ ts, scanRelocation t info ty s = Outcome.ok s) :
    scanAll ts info ty s = Outcome.ok s := by
  induction ts with
  | nil => rfl
  | cons t rest ih =>
    rw [scanAll_cons, h t (List.mem_cons_self t rest), andThen_ok]
    exact ih (fun u hu => h u (List.mem_cons_of_mem t hu))

theorem afterGOTRef_of_isSome (s : ScanState) (h : s.backend.m_pGOT.isSome = true) :
    s.afterGOTRef = s := by
  unfold ScanState.afterGOTRef
  split_ifs
  · exact withGOT_of_isSome s h
  · rfl

/-- With output DynObj, any non-empty sequence of `R_ARM_GOT_BREL` / `R_ARM_GOT_PREL`
relocations against a local or global symbol whose GOT and GOTRel bits are clear
reserves in total exactly one GOT entry and one `.rel.dyn` entry, and leaves the
GOTRel bit set and the GOT bit clear. -/
theorem scanAll_got_dynObj (ts : List Nat) (hne : ts ≠ [])
    (hts : ∀ t ∈ ts, t ∈ localGotTypes) (info : MCLDInfo) (s : ScanState)
    (hb : s.rsym.isLocal = true ∨ s.rsym.isGlobal = true)
    (h6 : s.rsym.reserved &&& 0x6 = 0) :
    ∃ s1, scanAll ts info OutputType.DynObj s = Outcome.ok s1 ∧
      gotEntries s1.backend = gotEntries s.backend + 1 ∧
      relDynEntries s1.backend = relDynEntries s.backend + 1 ∧
      s1.rsym.reserved &&& 0x4 ≠ 0 ∧ s1.rsym.reserved &&& 0x2 = 0 := by
  obtain ⟨-, -, cg, -, -, -, cd⟩ := afterGOTRef_same s
  have h6a : s.afterGOTRef.rsym.reserved &&& 0x6 = 0 := by
    rw [afterGOTRef_reserved]; exact h6
  have hsa := afterGOTRef_settled s
  -- the symbol the scanners see is local or global
  have hba : s.afterGOTRef.rsym.isLocal = true ∨ s.afterGOTRef.rsym.isGlobal = true := by
    by_cases hs : s.GotSettled
    · rw [afterGOTRef_rsym s hs]; exact hb
    · rw [afterGOTRef_rsym_unsettled s hs]; exact Or.inl rfl
  obtain ⟨b1, -, -, -, b5, b6⟩ := bumpGOT_counters true s.afterGOTRef
  have hsome : (s.afterGOTRef.bumpGOT true).backend.m_pGOT.isSome = true := rfl
  have hbit : (s.afterGOTRef.bumpGOT true).rsym.reserved &&& 0x6 ≠ 0 := by
    rw [b6]
    exact or_and_ne_zero _ 4 6 (by decide)
  have hloc : (s.afterGOTRef.bumpGOT true).rsym.isLocal = s.afterGOTRef.rsym.isLocal := by
    rw [b6]; rfl
  have hglob : (s.afterGOTRef.bumpGOT true).rsym.isGlobal = s.afterGOTRef.rsym.isGlobal := by
    rw [b6]; rfl
  -- the first scan reserves, every later scan finds the GOTRel bit set
  have hfirst : ∀ t ∈ localGotTypes,
      scanRelocation t info OutputType.DynObj s = Outcome.ok (s.afterGOTRef.bumpGOT true) := by
    intro t ht
    rw [scanRelocation_eq t info _ s (by decide)]
    by_cases hl : s.afterGOTRef.rsym.isLocal = true
    · rw [if_pos hl, scanLocalReloc_got_eq t ht _ _ (by decide) h6a hsa]
      rfl
    · have hg : s.afterGOTRef.rsym.isGlobal = true := hba.resolve_left hl
      rw [if_neg hl, if_pos hg,
        scanGlobalReloc_got_eq t (localGot_not_others t ht).2.2.2.2.2.2 info _ _ (by decide)
          h6a hsa]
      rfl
  have hlater : ∀ t ∈ localGotTypes,
      scanRelocation t info OutputType.DynObj (s.afterGOTRef.bumpGOT true) =
        Outcome.ok (s.afterGOTRef.bumpGOT true) := by
    intro t ht
    rw [scanRelocation_eq t info _ _ (by decide), afterGOTRef_of_isSome _ hsome, hloc, hglob]
    by_cases hl : s.afterGOTRef.rsym.isLocal = true
    · rw [if_pos hl, scanLocalReloc_got_skip t ht _ _ hbit]
    · have hg : s.afterGOTRef.rsym.isGlobal = true := hba.resolve_left hl
      rw [if_neg hl, if_pos hg,
        scanGlobalReloc_got_skip t (localGot_not_others t ht).2.2.2.2.2.2 info _ _ hbit]
  cases ts with
  | nil => exact absurd rfl hne
  | cons t rest =>
    refine ⟨s.afterGOTRef.bumpGOT true, ?_, by rw [b1, cg], by rw [b5, cd]; rfl, ?_, ?_⟩
    · rw [scanAll_cons, hfirst t (hts t (List.mem_cons_self t rest)), andThen_ok]
      exact scanAll_fixed rest info _ _
        (fun u hu => hlater u (hts u (List.mem_cons_of_mem t hu)))
    · rw [b6]; exact (and6_or4 _ h6a).1
    · rw [b6]; exact (and6_or4 _ h6a).2

/-- C12 (the code at the failing input): with output DynObj, against the weak symbol
`x`, GOT and GOTRel bits clear, a sequence of one `R_ARM_GOT_BREL`, and a sequence of
an `R_ARM_GOT_BREL` and an `R_ARM_GOT_PREL`, are scanned without any reservation: no
GOT is created, no `.rel.dyn` entry is reserved and the GOTRel bit stays clear. -/
theorem scanAll_got_weak_nothing :
    weakX.reserved &&& 0x6 = 0 ∧
    scanAll [R_ARM_GOT_BREL] { Bsymbolic := false } OutputType.DynObj
        (ScanState.initial weakX) = Outcome.ok (ScanState.initial weakX) ∧
    scanAll [R_ARM_GOT_BREL, R_ARM_GOT_PREL] { Bsymbolic := false } OutputType.DynObj
        (ScanState.initial weakX) = Outcome.ok (ScanState.initial weakX) ∧
    gotEntries (ScanState.initial weakX).backend = 0 ∧
    relDynEntries (ScanState.initial weakX).backend = 0 ∧
    (ScanState.initial weakX).rsym.reserved &&& 0x4 = 0 := by
  decide

theorem respects_andThen {R : ScanState → ScanState → Prop}
    (htrans : ∀ a b c, R a b → R b c → R a c) {f g : ScanState → Outcome}
    (hf : Respects R f) (hg : Respects R g) : Respects R (fun s => (f s).andThen g) := by
  intro s
  have h1 := hf s
  show R s ((f s).andThen g).state
  cases h : f s with
  | ok sa =>
    rw [h] at h1
    exact htrans _ _ _ h1 (hg sa)
  | fatal e sa =>
    rw [h] at h1
    exact h1

theorem respects_ite {R : ScanState → ScanState → Prop} {f g : ScanState → Outcome}
    (c : ScanState → Prop) [DecidablePred c] (hf : Respects R f) (hg : Respects R g) :
    Respects R (fun s => if c s then f s else g s) := by
  intro s
  by_cases h : c s
  · simpa [h] using hf s
  · simpa [h] using hg s

theorem respects_ok {R : ScanState → ScanState → Prop} (hrefl : ∀ a, R a a) :
    Respects R Outcome.ok := fun s => hrefl s

theorem respects_checkValidReloc {R : ScanState → ScanState → Prop} (hrefl : ∀ a, R a a)
    (t : Nat) (ty : OutputType) : Respects R (checkValidReloc t ty) := by
  intro s
  rw [checkValidReloc_state]
  exact hrefl s

/-- A reflexive and transitive relation that the guarded creation of the GOT, the
creation of `.rel.dyn`, the reservations and the setting of a mask bit respect is
respected by the type-specific part of every scan. -/
theorem scanDispatch_respects {R : ScanState → ScanState → Prop} (hrefl : ∀ a, R a a)
    (htrans : ∀ a b c, R a b → R b c → R a c)
    (hensureGOTs : ∀ ty, Respects R (ensureGOT ty))
    (hreldyn : ∀ ty, Respects R (createARMRelDyn ty))
    (hplt : ∀ ty, Respects R (reservePLT ty))
    (hgotEntry : Respects R reserveGOTEntry)
    (hrelDynEntry : Respects R reserveRelDynEntry)
    (hor : ∀ bit, Respects R (orReserved bit))
    (t : Nat) (info : MCLDInfo) (ty : OutputType) :
    Respects R (scanDispatch t info ty) := by
  have hok : Respects R Outcome.ok := respects_ok hrefl
  have hensureGOT : Respects R (ensureGOT ty) := hensureGOTs ty
  have hensureRelDyn : Respects R (ensureRelDyn ty) :=
    respects_ite (fun s => s.backend.m_pRelDyn.isNone = true) (hreldyn ty) hok
  have hdynRel : Respects R (reserveDynRel ty) :=
    respects_andThen htrans (respects_andThen htrans hensureRelDyn hrelDynEntry) (hor 0x1)
  have hchecked : Respects R (fun s => (checkValidReloc t ty s).andThen (reserveDynRel ty)) :=
    respects_andThen htrans (respects_checkValidReloc hrefl t ty) hdynRel
  have hreserveGOT : ∀ d : ScanState → Bool, Respects R (reserveGOT d ty) := fun d =>
    respects_andThen htrans (respects_andThen htrans hensureGOT hgotEntry)
      (respects_ite (fun s1 => d s1 = true)
        (respects_andThen htrans (respects_andThen htrans hensureRelDyn hrelDynEntry)
          (hor 0x4))
        (hor 0x2))
  have hlocal : Respects R (scanLocalReloc t ty) := by
    intro s
    unfold scanLocalReloc
    split_ifs
    · exact hdynRel s
    · exact hrefl s
    · exact hchecked s
    · exact hrefl s
    · exact hensureGOT s
    · exact hrefl s
    · exact hreserveGOT _ s
    · exact hrefl s
    · exact hrefl s
  have hdyn : ∀ a : Bool, Respects R (fun s1 =>
      if isSymbolNeedsDynRel s1.rsym ty a = true then
        (checkValidReloc t ty s1).andThen (reserveDynRel ty) else Outcome.ok s1) := fun a =>
    respects_ite (fun s1 => isSymbolNeedsDynRel s1.rsym ty a = true) hchecked hok
  have hpltPart : Respects R (fun s => if isSymbolNeedsPLT s.rsym ty info = true then
      (if s.rsym.reserved &&& 0x8 = 0 then reservePLT ty s else Outcome.ok s)
      else Outcome.ok s) :=
    respects_ite (fun s => isSymbolNeedsPLT s.rsym ty info = true)
      (respects_ite (fun s => s.rsym.reserved &&& 0x8 = 0) (hplt ty) hok) hok
  have hbr : Respects R (fun s => if s.rsym.reserved &&& 0x8 ≠ 0 then Outcome.ok s
      else if (s.rsym.isDefine && !s.rsym.isDyn && !isSymbolPreemtible s.rsym ty info) = true
        then Outcome.ok s
      else reservePLT ty s) :=
    respects_ite (fun s => s.rsym.reserved &&& 0x8 ≠ 0) hok
      (respects_ite (fun s => (s.rsym.isDefine && !s.rsym.isDyn &&
        !isSymbolPreemtible s.rsym ty info) = true) hok (hplt ty))
  have hgotGroup : Respects R (fun s => if s.rsym.reserved &&& 0x6 ≠ 0 then Outcome.ok s
      else reserveGOT (fun s1 => decide (OutputType.DynObj = ty) || s1.rsym.isUndef ||
        s1.rsym.isDyn) ty s) :=
    respects_ite (fun s => s.rsym.reserved &&& 0x6 ≠ 0) hok (hreserveGOT _)
  have hglobal : Respects R (scanGlobalReloc t info ty) := by
    intro s
    unfold scanGlobalReloc
    by_cases h1 : t ∈ globalAbsTypes
    · rw [if_pos h1]
      exact respects_andThen htrans hpltPart (hdyn true) s
    rw [if_neg h1]
    by_cases h2 : t ∈ gotOffTypes
    · rw [if_pos h2]
      exact hensureGOT s
    rw [if_neg h2]
    by_cases h3 : t ∈ globalRelTypes
    · rw [if_pos h3]
      exact hdyn false s
    rw [if_neg h3]
    by_cases h4 : t ∈ globalBranchTypes
    · rw [if_pos h4]
      exact hbr s
    rw [if_neg h4]
    by_cases h5 : t ∈ globalGotTypes
    · rw [if_pos h5]
      exact hgotGroup s
    rw [if_neg h5]
    split_ifs <;> exact hrefl s
  exact respects_ite (fun s1 => s1.rsym.isLocal = true) hlocal
    (respects_ite (fun s1 => s1.rsym.isGlobal = true) hglobal hok)

theorem scanRelocation_eq_dispatch (t : Nat) (info : MCLDInfo) (ty : OutputType)
    (s : ScanState) :
    scanRelocation t info ty s =
      (if s.backend.m_pGOT.isNone = true ∧ s.rsym.name = "_GLOBAL_OFFSET_TABLE_" then
          createARMGOT ty s
        else Outcome.ok s).andThen (scanDispatch t info ty) := rfl

/-- A reflexive and transitive relation that the section constructors, the
reservations and the setting of a mask bit respect is respected by every scan. -/
theorem scanRelocation_respects {R : ScanState → ScanState → Prop} (hrefl : ∀ a, R a a)
    (htrans : ∀ a b c, R a b → R b c → R a c)
    (hgot : ∀ ty, Respects R (createARMGOT ty))
    (hreldyn : ∀ ty, Respects R (createARMRelDyn ty))
    (hplt : ∀ ty, Respects R (reservePLT ty))
    (hgotEntry : Respects R reserveGOTEntry)
    (hrelDynEntry : Respects R reserveRelDynEntry)
    (hor : ∀ bit, Respects R (orReserved bit))
    (t : Nat) (info : MCLDInfo) (ty : OutputType) :
    Respects R (scanRelocation t info ty) := by
  have hok : Respects R Outcome.ok := respects_ok hrefl
  have hdisp : Respects R (scanDispatch t info ty) :=
    scanDispatch_respects hrefl htrans
      (fun ty => respects_ite (fun s => s.backend.m_pGOT.isNone = true) (hgot ty) hok)
      hreldyn hplt hgotEntry hrelDynEntry hor t info ty
  have hpre : Respects R (fun s => if s.backend.m_pGOT.isNone = true ∧
      s.rsym.name = "_GLOBAL_OFFSET_TABLE_" then createARMGOT ty s else Outcome.ok s) :=
    respects_ite
      (fun s => s.backend.m_pGOT.isNone = true ∧ s.rsym.name = "_GLOBAL_OFFSET_TABLE_")
      (hgot ty) hok
  exact respects_andThen htrans hpre hdisp

/-! ## The PLT and its relocation section grow together -/

theorem balanced_of_untouched {s s1 : ScanState}
    (hp : s1.backend.m_pPLT = s.backend.m_pPLT)
    (hr : s1.backend.m_pRelPLT = s.backend.m_pRelPLT)
    (hg : s.backend.m_pGOT.isSome = true → s1.backend.m_pGOT.isSome = true)
    (hs : s.backend.Balanced) : s1.backend.Balanced := by
  unfold ARMGNULDBackend.Balanced ARMGNULDBackend.Consistent pltEntries relPltEntries at hs ⊢
  rw [hp, hr]
  exact ⟨⟨hs.1.1, fun h => hg (hs.1.2 h)⟩, hs.2⟩

theorem reservePLT_balanced (ty : OutputType) :
    Respects (fun s s1 => s.backend.Balanced → s1.backend.Balanced) (reservePLT ty) := by
  intro s hs
  obtain ⟨⟨g, p, rd, rp⟩, l, r⟩ := s
  unfold ARMGNULDBackend.Balanced ARMGNULDBackend.Consistent at hs ⊢
  cases g <;> cases p <;> cases rp <;> cases ty <;>
    simp_all [reservePLT, ensurePLT, createARMPLTandRelPLT, createARMGOT, reservePLTEntry,
      reserveRelPLTEntry, orReserved, Outcome.andThen, Outcome.state, ScanState.setGOT,
      ScanState.setPLT, ScanState.setRelPLT, pltEntries, relPltEntries]

/-- Every scan keeps the PLT and `.rel.plt` balanced, in the state it returns with and
in the state it aborts in. -/
theorem scanRelocation_balanced (t : Nat) (info : MCLDInfo) (ty : OutputType)
    (s : ScanState) (hs : s.backend.Balanced) :
    (scanRelocation t info ty s).state.backend.Balanced := by
  refine (scanRelocation_respects
    (R := fun s s1 => s.backend.Balanced → s1.backend.Balanced)
    (fun _ h => h) (fun _ _ _ h1 h2 h => h2 (h1 h)) ?_ ?_ reservePLT_balanced ?_ ?_ ?_
    t info ty) s hs
  · intro ty s hs
    refine balanced_of_untouched ?_ ?_ ?_ hs <;>
      cases ty <;> simp [createARMGOT, Outcome.andThen, Outcome.state, ScanState.setGOT]
  · intro ty s hs
    refine balanced_of_untouched ?_ ?_ ?_ hs <;>
      cases ty <;> simp [createARMRelDyn, Outcome.state, ScanState.setRelDyn]
  · intro s hs
    refine balanced_of_untouched ?_ ?_ ?_ hs <;> unfold reserveGOTEntry <;>
      cases h : s.backend.m_pGOT <;> simp [Outcome.state, ScanState.setGOT, h]
  · intro s hs
    refine balanced_of_untouched ?_ ?_ ?_ hs <;> unfold reserveRelDynEntry <;>
      cases h : s.backend.m_pRelDyn <;> simp [Outcome.state, ScanState.setRelDyn]
  · intro bit s hs
    exact hs

theorem fresh_balanced : ARMGNULDBackend.fresh.Balanced :=
  ⟨fresh_consistent, rfl⟩

theorem reachable_balanced (b : ARMGNULDBackend) (h : Reachable b) : b.Balanced := by
  induction h with
  | fresh => exact fresh_balanced
  | scan l r t info ty s1 _ hscan ih =>
    have := scanRelocation_balanced t info ty (ScanState.mk _ l r) ih
    rw [hscan] at this
    exact this

/-- C16: in every backend state reachable from the freshly constructed backend by
`scanRelocation` calls that return normally, if the PLT exists then the GOT and
`.rel.plt` exist too, and the number of PLT entries reserved equals the number of
`.rel.plt` entries reserved. -/
theorem reachable_plt_invariant (b : ARMGNULDBackend) (h : Reachable b) :
    (b.m_pPLT.isSome = true → b.m_pGOT.isSome = true ∧ b.m_pRelPLT.isSome = true) ∧
    pltEntries b = relPltEntries b := by
  obtain ⟨⟨h1, h2⟩, h3⟩ := reachable_balanced b h
  exact ⟨fun hp => ⟨h2 hp, by rw [← h1]; exact hp⟩, h3⟩

/-- C16 (witness): the backend after an `R_ARM_CALL` against the function `sin` of a
shared object, scanned for a shared object from the fresh backend, is reachable; it
has a PLT with one entry. -/
theorem reachable_plt_invariant_witness :
    (scanRelocation R_ARM_CALL { Bsymbolic := false } OutputType.DynObj
        (ScanState.initial dynSin)).state.backend.m_pPLT.isSome = true ∧
    pltEntries (scanRelocation R_ARM_CALL { Bsymbolic := false } OutputType.DynObj
        (ScanState.initial dynSin)).state.backend = 1 ∧
    ((scanRelocation R_ARM_CALL { Bsymbolic := false } OutputType.DynObj
          (ScanState.initial dynSin)).state.backend.m_pPLT.isSome = true →
      (scanRelocation R_ARM_CALL { Bsymbolic := false } OutputType.DynObj
          (ScanState.initial dynSin)).state.backend.m_pGOT.isSome = true ∧
      (scanRelocation R_ARM_CALL { Bsymbolic := false } OutputType.DynObj
          (ScanState.initial dynSin)).state.backend.m_pRelPLT.isSome = true) ∧
    pltEntries (scanRelocation R_ARM_CALL { Bsymbolic := false } OutputType.DynObj
        (ScanState.initial dynSin)).state.backend =
      relPltEntries (scanRelocation R_ARM_CALL { Bsymbolic := false } OutputType.DynObj
        (ScanState.initial dynSin)).state.backend :=
  ⟨by decide, by decide,
    reachable_plt_invariant _
      (Reachable.scan { defined := [] } dynSin R_ARM_CALL { Bsymbolic := false }
        OutputType.DynObj
        (scanRelocation R_ARM_CALL { Bsymbolic := false } OutputType.DynObj
          (ScanState.initial dynSin)).state
        Reachable.fresh (by decide))⟩
/-! ## A reference to `_GLOBAL_OFFSET_TABLE_` -/

/-- Once the GOT exists, no statement of the type-specific part defines a symbol or
removes the GOT. -/
theorem scanDispatch_keeps_got (t : Nat) (info : MCLDInfo) (ty : OutputType) (s : ScanState)
    (hs : s.backend.m_pGOT.isSome = true) :
    (scanDispatch t info ty s).state.linker = s.linker ∧
    (scanDispatch t info ty s).state.backend.m_pGOT.isSome = true := by
  refine (scanDispatch_respects
    (R := fun s s1 => s.backend.m_pGOT.isSome = true →
      s1.linker = s.linker ∧ s1.backend.m_pGOT.isSome = true)
    (fun _ h => ⟨rfl, h⟩)
    (fun _ _ _ h1 h2 h => ⟨((h2 (h1 h).2).1).trans (h1 h).1, (h2 (h1 h).2).2⟩)
    ?_ ?_ ?_ ?_ ?_ ?_ t info ty) s hs
  · intro ty s hs
    rw [ensureGOT_of_isSome ty s hs]
    exact ⟨rfl, hs⟩
  · intro ty s hs
    cases ty <;> simp [createARMRelDyn, Outcome.state, ScanState.setRelDyn, hs]
  · intro ty s hs
    obtain ⟨⟨g, p, rd, rp⟩, l, r⟩ := s
    cases g <;> cases p <;> cases rp <;> cases ty <;>
      simp_all [reservePLT, ensurePLT, createARMPLTandRelPLT, reservePLTEntry,
        reserveRelPLTEntry, orReserved, Outcome.andThen, Outcome.state, ScanState.setGOT,
        ScanState.setPLT, ScanState.setRelPLT]
  · intro s hs
    unfold reserveGOTEntry
    cases h : s.backend.m_pGOT <;> simp_all [Outcome.state, ScanState.setGOT]
  · intro s hs
    unfold reserveRelDynEntry
    cases h : s.backend.m_pRelDyn <;> simp_all [Outcome.state, ScanState.setRelDyn]
  · intro bit s hs
    exact ⟨rfl, hs⟩

/-- C17: for an executable or a shared object, a relocation against a symbol named
`_GLOBAL_OFFSET_TABLE_`, scanned when the backend has no GOT, creates the GOT and
defines `_GLOBAL_OFFSET_TABLE_` (a local, hidden, defined object of size 0) at offset 0
of its first entry before the type-specific part runs, whatever the relocation type
and the binding of the symbol; as the symbol is the one defined, that part is the scan
of a relocation against a local symbol; the state the scan ends in has a GOT and that
one definition more.  Against a symbol of any other name the type-specific part runs on
the state as it was. -/
theorem scanRelocation_gotSymbol (t : Nat) (info : MCLDInfo) (ty : OutputType)
    (s : ScanState) (hty : ty = OutputType.Exec ∨ ty = OutputType.DynObj) :
    (s.rsym.name = "_GLOBAL_OFFSET_TABLE_" → s.backend.m_pGOT = none →
      scanRelocation t info ty s =
        scanLocalReloc t ty
          { backend := { s.backend with m_pGOT := some { reserved := 0, pltReserved := 0 } },
            linker :=
              { defined :=
                  { name := "_GLOBAL_OFFSET_TABLE_", isDyn := false, type := SymType.Object,
                    desc := Desc.Define, binding := Binding.Local, size := 0, value := 0,
                    fragment := 0, offset := 0, visibility := Visibility.Hidden } ::
                  s.linker.defined },
            rsym := { s.rsym with source := false, type := SymType.Object,
                                  desc := Desc.Define, binding := Binding.Local,
                                  other := Visibility.Hidden } } ∧
      (scanRelocation t info ty s).state.backend.m_pGOT.isSome = true ∧
      (scanRelocation t info ty s).state.linker.defined =
        { name := "_GLOBAL_OFFSET_TABLE_", isDyn := false, type := SymType.Object,
          desc := Desc.Define, binding := Binding.Local, size := 0, value := 0,
          fragment := 0, offset := 0, visibility := Visibility.Hidden } ::
          s.linker.defined) ∧
    (s.rsym.name ≠ "_GLOBAL_OFFSET_TABLE_" →
      scanRelocation t info ty s = scanDispatch t info ty s) := by
  constructor
  · intro hn hg
    have hpre : createARMGOT ty s = Outcome.ok
        { backend := { s.backend with m_pGOT := some { reserved := 0, pltReserved := 0 } },
          linker := { defined := gotSymbolDef :: s.linker.defined },
          rsym := { s.rsym with source := false, type := SymType.Object,
                                desc := Desc.Define, binding := Binding.Local,
                                other := Visibility.Hidden } } := by
      rcases hty with h | h <;> subst h <;>
        simp [createARMGOT, Outcome.andThen, ScanState.defineSymbol, ScanState.setGOT,
          MCLinker.defineSymbol, ResolveInfo.forceDefine, gotSymbolDef, ARMGOT.new, hn]
    have hscan : scanRelocation t info ty s = scanDispatch t info ty
        { backend := { s.backend with m_pGOT := some { reserved := 0, pltReserved := 0 } },
          linker := { defined := gotSymbolDef :: s.linker.defined },
          rsym := { s.rsym with source := false, type := SymType.Object,
                                desc := Desc.Define, binding := Binding.Local,
                                other := Visibility.Hidden } } := by
      rw [scanRelocation_eq_dispatch, if_pos ⟨by rw [hg]; rfl, hn⟩, hpre, andThen_ok]
    have hk := scanDispatch_keeps_got t info ty
      { backend := { s.backend with m_pGOT := some { reserved := 0, pltReserved := 0 } },
        linker := { defined := gotSymbolDef :: s.linker.defined },
        rsym := { s.rsym with source := false, type := SymType.Object,
                              desc := Desc.Define, binding := Binding.Local,
                              other := Visibility.Hidden } } rfl
    rw [hscan]
    refine ⟨rfl, hk.2, ?_⟩
    rw [hk.1]
    rfl
  · intro hn
    rw [scanRelocation_eq_dispatch, if_neg (fun h => hn h.2), andThen_ok]

/-- C17 (witness): an `R_ARM_ABS32` against an undefined weak symbol named
`_GLOBAL_OFFSET_TABLE_`, for an executable, from the initial state: the GOT exists
afterwards, with the symbol defined on its first entry; the symbol is local by then,
and an absolute relocation against a local symbol reserves nothing for an
executable. -/
theorem scanRelocation_gotSymbol_witness :
    (scanRelocation R_ARM_ABS32 { Bsymbolic := false } OutputType.Exec
        (ScanState.initial weakGOTRef)).state.backend.m_pGOT = some ARMGOT.new ∧
    (scanRelocation R_ARM_ABS32 { Bsymbolic := false } OutputType.Exec
        (ScanState.initial weakGOTRef)).state.rsym.binding = Binding.Local ∧
    (scanRelocation R_ARM_ABS32 { Bsymbolic := false } OutputType.Exec
        (ScanState.initial weakGOTRef)).state.backend.m_pGOT.isSome = true ∧
    (scanRelocation R_ARM_ABS32 { Bsymbolic := false } OutputType.Exec
        (ScanState.initial weakGOTRef)).state.linker.defined =
      [{ name := "_GLOBAL_OFFSET_TABLE_", isDyn := false, type := SymType.Object,
         desc := Desc.Define, binding := Binding.Local, size := 0, value := 0,
         fragment := 0, offset := 0, visibility := Visibility.Hidden }] :=
  ⟨by decide, by decide,
    ((scanRelocation_gotSymbol R_ARM_ABS32 { Bsymbolic := false } OutputType.Exec
      (ScanState.initial weakGOTRef) (Or.inl rfl)).1 (by decide) (by decide)).2.1,
    ((scanRelocation_gotSymbol R_ARM_ABS32 { Bsymbolic := false } OutputType.Exec
      (ScanState.initial weakGOTRef) (Or.inl rfl)).1 (by decide) (by decide)).2.2⟩

/-! ## The relocation factory -/

theorem toBytesLE_length (n v : Nat) : (toBytesLE n v).length = n := by
  induction n generalizing v with
  | zero => rfl
  | succ k ih => simp [toBytesLE, ih]

theorem toBytesLE_ofBytesLE (bs : List Byte) : toBytesLE bs.length (ofBytesLE bs) = bs := by
  induction bs with
  | nil => rfl
  | cons b rest ih =>
    have hb : b.val < 256 := b.isLt
    have h1 : (b.val + 256 * ofBytesLE rest) % 256 = b.val := by omega
    have h2 : (b.val + 256 * ofBytesLE rest) / 256 = ofBytesLE rest := by omega
    simp only [List.length_cons, ofBytesLE, toBytesLE, h2, ih]
    congr 1
    exact Fin.ext h1

theorem ofBytesLE_append_zero (bs : List Byte) (k : Nat) :
    ofBytesLE (bs ++ List.replicate k 0) = ofBytesLE bs := by
  induction bs with
  | nil =>
    induction k with
    | zero => rfl
    | succ j ih =>
      simp only [List.nil_append] at ih
      simp [List.replicate_succ, ofBytesLE, ih]
  | cons b rest ih => simp [ofBytesLE, ih]

/-- Storing a word that was loaded from `n` bytes gives those bytes back. -/
theorem bytesOfWord_wordOfBytes (le : Bool) (n : Nat) (bs : List Byte) (h : bs.length = n) :
    bytesOfWord le n (wordOfBytes le bs) = bs := by
  subst h
  cases le
  · have := toBytesLE_ofBytesLE bs.reverse
    rw [List.length_reverse] at this
    simp [bytesOfWord, wordOfBytes, this]
  · simp [bytesOfWord, wordOfBytes, toBytesLE_ofBytesLE]

/-- A byte swap turns the word loaded in one byte order into the word the same bytes
denote in the other byte order. -/
theorem bswap_wordOfBytes (le : Bool) (n : Nat) (bs : List Byte) (h : bs.length = n) :
    ofBytesLE (toBytesLE n (wordOfBytes le bs)).reverse = wordOfBytes (!le) bs := by
  subst h
  cases le
  · have := toBytesLE_ofBytesLE bs.reverse
    rw [List.length_reverse] at this
    simp [wordOfBytes, this]
  · simp [wordOfBytes, toBytesLE_ofBytesLE]

theorem memcpyInto_full (n : Nat) (src : List Byte) (h : src.length = n) :
    memcpyInto (zeroBytes n) src = src := by
  simp [memcpyInto, zeroBytes, h]

theorem memcpyInto_zero (n : Nat) (src : List Byte) :
    memcpyInto (zeroBytes n) src = src ++ List.replicate (n - src.length) 0 := by
  simp [memcpyInto, zeroBytes]

theorem memcpyInto_length (n : Nat) (src : List Byte) (h : src.length ≤ n) :
    (memcpyInto (zeroBytes n) src).length = n := by
  simp [memcpyInto, zeroBytes]
  omega

theorem memcpyInto_take (n : Nat) (src : List Byte) (h : src.length ≤ n) :
    (memcpyInto (zeroBytes n) src).take n = memcpyInto (zeroBytes n) src :=
  List.take_of_length_le (Nat.le_of_eq (memcpyInto_length n src h))

theorem take_length_of_le {n : Nat} {bs : List Byte} (h : n ≤ bs.length) :
    (bs.take n).length = n := by
  simp [h]

/-- Where the pre-read is right: the datum of the relocation `produce` returns is the
word the first `b / 8` bytes of the fragment denote in the byte order of the target,
for a bit class `b` of 32 or 64 and a fragment of at least `b / 8` bytes, unless host
and target are both big-endian and `b` is 32. -/
theorem produce_targetData (hostLE : Bool) (f : RelocationFactory) (cfg : LinkerConfig)
    (hb : cfg.bitclass = 32 ∨ cfg.bitclass = 64) (t : Nat) (fr : FragmentRef) (a : Nat)
    (hlen : cfg.bitclass / 8 ≤ fr.content.length)
    (hbe : ¬ (hostLE = false ∧ cfg.isLittleEndian = false ∧ cfg.bitclass = 32)) :
    (RelocationFactory.produce hostLE (f.setConfig cfg) t fr a).targetData =
      targetWord cfg fr.content := by
  obtain ⟨le, b⟩ := cfg
  simp only at hb hlen hbe
  unfold RelocationFactory.produce RelocationFactory.setConfig Produced.targetData targetWord
    FragmentRef.memcpy
  simp only
  by_cases hsw : hostLE ≠ le
  · have hle : le = !hostLE := by
      cases hostLE <;> cases le <;> simp_all
    rw [if_pos hsw]
    rcases hb with h | h <;> subst h
    · have h4 : (List.take 4 fr.content).length = 4 := take_length_of_le hlen
      simp only [if_true, Option.map_some', Option.getD_some, bswap32]
      rw [memcpyInto_full 4 _ h4, bswap_wordOfBytes hostLE 4 _ h4, hle]
    · have h8 : (List.take 8 fr.content).length = 8 := take_length_of_le hlen
      simp only [if_true, Option.map_some', Option.getD_some, bswap64,
        show ¬ (64 : Nat) = 32 by decide, if_false]
      rw [memcpyInto_full 8 _ h8, bswap_wordOfBytes hostLE 8 _ h8, hle]
  · have hle : le = hostLE := by
      cases hostLE <;> cases le <;> simp_all
    subst hle
    rw [if_neg hsw]
    simp only [Option.map_some', Option.getD_some]
    rcases hb with h | h <;> subst h
    · have h4 : (List.take (32 / 8) fr.content).length = 4 := take_length_of_le hlen
      cases le with
      | false => exact absurd ⟨rfl, rfl, rfl⟩ hbe
      | true =>
        rw [memcpyInto_take 8 _ (by omega), memcpyInto_zero]
        simp only [wordOfBytes, if_true]
        exact ofBytesLE_append_zero _ _
    · have h8 : (List.take (64 / 8) fr.content).length = 8 := take_length_of_le hlen
      rw [memcpyInto_take 8 _ (by omega), memcpyInto_full 8 _ h8]

/-- C18 (the code at the failing input): on a big-endian host, for a big-endian target
of 32 bits and a fragment with the bytes 00 00 00 01, `produce` returns a relocation
whose datum is 0x100000000, while the four bytes denote the word 1 in the byte order
of the target: the four bytes are copied into the high-order half of the eight-byte
datum. -/
theorem produce_bigEndianHost_32_shifted :
    RelocationFactory.produce false ((RelocationFactory.new 1024).setConfig bigEndian32)
        R_ARM_ABS32 fragOne 0 =
      { effects := [Effect.read 4, Effect.allocate],
        result := some { m_Type := R_ARM_ABS32, m_TargetAddress := fragOne, m_Addend := 0,
                         m_TargetData := 0x100000000 } } ∧
    targetWord bigEndian32 fragOne.content = 1 := by
  decide

/-- Where the round trip holds: for a bit class `b` of 32 or 64 and a fragment of
exactly `b / 8` bytes, the write-back of the datum that `produce` pre-read stores the
bytes of the fragment again, unless host and target are both big-endian and `b` is
32. -/
theorem writeBack_produce_roundTrip (hostLE : Bool) (f : RelocationFactory)
    (cfg : LinkerConfig) (hb : cfg.bitclass = 32 ∨ cfg.bitclass = 64) (t : Nat)
    (fr : FragmentRef) (a : Nat) (hlen : fr.content.length = cfg.bitclass / 8)
    (hbe : ¬ (hostLE = false ∧ cfg.isLittleEndian = false ∧ cfg.bitclass = 32)) :
    writeBack hostLE cfg
        (RelocationFactory.produce hostLE (f.setConfig cfg) t fr a).targetData =
      fr.content := by
  obtain ⟨le, b⟩ := cfg
  simp only at hb hlen hbe
  have htake : fr.content.take (b / 8) = fr.content := by
    rw [← hlen]
    exact List.take_length fr.content
  unfold RelocationFactory.produce RelocationFactory.setConfig Produced.targetData writeBack
    FragmentRef.memcpy
  simp only
  by_cases hsw : hostLE ≠ le
  · rw [if_pos hsw, if_pos hsw]
    rcases hb with h | h <;> subst h
    · have h4 : fr.content.length = 4 := hlen
      have ht : fr.content.take 4 = fr.content := htake
      simp only [if_true, Option.map_some', Option.getD_some, bswap32]
      rw [ht, memcpyInto_full 4 _ h4, bswap_wordOfBytes hostLE 4 _ h4,
        bswap_wordOfBytes (!hostLE) 4 _ h4, Bool.not_not,
        bytesOfWord_wordOfBytes hostLE 4 _ h4]
    · have h8 : fr.content.length = 8 := hlen
      have ht : fr.content.take 8 = fr.content := htake
      simp only [if_true, Option.map_some', Option.getD_some, bswap64,
        show ¬ (64 : Nat) = 32 by decide, if_false]
      rw [ht, memcpyInto_full 8 _ h8, bswap_wordOfBytes hostLE 8 _ h8,
        bswap_wordOfBytes (!hostLE) 8 _ h8, Bool.not_not,
        bytesOfWord_wordOfBytes hostLE 8 _ h8]
  · have hle : le = hostLE := by
      cases hostLE <;> cases le <;> simp_all
    subst hle
    rw [if_neg hsw, if_neg hsw]
    simp only [Option.map_some', Option.getD_some]
    rw [htake]
    rcases hb with h | h <;> subst h
    · have h4 : fr.content.length = 4 := hlen
      cases le with
      | false => exact absurd ⟨rfl, rfl, rfl⟩ hbe
      | true =>
        rw [memcpyInto_take 8 _ (by omega), memcpyInto_zero]
        have hw : wordOfBytes true (fr.content ++ List.replicate (8 - fr.content.length) 0) =
            wordOfBytes true fr.content := by
          simp only [wordOfBytes, if_true]
          exact ofBytesLE_append_zero _ _
        rw [hw]
        exact bytesOfWord_wordOfBytes true 4 _ h4
    · have h8 : fr.content.length = 8 := hlen
      rw [memcpyInto_take 8 _ (by omega), memcpyInto_full 8 _ h8]
      exact bytesOfWord_wordOfBytes le 8 _ h8

/-- C20: `produce` on a factory whose configuration was never set reports the fatal
`reloc_factory_has_not_config` diagnostic and returns no relocation, and does nothing
else: no read of the fragment, no allocation.  After `setConfig` with a configuration
of bit class 32 or 64 it returns a relocation with exactly the given type, fragment
reference and addend, on a host of either byte order. -/
theorem produce_config (hostLE : Bool) (pNum : Nat) (cfg : LinkerConfig)
    (hb : cfg.bitclass = 32 ∨ cfg.bitclass = 64) (t : Nat) (fr : FragmentRef) (a : Nat) :
    RelocationFactory.produce hostLE (RelocationFactory.new pNum) t fr a =
      { effects := [Effect.fatal Diag.reloc_factory_has_not_config], result := none } ∧
    ∃ r, (RelocationFactory.produce hostLE ((RelocationFactory.new pNum).setConfig cfg)
        t fr a).result = some r ∧
      r.m_Type = t ∧ r.m_TargetAddress = fr ∧ r.m_Addend = a := by
  refine ⟨rfl, ?_⟩
  obtain ⟨le, b⟩ := cfg
  simp only at hb
  unfold RelocationFactory.produce RelocationFactory.setConfig RelocationFactory.new
  simp only
  by_cases hsw : hostLE ≠ le
  · rw [if_pos hsw]
    rcases hb with h | h <;> subst h
    · exact ⟨_, rfl, rfl, rfl, rfl⟩
    · exact ⟨_, rfl, rfl, rfl, rfl⟩
  · rw [if_neg hsw]
    exact ⟨_, rfl, rfl, rfl, rfl⟩

/-- C20 (witness): a factory of capacity 1024, a big-endian target of 32 bits, an
`R_ARM_ABS32` at the fragment 00 00 00 01 with addend 0, on a little-endian host. -/
theorem produce_config_witness :
    RelocationFactory.produce true (RelocationFactory.new 1024) R_ARM_ABS32 fragOne 0 =
      { effects := [Effect.fatal Diag.reloc_factory_has_not_config], result := none } ∧
    ∃ r, (RelocationFactory.produce true ((RelocationFactory.new 1024).setConfig bigEndian32)
        R_ARM_ABS32 fragOne 0).result = some r ∧
      r.m_Type = R_ARM_ABS32 ∧ r.m_TargetAddress = fragOne ∧ r.m_Addend = 0 :=
  produce_config true 1024 bigEndian32 (Or.inl rfl) R_ARM_ABS32 fragOne 0

/-! ## Relative relocations against a global symbol -/

/-- C25: `checkValidReloc` aborts exactly when the output type is DynObj and the
relocation type is not one of `R_ARM_RELATIVE`, `R_ARM_COPY`, `R_ARM_GLOB_DAT`,
`R_ARM_JUMP_SLOT`, `R_ARM_ABS32`, `R_ARM_ABS32_NOI`, `R_ARM_PC24`,
`R_ARM_TLS_DTPMOD32`, `R_ARM_TLS_DTPOFF32`, `R_ARM_TLS_TPOFF32`; in every other case,
so for every other output type and every relocation type, it returns normally; and the
state it ends in, the symbol of the relocation included, is the state it started
from. -/
theorem checkValidReloc_iff (pRelocType : Nat) (pOutputType : OutputType) (s : ScanState) :
    ((checkValidReloc pRelocType pOutputType s).returns = false ↔
      pOutputType = OutputType.DynObj ∧
        pRelocType ∉ [R_ARM_RELATIVE, R_ARM_COPY, R_ARM_GLOB_DAT, R_ARM_JUMP_SLOT,
          R_ARM_ABS32, R_ARM_ABS32_NOI, R_ARM_PC24, R_ARM_TLS_DTPMOD32,
          R_ARM_TLS_DTPOFF32, R_ARM_TLS_TPOFF32]) ∧
    (pOutputType ≠ OutputType.DynObj → checkValidReloc pRelocType pOutputType s = Outcome.ok s) ∧
    ((checkValidReloc pRelocType pOutputType s).returns = true →
      checkValidReloc pRelocType pOutputType s = Outcome.ok s) ∧
    ((checkValidReloc pRelocType pOutputType s).returns = false →
      checkValidReloc pRelocType pOutputType s = Outcome.fatal Fatal.unsupportedReloc s) ∧
    (checkValidReloc pRelocType pOutputType s).state = s := by
  have hl : dynValidTypes = [R_ARM_RELATIVE, R_ARM_COPY, R_ARM_GLOB_DAT, R_ARM_JUMP_SLOT,
      R_ARM_ABS32, R_ARM_ABS32_NOI, R_ARM_PC24, R_ARM_TLS_DTPMOD32,
      R_ARM_TLS_DTPOFF32, R_ARM_TLS_TPOFF32] := rfl
  rw [← hl]
  unfold checkValidReloc
  by_cases h1 : pOutputType = OutputType.DynObj
  · by_cases h2 : pRelocType ∈ dynValidTypes
    · simp [h1, h2, Outcome.returns, Outcome.state]
    · simp [h1, h2, Outcome.returns, Outcome.state]
  · simp [h1, Outcome.returns, Outcome.state]

/-! ## A symbol that is neither local nor global -/

/-- C28 (amended): a relocation whose symbol is neither Local nor Global (Weak, say), of
any type, for any output type.  Unless the symbol is named `_GLOBAL_OFFSET_TABLE_` and
there is no GOT yet, the scan returns normally with the state as it was: nothing is
reserved and the reservation mask is unchanged.  When the symbol is named
`_GLOBAL_OFFSET_TABLE_` and there is no GOT yet, `createARMGOT` runs first: for a
relocatable object it aborts the scan, with the state untouched; for an executable or
a shared object it creates the GOT and defines the symbol as a local symbol, and the
relocation is then scanned as one against a local symbol. -/
theorem scanRelocation_other_binding (t : Nat) (info : MCLDInfo) (ty : OutputType)
    (s : ScanState) (hl : s.rsym.isLocal = false) (hg : s.rsym.isGlobal = false) :
    (¬ (s.rsym.name = "_GLOBAL_OFFSET_TABLE_" ∧ s.backend.m_pGOT = none) →
      scanRelocation t info ty s = Outcome.ok s) ∧
    (s.rsym.name = "_GLOBAL_OFFSET_TABLE_" ∧ s.backend.m_pGOT = none →
      ty = OutputType.Object →
      scanRelocation t info ty s = Outcome.fatal Fatal.gotNotSupported s) ∧
    (s.rsym.name = "_GLOBAL_OFFSET_TABLE_" ∧ s.backend.m_pGOT = none →
      ty ≠ OutputType.Object →
      scanRelocation t info ty s =
        scanLocalReloc t ty
          { backend := { s.backend with m_pGOT := some { reserved := 0, pltReserved := 0 } },
            linker :=
              { defined :=
                  { name := "_GLOBAL_OFFSET_TABLE_", isDyn := false, type := SymType.Object,
                    desc := Desc.Define, binding := Binding.Local, size := 0, value := 0,
                    fragment := 0, offset := 0, visibility := Visibility.Hidden } ::
                  s.linker.defined },
            rsym := { s.rsym with source := false, type := SymType.Object,
                                  desc := Desc.Define, binding := Binding.Local,
                                  other := Visibility.Hidden } }) := by
  refine ⟨fun hc => ?_, fun hc hty => ?_, fun hc hty => ?_⟩
  · have hpre : ¬ (s.backend.m_pGOT.isNone = true ∧
        s.rsym.name = "_GLOBAL_OFFSET_TABLE_") := by
      rintro ⟨h1, h2⟩
      exact hc ⟨h2, Option.isNone_iff_eq_none.mp h1⟩
    unfold scanRelocation
    rw [if_neg hpre, andThen_ok, if_neg (by simp [hl]), if_neg (by simp [hg])]
  · subst hty
    unfold scanRelocation
    rw [if_pos ⟨by rw [hc.2]; rfl, hc.1⟩]
    rfl
  · have hpre : createARMGOT ty s = Outcome.ok
        { backend := { s.backend with m_pGOT := some { reserved := 0, pltReserved := 0 } },
          linker := { defined := gotSymbolDef :: s.linker.defined },
          rsym := { s.rsym with source := false, type := SymType.Object,
                                desc := Desc.Define, binding := Binding.Local,
                                other := Visibility.Hidden } } := by
      cases ty with
      | Object => exact absurd rfl hty
      | DynObj =>
        simp [createARMGOT, Outcome.andThen, ScanState.defineSymbol, ScanState.setGOT,
          MCLinker.defineSymbol, ResolveInfo.forceDefine, gotSymbolDef, ARMGOT.new, hc.1]
      | Exec =>
        simp [createARMGOT, Outcome.andThen, ScanState.defineSymbol, ScanState.setGOT,
          MCLinker.defineSymbol, ResolveInfo.forceDefine, gotSymbolDef, ARMGOT.new, hc.1]
    rw [scanRelocation_eq_dispatch, if_pos ⟨by rw [hc.2]; rfl, hc.1⟩, hpre, andThen_ok]
    rfl

/-- C28 (witness): an `R_ARM_CALL` against the undefined weak function `foo`, for a
shared object, from the fresh backend. -/
theorem scanRelocation_other_binding_witness :
    scanRelocation R_ARM_CALL { Bsymbolic := false } OutputType.DynObj
        (ScanState.initial weakFoo) = Outcome.ok (ScanState.initial weakFoo) :=
  (scanRelocation_other_binding R_ARM_CALL { Bsymbolic := false } OutputType.DynObj
    (ScanState.initial weakFoo) (by decide) (by decide)).1 (by decide)

/-- C28 (counterexample): against a weak symbol named `_GLOBAL_OFFSET_TABLE_`, scanned
when there is no GOT yet, the scan of a relocation does not return for a relocatable
object (`createARMGOT` aborts); and for a shared object the scan of an `R_ARM_ABS32`
reserves a `.rel.dyn` entry and sets the RelReserved bit, as the symbol is local by
the time the type-specific part runs. -/
theorem scanRelocation_weak_gotRef_object_fatal :
    scanRelocation R_ARM_ABS32 { Bsymbolic := false } OutputType.Object
        (ScanState.initial weakGOTRef) =
      Outcome.fatal Fatal.gotNotSupported (ScanState.initial weakGOTRef) ∧
    weakGOTRef.isLocal = false ∧ weakGOTRef.isGlobal = false ∧
    (scanRelocation R_ARM_ABS32 { Bsymbolic := false } OutputType.DynObj
        (ScanState.initial weakGOTRef)).returns = true ∧
    relDynEntries (scanRelocation R_ARM_ABS32 { Bsymbolic := false } OutputType.DynObj
        (ScanState.initial weakGOTRef)).state.backend = 1 ∧
    (scanRelocation R_ARM_ABS32 { Bsymbolic := false } OutputType.DynObj
        (ScanState.initial weakGOTRef)).state.rsym.reserved = 0x1 := by
  decide

/-! ## Relations between a state and the outcome of a scan -/

theorem respectsOutcome_andThen {R : ScanState → Outcome → Prop}
    (hbind : ∀ s m o, R s (Outcome.ok m) → R m o → R s o) {f g : ScanState → Outcome}
    (hf : RespectsOutcome R f) (hg : RespectsOutcome R g) :
    RespectsOutcome R (fun s => (f s).andThen g) := by
  intro s
  have h1 := hf s
  show R s ((f s).andThen g)
  cases h : f s with
  | ok sa =>
    rw [h] at h1
    exact hbind _ _ _ h1 (hg sa)
  | fatal e sa =>
    rw [h] at h1
    exact h1

theorem respectsOutcome_ite {R : ScanState → Outcome → Prop} {f g : ScanState → Outcome}
    (c : ScanState → Prop) [DecidablePred c] (hf : RespectsOutcome R f)
    (hg : RespectsOutcome R g) : RespectsOutcome R (fun s => if c s then f s else g s) := by
  intro s
  by_cases h : c s
  · simpa [h] using hf s
  · simpa [h] using hg s

theorem respectsOutcome_checkValidReloc {R : ScanState → Outcome → Prop}
    (hok : ∀ s, R s (Outcome.ok s)) (hfatal : ∀ e s, R s (Outcome.fatal e s))
    (t : Nat) (ty : OutputType) : RespectsOutcome R (checkValidReloc t ty) := by
  intro s
  unfold checkValidReloc
  split_ifs
  · exact hok s
  · exact hok s
  · exact hfatal _ s

/-- A relation between a state and an outcome that holds of a return and of an abort
in place, that composes along a sequence of statements, and that the four shared
statement groups of the scanner respect (the GOT group together with its test of the
GOT bits) is respected by every scan. -/
theorem scanRelocation_respectsOutcome {R : ScanState → Outcome → Prop}
    (hrefl : ∀ s, R s (Outcome.ok s)) (hfatal : ∀ e s, R s (Outcome.fatal e s))
    (hbind : ∀ s m o, R s (Outcome.ok m) → R m o → R s o)
    (hpre : ∀ ty, RespectsOutcome R (fun s =>
      if s.backend.m_pGOT.isNone = true ∧ s.rsym.name = "_GLOBAL_OFFSET_TABLE_" then
        createARMGOT ty s else Outcome.ok s))
    (hensureGOT : ∀ ty, RespectsOutcome R (ensureGOT ty))
    (hdynRel : ∀ ty, RespectsOutcome R (reserveDynRel ty))
    (hplt : ∀ ty, RespectsOutcome R (reservePLT ty))
    (hgot : ∀ (d : ScanState → Bool) ty, RespectsOutcome R (fun s =>
      if s.rsym.reserved &&& 0x6 ≠ 0 then Outcome.ok s else reserveGOT d ty s))
    (t : Nat) (info : MCLDInfo) (ty : OutputType) :
    RespectsOutcome R (scanRelocation t info ty) := by
  have hok : RespectsOutcome R Outcome.ok := hrefl
  have hchecked : RespectsOutcome R
      (fun s => (checkValidReloc t ty s).andThen (reserveDynRel ty)) :=
    respectsOutcome_andThen hbind (respectsOutcome_checkValidReloc hrefl hfatal t ty)
      (hdynRel ty)
  have hlocal : RespectsOutcome R (scanLocalReloc t ty) := by
    intro s
    unfold scanLocalReloc
    by_cases h1 : t ∈ localAbs32Types
    · rw [if_pos h1]
      split_ifs
      · exact hdynRel ty s
      · exact hrefl s
    rw [if_neg h1]
    by_cases h2 : t ∈ localAbsCheckedTypes
    · rw [if_pos h2]
      split_ifs
      · exact hchecked s
      · exact hrefl s
    rw [if_neg h2]
    by_cases h3 : t ∈ gotOffTypes
    · rw [if_pos h3]
      exact hensureGOT ty s
    rw [if_neg h3]
    by_cases h4 : t ∈ localGotTypes
    · rw [if_pos h4]
      exact hgot _ ty s
    rw [if_neg h4]
    split_ifs
    · exact hfatal _ s
    · exact hrefl s
  have hdyn : ∀ a : Bool, RespectsOutcome R (fun s1 =>
      if isSymbolNeedsDynRel s1.rsym ty a = true then
        (checkValidReloc t ty s1).andThen (reserveDynRel ty) else Outcome.ok s1) := fun a =>
    respectsOutcome_ite (fun s1 => isSymbolNeedsDynRel s1.rsym ty a = true) hchecked hok
  have hpltPart : RespectsOutcome R (fun s => if isSymbolNeedsPLT s.rsym ty info = true then
      (if s.rsym.reserved &&& 0x8 = 0 then reservePLT ty s else Outcome.ok s)
      else Outcome.ok s) :=
    respectsOutcome_ite (fun s => isSymbolNeedsPLT s.rsym ty info = true)
      (respectsOutcome_ite (fun s => s.rsym.reserved &&& 0x8 = 0) (hplt ty) hok) hok
  have hbr : RespectsOutcome R (fun s => if s.rsym.reserved &&& 0x8 ≠ 0 then Outcome.ok s
      else if (s.rsym.isDefine && !s.rsym.isDyn && !isSymbolPreemtible s.rsym ty info) = true
        then Outcome.ok s
      else reservePLT ty s) :=
    respectsOutcome_ite (fun s => s.rsym.reserved &&& 0x8 ≠ 0) hok
      (respectsOutcome_ite (fun s => (s.rsym.isDefine && !s.rsym.isDyn &&
        !isSymbolPreemtible s.rsym ty info) = true) hok (hplt ty))
  have hglobal : RespectsOutcome R (scanGlobalReloc t info ty) := by
    intro s
    unfold scanGlobalReloc
    by_cases h1 : t ∈ globalAbsTypes
    · rw [if_pos h1]
      exact respectsOutcome_andThen hbind hpltPart (hdyn true) s
    rw [if_neg h1]
    by_cases h2 : t ∈ gotOffTypes
    · rw [if_pos h2]
      exact hensureGOT ty s
    rw [if_neg h2]
    by_cases h3 : t ∈ globalRelTypes
    · rw [if_pos h3]
      exact hdyn false s
    rw [if_neg h3]
    by_cases h4 : t ∈ globalBranchTypes
    · rw [if_pos h4]
      exact hbr s
    rw [if_neg h4]
    by_cases h5 : t ∈ globalGotTypes
    · rw [if_pos h5]
      exact hgot _ ty s
    rw [if_neg h5]
    split_ifs
    · exact hfatal _ s
    · exact hrefl s
  have hdisp : RespectsOutcome R (scanDispatch t info ty) :=
    respectsOutcome_ite (fun s1 => s1.rsym.isLocal = true) hlocal
      (respectsOutcome_ite (fun s1 => s1.rsym.isGlobal = true) hglobal hok)
  intro s
  rw [scanRelocation_eq_dispatch]
  exact respectsOutcome_andThen hbind (hpre ty) hdisp s

/-! ## The GOT bit and the GOTRel bit exclude each other -/

theorem or_and_distrib (m b c : Nat) : (m ||| b) &&& c = (m &&& c) ||| (b &&& c) := by
  rw [Nat.and_comm, Nat.and_or_distrib_left, Nat.and_comm c m, Nat.and_comm c b]

theorem or1_and6 (m : Nat) : (m ||| 0x1) &&& 0x6 = m &&& 0x6 := by
  rw [or_and_distrib]
  exact Nat.or_zero _

theorem or8_and6 (m : Nat) : (m ||| 0x8) &&& 0x6 = m &&& 0x6 := by
  rw [or_and_distrib]
  exact Nat.or_zero _

theorem or2_and6 (m : Nat) (h : m &&& 0x6 = 0) : (m ||| 0x2) &&& 0x6 = 0x2 := by
  rw [or_and_distrib, h]
  rfl

theorem or4_and6 (m : Nat) (h : m &&& 0x6 = 0) : (m ||| 0x4) &&& 0x6 = 0x4 := by
  rw [or_and_distrib, h]
  rfl

theorem and6_of_and2_and4 (m : Nat) (h2 : m &&& 0x2 = 0) (h4 : m &&& 0x4 = 0) :
    m &&& 0x6 = 0 := by
  have : (6 : Nat) = 2 ||| 4 := by decide
  rw [this, Nat.and_or_distrib_left, h2, h4]
  rfl

theorem and2_of_and6 (m : Nat) : m &&& 0x2 = (m &&& 0x6) &&& 0x2 := by
  rw [Nat.and_assoc]
  rfl

theorem and4_of_and6 (m : Nat) : m &&& 0x4 = (m &&& 0x6) &&& 0x4 := by
  rw [Nat.and_assoc]
  rfl

theorem gotOnce_of_neutral {s : ScanState} {o : Outcome} (h : GotNeutral s o.state) :
    GotOnce s o := by
  cases o <;> exact Or.inl h

theorem gotOnce_bind (s m : ScanState) (o : Outcome) (h1 : GotOnce s (Outcome.ok m))
    (h2 : GotOnce m o) : GotOnce s o := by
  cases o with
  | ok e =>
    simp only [GotOnce, GotNeutral] at h1 h2 ⊢
    rcases h1 with ⟨a1, a2⟩ | ⟨a0, a1, a2⟩
    · rcases h2 with ⟨b1, b2⟩ | ⟨b0, b1, b2⟩
      · exact Or.inl ⟨b1.trans a1, b2.trans a2⟩
      · exact Or.inr ⟨a2 ▸ b0, by rw [b1, a1], b2⟩
    · rcases h2 with ⟨b1, b2⟩ | ⟨b0, b1, b2⟩
      · exact Or.inr ⟨a0, by rw [b1, a1], by rw [b2]; exact a2⟩
      · rcases a2 with a2 | a2 <;> rw [a2] at b0 <;> exact absurd b0 (by decide)
  | fatal x e =>
    simp only [GotOnce, GotNeutral] at h1 h2 ⊢
    rcases h1 with ⟨a1, a2⟩ | ⟨a0, a1, a2⟩
    · rcases h2 with ⟨b1, b2⟩ | ⟨b0, b1, b2⟩
      · exact Or.inl ⟨b1.trans a1, b2.trans a2⟩
      · exact Or.inr ⟨a2 ▸ b0, by rw [b1, a1], b2⟩
    · rcases h2 with ⟨b1, b2⟩ | ⟨b0, b1, b2⟩
      · exact Or.inr ⟨a0, by rw [b1, a1], by rw [b2]; exact Or.inr a2⟩
      · rcases a2 with a2 | a2 <;> rw [a2] at b0 <;> exact absurd b0 (by decide)

theorem gotRef_gotNeutral (ty : OutputType) (s : ScanState) :
    GotNeutral s (if s.backend.m_pGOT.isNone = true ∧ s.rsym.name = "_GLOBAL_OFFSET_TABLE_"
      then createARMGOT ty s else Outcome.ok s).state := by
  obtain ⟨⟨g, p, rd, rp⟩, l, r⟩ := s
  by_cases hn : r.name = "_GLOBAL_OFFSET_TABLE_" <;> cases g <;> cases ty <;>
    simp [GotNeutral, createARMGOT, Outcome.andThen, Outcome.state, ScanState.setGOT,
      gotEntries, ARMGOT.new, hn]

theorem ensureGOT_gotNeutral (ty : OutputType) (s : ScanState) :
    GotNeutral s (ensureGOT ty s).state := by
  obtain ⟨⟨g, p, rd, rp⟩, l, r⟩ := s
  cases g <;> cases ty <;>
    simp [GotNeutral, ensureGOT, createARMGOT, Outcome.andThen, Outcome.state,
      ScanState.setGOT, gotEntries, ARMGOT.new]

theorem reserveDynRel_gotNeutral (ty : OutputType) (s : ScanState) :
    GotNeutral s (reserveDynRel ty s).state := by
  obtain ⟨⟨g, p, rd, rp⟩, l, r⟩ := s
  cases rd <;> cases ty <;>
    simp [GotNeutral, reserveDynRel, ensureRelDyn, createARMRelDyn, reserveRelDynEntry,
      orReserved, Outcome.andThen, Outcome.state, ScanState.setRelDyn, gotEntries,
      ResolveInfo.setReserved, or1_and6]

theorem reservePLT_gotNeutral (ty : OutputType) (s : ScanState) :
    GotNeutral s (reservePLT ty s).state := by
  obtain ⟨⟨g, p, rd, rp⟩, l, r⟩ := s
  cases g <;> cases p <;> cases rp <;> cases ty <;>
    simp [GotNeutral, reservePLT, ensurePLT, createARMPLTandRelPLT, createARMGOT,
      reservePLTEntry, reserveRelPLTEntry, orReserved, Outcome.andThen, Outcome.state,
      ScanState.setGOT, ScanState.setPLT, ScanState.setRelPLT, gotEntries, ARMGOT.new,
      ResolveInfo.setReserved, or8_and6]

theorem reserveGOT_gotOnce (d : ScanState → Bool) (ty : OutputType) (s : ScanState)
    (h6 : s.rsym.reserved &&& 0x6 = 0) : GotOnce s (reserveGOT d ty s) := by
  obtain ⟨⟨g, p, rd, rp⟩, l, r⟩ := s
  have h6r : r.reserved &&& 0x6 = 0 := h6
  unfold reserveGOT
  cases g <;> cases rd <;> cases ty <;>
    simp only [ensureGOT, createARMGOT, reserveGOTEntry, ensureRelDyn, createARMRelDyn,
      reserveRelDynEntry, orReserved, Outcome.andThen, ScanState.setGOT,
      ScanState.setRelDyn, Option.isNone_none, Option.isNone_some, if_true, if_false,
      Bool.false_eq_true, defineSymbol_backend] <;>
    first
      | exact Or.inl ⟨rfl, rfl⟩
      | (split_ifs <;>
          simp [GotOnce, GotNeutral, gotEntries, ARMGOT.new, ResolveInfo.setReserved,
            h6r, or2_and6, or4_and6])

/-- Every scan does to the GOT what `GotOnce` allows. -/
theorem scanRelocation_gotOnce (t : Nat) (info : MCLDInfo) (ty : OutputType) (s : ScanState) :
    GotOnce s (scanRelocation t info ty s) := by
  refine scanRelocation_respectsOutcome (R := GotOnce) ?_ ?_ gotOnce_bind ?_ ?_ ?_ ?_ ?_
    t info ty s
  · exact fun s => Or.inl ⟨rfl, rfl⟩
  · exact fun e s => Or.inl ⟨rfl, rfl⟩
  · exact fun ty s => gotOnce_of_neutral (gotRef_gotNeutral ty s)
  · exact fun ty s => gotOnce_of_neutral (ensureGOT_gotNeutral ty s)
  · exact fun ty s => gotOnce_of_neutral (reserveDynRel_gotNeutral ty s)
  · exact fun ty s => gotOnce_of_neutral (reservePLT_gotNeutral ty s)
  · intro d ty s
    by_cases h6 : s.rsym.reserved &&& 0x6 = 0
    · simpa [h6] using reserveGOT_gotOnce d ty s h6
    · have hk : GotOnce s (Outcome.ok s) := Or.inl ⟨rfl, rfl⟩
      simpa [h6] using hk

theorem scanSymbol_cons_ok (st : ScanStep) (rest : List ScanStep) (r : ResolveInfo)
    (e : ScanState)
    (h : scanRelocation st.relocType st.info st.output
      { backend := st.backend, linker := st.linker, rsym := r } = Outcome.ok e) :
    scanSymbol (st :: rest) r =
      ((scanSymbol rest e.rsym).1,
        (gotEntries e.backend - gotEntries st.backend) + (scanSymbol rest e.rsym).2) := by
  simp only [scanSymbol, h, Outcome.returns, Outcome.state, if_true]

theorem scanSymbol_cons_fatal (st : ScanStep) (rest : List ScanStep) (r : ResolveInfo)
    (x : Fatal) (e : ScanState)
    (h : scanRelocation st.relocType st.info st.output
      { backend := st.backend, linker := st.linker, rsym := r } = Outcome.fatal x e) :
    scanSymbol (st :: rest) r = (e.rsym, gotEntries e.backend - gotEntries st.backend) := by
  simp [scanSymbol, h, Outcome.returns, Outcome.state]

/-- The scans of a sequence against one symbol reserve no GOT entry and keep the GOT
and GOTRel bits when one of the bits is set at the start; from a symbol with both
bits clear they reserve at most one GOT entry and set at most one of the bits. -/
theorem scanSymbol_gotOnce (steps : List ScanStep) : ∀ r : ResolveInfo,
    (r.reserved &&& 0x6 ≠ 0 →
      (scanSymbol steps r).2 = 0 ∧
        (scanSymbol steps r).1.reserved &&& 0x6 = r.reserved &&& 0x6) ∧
    (r.reserved &&& 0x6 = 0 →
      (scanSymbol steps r).2 ≤ 1 ∧
        ((scanSymbol steps r).1.reserved &&& 0x6 = 0 ∨
          (scanSymbol steps r).1.reserved &&& 0x6 = 0x2 ∨
          (scanSymbol steps r).1.reserved &&& 0x6 = 0x4)) := by
  induction steps with
  | nil =>
    intro r
    exact ⟨fun _ => ⟨rfl, rfl⟩, fun h => ⟨Nat.zero_le _, Or.inl h⟩⟩
  | cons st rest ih =>
    intro r
    have hg := scanRelocation_gotOnce st.relocType st.info st.output
      { backend := st.backend, linker := st.linker, rsym := r }
    cases ho : scanRelocation st.relocType st.info st.output
        { backend := st.backend, linker := st.linker, rsym := r } with
    | ok e =>
      rw [ho] at hg
      rw [scanSymbol_cons_ok st rest r e ho]
      obtain ⟨ih1, ih2⟩ := ih e.rsym
      simp only [GotOnce, GotNeutral] at hg
      rcases hg with ⟨a1, a2⟩ | ⟨a0, a1, a2⟩
      · have hn : gotEntries e.backend - gotEntries st.backend = 0 := by
          rw [a1]
          exact Nat.sub_self _
        rw [hn, Nat.zero_add]
        constructor
        · intro h6
          obtain ⟨c1, c2⟩ := ih1 (by rw [a2]; exact h6)
          exact ⟨c1, c2.trans a2⟩
        · intro h6
          exact ih2 (a2.trans h6)
      · have hn : gotEntries e.backend - gotEntries st.backend = 1 := by
          rw [a1]
          exact Nat.add_sub_cancel_left _ _
        have hne : e.rsym.reserved &&& 0x6 ≠ 0 := by
          rcases a2 with a2 | a2 <;> rw [a2] <;> decide
        obtain ⟨c1, c2⟩ := ih1 hne
        rw [hn, c1]
        constructor
        · intro h6
          exact absurd a0 h6
        · intro _
          refine ⟨Nat.le_refl _, Or.inr ?_⟩
          rw [c2]
          exact a2
    | fatal x e =>
      rw [ho] at hg
      rw [scanSymbol_cons_fatal st rest r x e ho]
      simp only [GotOnce, GotNeutral] at hg
      rcases hg with ⟨a1, a2⟩ | ⟨a0, a1, a2⟩
      · have hn : gotEntries e.backend - gotEntries st.backend = 0 := by
          rw [a1]
          exact Nat.sub_self _
        rw [hn]
        exact ⟨fun _ => ⟨rfl, a2⟩, fun h6 => ⟨Nat.zero_le _, Or.inl (a2.trans h6)⟩⟩
      · have hn : gotEntries e.backend - gotEntries st.backend = 1 := by
          rw [a1]
          exact Nat.add_sub_cancel_left _ _
        rw [hn]
        exact ⟨fun h6 => absurd a0 h6, fun _ => ⟨Nat.le_refl _, a2⟩⟩

theorem not_both_of_and6 (m : Nat)
    (h : m &&& 0x6 = 0 ∨ m &&& 0x6 = 0x2 ∨ m &&& 0x6 = 0x4) :
    ¬ (m &&& 0x2 ≠ 0 ∧ m &&& 0x4 ≠ 0) := by
  rintro ⟨h2, h4⟩
  rw [and2_of_and6] at h2
  rw [and4_of_and6] at h4
  rcases h with h | h | h <;> rw [h] at h2 h4
  · exact h2 rfl
  · exact h4 rfl
  · exact h2 rfl

/-- C27: the GOT bit (0x2) and the GOTRel bit (0x4) exclude each other.  For every
symbol whose reservation mask has neither bit at the start, and every sequence of
`scanRelocation` calls against it (any relocation types, options and output types,
any binding of the symbol, any backend and linker state at each call), the mask at
the end does not have both bits set, and the calls have reserved at most one GOT
entry between them.  As the sequence is arbitrary, this holds after every call. -/
theorem scanSymbol_got_exclusive (steps : List ScanStep) (r : ResolveInfo)
    (h2 : r.reserved &&& 0x2 = 0) (h4 : r.reserved &&& 0x4 = 0) :
    ¬ ((scanSymbol steps r).1.reserved &&& 0x2 ≠ 0 ∧
        (scanSymbol steps r).1.reserved &&& 0x4 ≠ 0) ∧
    (scanSymbol steps r).2 ≤ 1 := by
  obtain ⟨c1, c2⟩ := (scanSymbol_gotOnce steps r).2 (and6_of_and2_and4 _ h2 h4)
  exact ⟨not_both_of_and6 _ c2, c1⟩

/-- C27 (witness): the global object `x` and two GOT relocations, the first scanned for
an executable from the fresh backend, the second for a shared object with the GOT the
first one left: one GOT entry in all, and the GOT bit alone. -/
theorem scanSymbol_got_exclusive_witness :
    (¬ ((scanSymbol gotBrelThenPrel globalX).1.reserved &&& 0x2 ≠ 0 ∧
        (scanSymbol gotBrelThenPrel globalX).1.reserved &&& 0x4 ≠ 0) ∧
      (scanSymbol gotBrelThenPrel globalX).2 ≤ 1) ∧
    scanSymbol gotBrelThenPrel globalX = (globalX.setReserved 0x2, 1) :=
  ⟨scanSymbol_got_exclusive gotBrelThenPrel globalX (by decide) (by decide), by decide⟩

/-! ## The section-order hint of the backend -/

/-- C26: `getTargetSectionOrder` depends on the name of the section only: two
headers with the same name get the same hint; the hint is DATA exactly for the names
`.got` and `.got.plt`, PLT exactly for `.plt`, and UNDEFINED for every other name,
`.ARM.exidx`, `.ARM.extab` and `.ARM.attributes` among them. -/
theorem getTargetSectionOrder_spec (pSectHdr : LDSection) :
    (∀ other : LDSection, other.name = pSectHdr.name →
      getTargetSectionOrder other = getTargetSectionOrder pSectHdr) ∧
    (getTargetSectionOrder pSectHdr = SectionOrder.SHO_DATA ↔
      pSectHdr.name = ".got" ∨ pSectHdr.name = ".got.plt") ∧
    (getTargetSectionOrder pSectHdr = SectionOrder.SHO_PLT ↔ pSectHdr.name = ".plt") ∧
    (getTargetSectionOrder pSectHdr = SectionOrder.SHO_UNDEFINED ↔
      pSectHdr.name ≠ ".got" ∧ pSectHdr.name ≠ ".got.plt" ∧ pSectHdr.name ≠ ".plt") ∧
    (pSectHdr.name ∈ [".ARM.exidx", ".ARM.extab", ".ARM.attributes"] →
      getTargetSectionOrder pSectHdr = SectionOrder.SHO_UNDEFINED) := by
  refine ⟨?_, ?_, ?_, ?_, ?_⟩
  · intro other h
    unfold getTargetSectionOrder
    rw [h]
  · unfold getTargetSectionOrder
    by_cases h1 : pSectHdr.name = ".got" ∨ pSectHdr.name = ".got.plt"
    · simp [h1]
    · by_cases h2 : pSectHdr.name = ".plt" <;> simp [h1, h2]
  · unfold getTargetSectionOrder
    by_cases h1 : pSectHdr.name = ".got" ∨ pSectHdr.name = ".got.plt"
    · rw [if_pos h1]
      have : pSectHdr.name ≠ ".plt" := by
        rcases h1 with h | h <;> rw [h] <;> decide
      simp [this]
    · by_cases h2 : pSectHdr.name = ".plt" <;> simp [h1, h2]
  · unfold getTargetSectionOrder
    by_cases h1 : pSectHdr.name = ".got" ∨ pSectHdr.name = ".got.plt"
    · rw [if_pos h1]
      simp only [reduceCtorEq, false_iff, not_and, not_not]
      intro a b
      exact absurd h1 (not_or.mpr ⟨a, b⟩)
    · by_cases h2 : pSectHdr.name = ".plt"
      · simp [h1, h2]
      · rw [if_neg h1, if_neg h2]
        simp only [true_iff]
        exact ⟨fun h => h1 (Or.inl h), fun h => h1 (Or.inr h), h2⟩
  · intro h
    unfold getTargetSectionOrder
    have : pSectHdr.name ≠ ".got" ∧ pSectHdr.name ≠ ".got.plt" ∧ pSectHdr.name ≠ ".plt" := by
      simp only [List.mem_cons, List.mem_singleton, List.not_mem_nil, or_false] at h
      rcases h with h | h | h <;> rw [h] <;> decide
    simp [this.1, this.2.1, this.2.2]

/-! ## The sections of a shared object -/

theorem getElem_append_at {α : Type} (pre : List α) (post : List α) (k : Nat) :
    (pre ++ post).get? (pre.length + k) = post.get? k := by
  simp [List.getElem?_append_right]

/-- The seventeen section headers `initObjectType` has the factory produce, in
order. -/
theorem initObjectType_sections (fmt : ELFDynObjFileFormat) (alloc : SectionFactory) :
    (fmt.initObjectType alloc).2.sections = alloc.sections ++
      [{ name := ".dynsym", kind := LDFileFormat.Kind.SymbolTable, type := SHT_DYNSYM,
         flag := SHF_ALLOC },
       { name := ".dynstr", kind := LDFileFormat.Kind.StringTable, type := SHT_STRTAB,
         flag := SHF_ALLOC },
       { name := ".interp", kind := LDFileFormat.Kind.MetaData, type := SHT_PROGBITS,
         flag := SHF_ALLOC },
       { name := ".hash", kind := LDFileFormat.Kind.MetaData, type := SHT_HASH,
         flag := SHF_ALLOC },
       { name := ".dynamic", kind := LDFileFormat.Kind.MetaData, type := SHT_DYNAMIC,
         flag := SHF_ALLOC ||| SHF_WRITE },
       { name := ".rela.dyn", kind := LDFileFormat.Kind.ReadOnly, type := SHT_RELA,
         flag := SHF_ALLOC },
       { name := ".rela.plt", kind := LDFileFormat.Kind.ReadOnly, type := SHT_RELA,
         flag := SHF_ALLOC },
       { name := ".rel.dyn", kind := LDFileFormat.Kind.ReadOnly, type := SHT_REL,
         flag := SHF_ALLOC },
       { name := ".rel.plt", kind := LDFileFormat.Kind.ReadOnly, type := SHT_REL,
         flag := SHF_ALLOC },
       { name := ".got", kind := LDFileFormat.Kind.GOT, type := SHT_PROGBITS,
         flag := SHF_ALLOC ||| SHF_WRITE },
       { name := ".plt", kind := LDFileFormat.Kind.PLT, type := SHT_PROGBITS,
         flag := SHF_ALLOC ||| SHF_EXECINSTR },
       { name := ".got.plt", kind := LDFileFormat.Kind.GOT, type := SHT_PROGBITS,
         flag := SHF_ALLOC ||| SHF_WRITE },
       { name := ".preinit_array", kind := LDFileFormat.Kind.Data,
         type := SHT_PREINIT_ARRAY, flag := SHF_ALLOC ||| SHF_WRITE },
       { name := ".init_array", kind := LDFileFormat.Kind.Data, type := SHT_INIT_ARRAY,
         flag := SHF_ALLOC ||| SHF_WRITE },
       { name := ".fini_array", kind := LDFileFormat.Kind.Data, type := SHT_FINI_ARRAY,
         flag := SHF_ALLOC ||| SHF_WRITE },
       { name := ".ctors", kind := LDFileFormat.Kind.Data, type := SHT_PROGBITS,
         flag := SHF_ALLOC ||| SHF_WRITE },
       { name := ".dtors", kind := LDFileFormat.Kind.Data, type := SHT_PROGBITS,
         flag := SHF_ALLOC ||| SHF_WRITE }] := by
  simp [ELFDynObjFileFormat.initObjectType, SectionFactory.produce]

/-- The pointers `initObjectType` leaves in the fields of the format: positions in the
list of the factory, counted from the number of sections it had before. -/
theorem initObjectType_fields (fmt : ELFDynObjFileFormat) (alloc : SectionFactory) :
    (fmt.initObjectType alloc).1.fields =
      [0, 1, 2, 3, 4, 7, 8, 9, 10, 11, 12, 13, 14, 15, 16].map
        (fun k => some (alloc.sections.length + k)) := by
  simp [ELFDynObjFileFormat.initObjectType, SectionFactory.produce,
    ELFDynObjFileFormat.fields, Nat.add_assoc]
theorem initObjectType_relaDyn (fmt : ELFDynObjFileFormat) (alloc : SectionFactory) :
    (fmt.initObjectType alloc).1.f_pRelaDyn = some (alloc.sections.length + 7) ∧
    (fmt.initObjectType alloc).1.f_pRelaPlt = some (alloc.sections.length + 8) := by
  simp [ELFDynObjFileFormat.initObjectType, SectionFactory.produce, Nat.add_assoc]

/-- C22: after `ELFDynObjFileFormat::initObjectType`, whatever the format and the
section factory held before, the field `f_pRelaDyn` points to the section header
named `.rel.dyn` of type `SHT_REL` and the field `f_pRelaPlt` to the one named
`.rel.plt` of type `SHT_REL`; the headers `.rela.dyn` and `.rela.plt` of type
`SHT_RELA` have been produced by the factory all the same (the sixth and the seventh
of this call), and no field of the format points to either of them. -/
theorem initObjectType_rel_overwrites_rela (fmt : ELFDynObjFileFormat)
    (alloc : SectionFactory) :
    (fmt.initObjectType alloc).2.deref (fmt.initObjectType alloc).1.f_pRelaDyn =
      some { name := ".rel.dyn", kind := LDFileFormat.Kind.ReadOnly, type := SHT_REL,
             flag := SHF_ALLOC } ∧
    (fmt.initObjectType alloc).2.deref (fmt.initObjectType alloc).1.f_pRelaPlt =
      some { name := ".rel.plt", kind := LDFileFormat.Kind.ReadOnly, type := SHT_REL,
             flag := SHF_ALLOC } ∧
    (fmt.initObjectType alloc).2.deref (some (alloc.sections.length + 5)) =
      some { name := ".rela.dyn", kind := LDFileFormat.Kind.ReadOnly, type := SHT_RELA,
             flag := SHF_ALLOC } ∧
    (fmt.initObjectType alloc).2.deref (some (alloc.sections.length + 6)) =
      some { name := ".rela.plt", kind := LDFileFormat.Kind.ReadOnly, type := SHT_RELA,
             flag := SHF_ALLOC } ∧
    some (alloc.sections.length + 5) ∉ (fmt.initObjectType alloc).1.fields ∧
    some (alloc.sections.length + 6) ∉ (fmt.initObjectType alloc).1.fields := by
  obtain ⟨h1, h2⟩ := initObjectType_relaDyn fmt alloc
  rw [h1, h2, initObjectType_fields]
  simp only [SectionFactory.deref, Option.some_bind, initObjectType_sections,
    getElem_append_at]
  refine ⟨rfl, rfl, rfl, rfl, ?_, ?_⟩ <;> simp

/-! ## Assignments of a linker script -/

/-- C23: for all assignments `a` and `b`, the statement `a = b` copies nothing: the
level, the type, the symbol operand and the expression of `a` are as before, indeed
all of `a` is; `b` is as before; and the reference returned is the one to `a`. -/
theorem operatorAssign_no_copy (a b : Assignment) :
    (a.operatorAssign b).self.m_Level = a.m_Level ∧
    (a.operatorAssign b).self.m_Type = a.m_Type ∧
    (a.operatorAssign b).self.m_Symbol = a.m_Symbol ∧
    (a.operatorAssign b).self.m_RpnExpr = a.m_RpnExpr ∧
    (a.operatorAssign b).self = a ∧
    (a.operatorAssign b).pAssignment = b ∧
    (a.operatorAssign b).returnsSelf = true :=
  ⟨rfl, rfl, rfl, rfl, rfl, rfl, rfl⟩

/-- C24: `Assignment::assign` evaluates the expression of the assignment, starting
from `result = 0`, and returns true exactly when the evaluation succeeds.  On success
the value of the symbol operand is the result of the evaluation and nothing else of
the assignment changes; on failure the assignment, its symbol operand included, is
as before. -/
theorem assign_spec (eval : RpnExpr → Nat → Bool × Nat) (a : Assignment) :
    (a.assign eval).1 = (eval a.m_RpnExpr 0).1 ∧
    ((eval a.m_RpnExpr 0).1 = true →
      (a.assign eval).2.m_Symbol.value = (eval a.m_RpnExpr 0).2 ∧
      (a.assign eval).2.m_Symbol.name = a.m_Symbol.name ∧
      (a.assign eval).2.m_Level = a.m_Level ∧
      (a.assign eval).2.m_Type = a.m_Type ∧
      (a.assign eval).2.m_RpnExpr = a.m_RpnExpr) ∧
    ((eval a.m_RpnExpr 0).1 = false → (a.assign eval).2 = a) := by
  unfold Assignment.assign
  cases h : (eval a.m_RpnExpr 0).1 <;>
    simp [h, SymOperand.setValue, SymOperand.value]

/-! ## The bit class of the target -/

/-- When host and target differ in byte order, `produce` with a bit class other than
32 and 64 reports `unsupported_bitclass` and returns no relocation. -/
theorem produce_swap_unsupported (hostLE : Bool) (f : RelocationFactory) (cfg : LinkerConfig)
    (hcfg : f.m_pConfig = some cfg) (hdiff : hostLE ≠ cfg.isLittleEndian)
    (h32 : cfg.bitclass ≠ 32) (h64 : cfg.bitclass ≠ 64) (pType : Nat)
    (pFragRef : FragmentRef) (pAddend : Nat) :
    f.produce hostLE pType pFragRef pAddend =
      { effects := [Effect.fatal Diag.unsupported_bitclass], result := none } := by
  unfold RelocationFactory.produce
  rw [hcfg]
  simp [hdiff, h32, h64]

/-- When host and target agree in byte order, `produce` does not look at the bit class
but to divide it by eight: it reads that many bytes and returns a relocation. -/
theorem produce_same_order_returns (hostLE : Bool) (f : RelocationFactory) (cfg : LinkerConfig)
    (hcfg : f.m_pConfig = some cfg) (hsame : hostLE = cfg.isLittleEndian) (pType : Nat)
    (pFragRef : FragmentRef) (pAddend : Nat) :
    (f.produce hostLE pType pFragRef pAddend).effects =
        [Effect.read (cfg.bitclass / 8), Effect.allocate] ∧
      (f.produce hostLE pType pFragRef pAddend).result.isSome = true := by
  unfold RelocationFactory.produce
  rw [hcfg]
  simp [hsame]

/-- C29 (the code at the failing input): on a little-endian host, with a little-endian
target of the bit class 16, `produce` reports nothing: it reads two bytes of the
fragment and returns a relocation, with the datum 0x0201 for the bytes 01 02.  With
a big-endian target of the same bit class it reports `unsupported_bitclass` and
returns no relocation. -/
theorem produce_sameEndian_bitclass16_returns :
    ((RelocationFactory.new 1).setConfig littleEndian16).produce true R_ARM_ABS32
        { fragment := 0, offset := 0, content := [1, 2, 3, 4] } 0 =
      { effects := [Effect.read 2, Effect.allocate],
        result := some { m_Type := R_ARM_ABS32,
                         m_TargetAddress := { fragment := 0, offset := 0,
                                              content := [1, 2, 3, 4] },
                         m_Addend := 0, m_TargetData := 0x0201 } } ∧
    ((RelocationFactory.new 1).setConfig { isLittleEndian := false, bitclass := 16 }).produce
        true R_ARM_ABS32 { fragment := 0, offset := 0, content := [1, 2, 3, 4] } 0 =
      { effects := [Effect.fatal Diag.unsupported_bitclass], result := none } := by
  decide

/-! ## Emitting the sections of the backend -/

theorem emitPLT1_spec (es : List PLTEntry) : ∀ (rs : Nat) (ws : List RegionWrite),
    (emitPLT1 es rs ws).1 = rs + (es.map PLTEntry.m_EntrySize).sum ∧
    bytesCopied (emitPLT1 es rs ws).2 = bytesCopied ws + (es.map PLTEntry.m_EntrySize).sum := by
  induction es with
  | nil =>
    intro rs ws
    simp [emitPLT1]
  | cons e rest ih =>
    intro rs ws
    obtain ⟨h1, h2⟩ := ih (rs + e.m_EntrySize) (ws ++ [{ offset := rs, length := e.m_EntrySize }])
    simp only [emitPLT1, h1, h2, List.map_cons, List.sum_cons]
    refine ⟨by omega, ?_⟩
    simp only [bytesCopied, List.map_append, List.sum_append, List.map_cons, List.map_nil,
      List.sum_cons, List.sum_nil]
    omega

theorem emitGOT_spec (es : List Nat) (size : Nat) : ∀ (i rs : Nat) (ws : List RegionWrite),
    (emitGOT es size i rs ws).1 = rs + es.length * size ∧
    bytesCopied (emitGOT es size i rs ws).2 = bytesCopied ws + es.length * 4 := by
  induction es with
  | nil =>
    intro i rs ws
    simp [emitGOT]
  | cons e rest ih =>
    intro i rs ws
    obtain ⟨h1, h2⟩ := ih (i + 1) (rs + size) (ws ++ [{ offset := 4 * i, length := 4 }])
    simp only [emitGOT, h1, h2, List.length_cons]
    refine ⟨by rw [Nat.add_mul]; omega, ?_⟩
    simp only [bytesCopied, List.map_append, List.sum_append, List.map_cons, List.map_nil,
      List.sum_cons, List.sum_nil]
    omega

/-- For `.plt` the value `emitSectionData` returns is the size of PLT0 plus the sizes
of the PLT1 entries, which is the number of bytes it copies. -/
theorem emitSectionData_plt (b : EmitBackend) (pSection : EmitSection) (regionSize : Nat)
    (fmt : EmitFormat) (plt : ARMPLTEntries) (hsize : regionSize ≠ 0)
    (hfmt : b.m_pDynObjFileFormat = some fmt)
    (hattr : some pSection.address ≠ b.m_pAttributes)
    (hsect : pSection.address = fmt.pltSection) (hplt : b.m_pPLT = some plt) :
    ∃ ws, emitSectionData b pSection regionSize =
        Emitted.returned
          (plt.plt0.m_EntrySize + (plt.plt1.map PLTEntry.m_EntrySize).sum) ws ∧
      bytesCopied ws = plt.plt0.m_EntrySize + (plt.plt1.map PLTEntry.m_EntrySize).sum := by
  obtain ⟨h1, h2⟩ := emitPLT1_spec plt.plt1 (0 + plt.plt0.m_EntrySize)
    [{ offset := 0, length := plt.plt0.m_EntrySize }]
  refine ⟨(emitPLT1 plt.plt1 (0 + plt.plt0.m_EntrySize)
    [{ offset := 0, length := plt.plt0.m_EntrySize }]).2, ?_, h2.trans ?_⟩
  · unfold emitSectionData
    rw [if_neg hsize, hfmt]
    simp only []
    rw [if_neg hattr, if_pos hsect, hplt]
    simp only [Nat.zero_add] at h1 ⊢
    rw [h1]
  · simp [bytesCopied]

/-- For `.got` the value `emitSectionData` returns is the number of entries times the
entry size; it stores four bytes for each entry. -/
theorem emitSectionData_got (b : EmitBackend) (pSection : EmitSection) (regionSize : Nat)
    (fmt : EmitFormat) (got : ARMGOTEntries) (hsize : regionSize ≠ 0)
    (hfmt : b.m_pDynObjFileFormat = some fmt)
    (hattr : some pSection.address ≠ b.m_pAttributes)
    (hplt : pSection.address ≠ fmt.pltSection)
    (hsect : pSection.address = fmt.gotSection) (hgot : b.m_pGOT = some got) :
    ∃ ws, emitSectionData b pSection regionSize =
        Emitted.returned (got.entries.length * got.entrySize) ws ∧
      bytesCopied ws = got.entries.length * 4 := by
  obtain ⟨h1, h2⟩ := emitGOT_spec got.entries got.entrySize 0 0 []
  refine ⟨(emitGOT got.entries got.entrySize 0 0 []).2, ?_, h2.trans ?_⟩
  · unfold emitSectionData
    rw [if_neg hsize, hfmt]
    simp only []
    rw [if_neg hattr, if_neg hplt, if_pos hsect, hgot]
    simp only [Nat.zero_add] at h1 ⊢
    rw [h1]
  · simp [bytesCopied]

/-- For a section that is none of the three, `emitSectionData` aborts with
"unsupported section name". -/
theorem emitSectionData_other (b : EmitBackend) (pSection : EmitSection) (regionSize : Nat)
    (fmt : EmitFormat) (hsize : regionSize ≠ 0) (hfmt : b.m_pDynObjFileFormat = some fmt)
    (hattr : some pSection.address ≠ b.m_pAttributes)
    (hplt : pSection.address ≠ fmt.pltSection) (hgot : pSection.address ≠ fmt.gotSection) :
    emitSectionData b pSection regionSize = Emitted.unsupportedSection pSection.name := by
  unfold emitSectionData
  rw [if_neg hsize, hfmt]
  simp only []
  rw [if_neg hattr, if_neg hplt, if_neg hgot]

/-- For `.ARM.attributes` the value `emitSectionData` returns is 0, whatever the size of
the region it copies. -/
theorem emitSectionData_attributes (b : EmitBackend) (pSection : EmitSection)
    (regionSize : Nat) (fmt : EmitFormat) (hsize : regionSize ≠ 0)
    (hfmt : b.m_pDynObjFileFormat = some fmt)
    (hattr : some pSection.address = b.m_pAttributes)
    (hdata : pSection.hasSectionData = true) :
    emitSectionData b pSection regionSize =
      Emitted.returned 0 [{ offset := 0, length := regionSize }] := by
  unfold emitSectionData
  rw [if_neg hsize, hfmt]
  simp only []
  rw [if_pos hattr, if_pos hdata]

/-- C30 (the code at the failing input): for the section `.ARM.attributes` and a region
of 48 bytes, `emitSectionData` copies the 48 bytes and returns 0.  For `.plt` and
`.got` of the same backend it returns 44 and 12, the numbers of bytes it copies,
and for another section it aborts. -/
theorem emitSectionData_attributes_returns_zero :
    emitSectionData emitExample
        { address := 1, name := ".ARM.attributes", hasSectionData := true } 48 =
      Emitted.returned 0 [{ offset := 0, length := 48 }] ∧
    bytesCopied [{ offset := 0, length := 48 }] = 48 ∧
    emitSectionData emitExample { address := 2, name := ".plt", hasSectionData := true } 44 =
      Emitted.returned 44 [{ offset := 0, length := 20 }, { offset := 20, length := 12 },
        { offset := 32, length := 12 }] ∧
    emitSectionData emitExample { address := 3, name := ".got", hasSectionData := true } 12 =
      Emitted.returned 12 [{ offset := 0, length := 4 }, { offset := 4, length := 4 },
        { offset := 8, length := 4 }] ∧
    emitSectionData emitExample { address := 4, name := ".text", hasSectionData := true } 8 =
      Emitted.unsupportedSection ".text" := by
  decide

end mcld
